import Mathlib

/-!
# Breakout: a shallow embedding of `src/breakout.c`

The C program is a paddle-and-ball brick breaker written against raylib.  This
file embeds its update logic (everything but rendering) as pure Lean functions
and proves properties of it.

Modelling conventions

* `float` values are idealised as elements of an arbitrary linearly ordered
  field `K` (exact arithmetic, no rounding, no NaN).  All definitions are
  computable; concrete evaluations are done at `K = ℚ`.
* `int` values (`radius`, `lives`, `points`, `remaining`) are `Int`; the values
  that occur in a game are far from the 32-bit limits, so no wrap-around is
  modelled.  An `int` used in a `float` expression is cast into `K`.
* Pointer arguments become values passed in and returned; the `NULL` guards of
  the C functions never fire in `main` and are not modelled.
* What the program obtains from raylib / the hardware is collected in `Env`:
  the screen size, `EPSILON` of `raymath.h`, `CheckCollisionCircleRec`, and the
  `_mm_rsqrt_ss` approximation used by `RSqrt`.  Key state and frame time are
  explicit inputs of the update functions.
* The brick storage `Brick **bricks` (8 rows of 13 bricks) is the function
  `Fin 8 → Fin 13 → Brick`; a `Brick *` into it is an index pair.
-/

namespace Breakout

/-! ## Constants (`#define`s of the source) -/

/-- Source: `#define SCREEN_WIDTH 800`. -/
def SCREEN_WIDTH : Int := 800
/-- Source: `#define SCREEN_HEIGHT 450`. -/
def SCREEN_HEIGHT : Int := 450
/-- Source: `#define MAX_LIVES 5`. -/
def MAX_LIVES : Int := 5
/-- Source: `#define MAX_POWERUPS 6`. -/
def MAX_POWERUPS : Nat := 6
/-- Source: `#define BALL_RADIUS 8`. -/
def BALL_RADIUS : Int := 8
/-- Source: `#define BRICK_HGAP 3`. -/
def BRICK_HGAP : Int := 3
/-- Source: `#define BRICK_VGAP 3`. -/
def BRICK_VGAP : Int := 3
/-- Source: `#define BRICK_VPAD 60`. -/
def BRICK_VPAD : Int := 60
/-- Source: `#define BRICK_HCOUNT 13`. -/
abbrev BRICK_HCOUNT : Nat := 13
/-- Source: `#define BRICK_VCOUNT 8`. -/
abbrev BRICK_VCOUNT : Nat := 8

section Model

variable {K : Type} [LinearOrderedField K]

/-- Source: `#define CIRCLE_RECT_COLLISION_EPSILON 0.000001f`. -/
def CIRCLE_RECT_COLLISION_EPSILON : K := 1 / 1000000
/-- Source: `#define BALL_SPEED 200.0f`. -/
def BALL_SPEED : K := 200
/-- Source: `#define BRICK_WIDTH 50.0f`. -/
def BRICK_WIDTH : K := 50
/-- Source: `#define BRICK_HEIGHT 20.0f`. -/
def BRICK_HEIGHT : K := 20
/-- Source: `#define BRICK_HPAD (SCREEN_WIDTH - (BRICK_HCOUNT * (BRICK_WIDTH + BRICK_HGAP)
- BRICK_HGAP)) / 2.0f`. -/
def BRICK_HPAD : K :=
  ((SCREEN_WIDTH : K) - ((BRICK_HCOUNT : K) * (BRICK_WIDTH + (BRICK_HGAP : K)) - (BRICK_HGAP : K))) / 2

end Model

/-! ## Data model (the `struct`s of the source) -/

/-- The three raylib colours the program uses; cosmetic only. -/
inductive Color where
  | GRAY
  | LIGHTGRAY
  | DARKGRAY
  deriving DecidableEq, Repr

/-- The raylib `Vector2`. -/
structure Vector2 (K : Type) where
  x : K
  y : K
  deriving DecidableEq, Repr

/-- The raylib `Rectangle`. -/
structure Rectangle (K : Type) where
  x : K
  y : K
  width : K
  height : K
  deriving DecidableEq, Repr

/-- Source: `struct GameState`. -/
structure GameState where
  gameOver : Bool
  points : Int
  deriving DecidableEq, Repr

/-- Source: `struct Player`. -/
structure Player (K : Type) where
  rect : Rectangle K
  color : Color
  speed : K
  lives : Int
  deriving DecidableEq, Repr

/-- Source: `struct Ball`. -/
structure Ball (K : Type) where
  radius : Int
  pos : Vector2 K
  prevPos : Vector2 K
  velocity : Vector2 K
  speed : K
  enabled : Bool
  deriving DecidableEq, Repr

/-- Source: `struct Brick`. -/
structure Brick (K : Type) where
  rect : Rectangle K
  color : Color
  enabled : Bool
  deriving DecidableEq, Repr

/-- Source: `struct BrickWall`; `bricks[r][c]` is `bricks r c`. -/
structure BrickWall (K : Type) where
  bricks : Fin BRICK_VCOUNT → Fin BRICK_HCOUNT → Brick K
  remaining : Int

/-- What the program reads from raylib and the hardware. -/
structure Env (K : Type) where
  /-- Value of `GetScreenWidth()`. -/
  screenWidth : Int
  /-- Value of `GetScreenHeight()`. -/
  screenHeight : Int
  /-- The macro `EPSILON` of `raymath.h`. -/
  EPSILON : K
  /-- The raylib circle-versus-rectangle overlap test. -/
  CheckCollisionCircleRec : Vector2 K → K → Rectangle K → Bool
  /-- The hardware reciprocal square root `_mm_rsqrt_ss` behind `RSqrt`. -/
  RSqrt : K → K

/-- The four variables `UpdateBall` works on. -/
structure World (K : Type) where
  ball : Ball K
  player : Player K
  wall : BrickWall K
  state : GameState

/-- Source: `struct PowerUp`; `apply` is the function pointer `PowerUpF`, which returns the
updated player and ball. -/
structure PowerUp (K : Type) where
  apply : Player K → Ball K → Player K × Ball K
  display : String
  threshold : Int
  acquired : Bool
  displayTimer : K

/-- The variables of `main` that the frame loop updates. -/
structure Game (K : Type) where
  state : GameState
  player : Player K
  ball : Ball K
  wall : BrickWall K
  powerUps : List (PowerUp K)

/-- What one frame reads from raylib: `IsKeyDown(KEY_RIGHT)`, `IsKeyDown(KEY_LEFT)`,
`IsKeyPressed(KEY_SPACE)` and `GetFrameTime()`. -/
structure FrameInput (K : Type) where
  keyRight : Bool
  keyLeft : Bool
  keySpace : Bool
  deltaTime : K

section Model

variable {K : Type} [LinearOrderedField K]

/-! ## Vector math and initialisation -/

/-- Source: `Normalize2`. -/
def Normalize2 (E : Env K) (vec : Vector2 K) : Vector2 K :=
  let rsqrt := E.RSqrt (vec.x * vec.x + vec.y * vec.y)
  { x := vec.x * rsqrt, y := vec.y * rsqrt }

/-- Source: `InitGameState`. -/
def InitGameState : GameState :=
  { gameOver := false, points := 0 }

/-- Source: `InitPlayer`. -/
def InitPlayer : Player K :=
  { rect := { x := 350, y := 410, width := 100, height := 20 }
    speed := 200
    color := Color.GRAY
    lives := MAX_LIVES }

/-- Source: `PlayerBottomMid`. -/
def PlayerBottomMid (player : Player K) : Vector2 K :=
  { x := player.rect.x + player.rect.width / 2
    y := player.rect.y + player.rect.height }

/-- Source: `PlayerRect`. -/
def PlayerRect (player : Player K) : Rectangle K :=
  { x := player.rect.x, y := player.rect.y
    width := player.rect.width, height := player.rect.height }

/-- Source: `InitBall`; every field of the ball is overwritten. -/
def InitBall (player : Player K) : Ball K :=
  let pos : Vector2 K := { x := (PlayerBottomMid player).x, y := player.rect.y - 15 }
  { radius := BALL_RADIUS
    pos := pos
    prevPos := pos
    speed := 0
    velocity := { x := 0, y := 0 }
    enabled := false }

/-- Source: `InitBrickWall`; the colour alternates along a row and the first colour
alternates from row to row. -/
def InitBrickWall : BrickWall K :=
  { bricks := fun r c =>
      { rect :=
          { x := BRICK_HPAD + ((c : Nat) : K) * (BRICK_WIDTH + (BRICK_HGAP : K))
            y := (BRICK_VPAD : K) + ((r : Nat) : K) * (BRICK_HEIGHT + (BRICK_VGAP : K))
            width := BRICK_WIDTH
            height := BRICK_HEIGHT }
        color := if ((r : Nat) + (c : Nat)) % 2 = 1 then Color.DARKGRAY else Color.LIGHTGRAY
        enabled := true }
    remaining := (BRICK_HCOUNT : Int) * (BRICK_VCOUNT : Int) }

/-! ## Paddle -/

/-- Source: `UpdatePlayer`; `keyRight` and `keyLeft` are `IsKeyDown(KEY_RIGHT)` and
`IsKeyDown(KEY_LEFT)`. -/
def UpdatePlayer (E : Env K) (player : Player K) (keyRight keyLeft : Bool) (deltaTime : K) :
    Player K :=
  let movement := player.speed * deltaTime
  let x1 := if keyRight then player.rect.x + movement else player.rect.x
  let x2 := if keyLeft then x1 - movement else x1
  let x3 :=
    if x2 < 0 then 0
    else if x2 + player.rect.width ≥ (E.screenWidth : K) then (E.screenWidth : K) - player.rect.width
    else x2
  { player with rect := { player.rect with x := x3 } }

/-! ## Collision engine -/

/-- Source: `BallHandlePlayerCollision`. -/
def BallHandlePlayerCollision (E : Env K) (ball : Ball K) (player : Player K) : Ball K :=
  if !E.CheckCollisionCircleRec ball.prevPos (ball.radius : K) (PlayerRect player) then ball
  else
    let collisionPoint : Vector2 K := { x := ball.pos.x, y := ball.pos.y - (ball.radius : K) }
    let playerBottomMid := PlayerBottomMid player
    let velocity : Vector2 K :=
      { x := collisionPoint.x - playerBottomMid.x, y := collisionPoint.y - playerBottomMid.y }
    { ball with velocity := Normalize2 E velocity, speed := ball.speed + 5 }

/-- The part of `BallHandleBrickCollision` before the final speed increase: the chain of
eight corner / edge branches. -/
def brickBounce (E : Env K) (ball : Ball K) (brick : Brick K) : Ball K :=
  let left := brick.rect.x
  let top := brick.rect.y
  let right := brick.rect.x + brick.rect.width
  let bottom := brick.rect.y + brick.rect.height
  let sLeft : Bool := decide (ball.prevPos.x < left) && decide (ball.velocity.x > E.EPSILON)
  let sTop : Bool := decide (ball.prevPos.y < top) && decide (ball.velocity.y > E.EPSILON)
  let sRight : Bool := decide (ball.prevPos.x > right) && decide (ball.velocity.x < -E.EPSILON)
  let sBottom : Bool := decide (ball.prevPos.y > bottom) && decide (ball.velocity.y < -E.EPSILON)
  let r : K := (ball.radius : K)
  let flipX (px : K) : Ball K :=
    { ball with velocity := { ball.velocity with x := -ball.velocity.x }
                pos := { ball.pos with x := px } }
  let flipY (py : K) : Ball K :=
    { ball with velocity := { ball.velocity with y := -ball.velocity.y }
                pos := { ball.pos with y := py } }
  let flipXY (px py : K) : Ball K :=
    { ball with velocity := { x := -ball.velocity.x, y := -ball.velocity.y }
                pos := { x := px, y := py } }
  if sLeft && sTop then
    let dx := left - ball.prevPos.x
    let dy := top - ball.prevPos.y
    if dy < dx - CIRCLE_RECT_COLLISION_EPSILON then flipX (left - r)
    else if dy > dx + CIRCLE_RECT_COLLISION_EPSILON then flipY (top - r)
    else flipXY (left - r) (top - r)
  else if sLeft && sBottom then
    let dx := left - ball.prevPos.x
    let dy := ball.prevPos.y - bottom
    if dy < dx - CIRCLE_RECT_COLLISION_EPSILON then flipX (left - r)
    else if dy > dx + CIRCLE_RECT_COLLISION_EPSILON then flipY (bottom + r)
    else flipXY (left - r) (bottom + r)
  else if sRight && sTop then
    let dx := ball.prevPos.x - right
    let dy := top - ball.prevPos.y
    if dy < dx - CIRCLE_RECT_COLLISION_EPSILON then flipX (right + r)
    else if dy > dx + CIRCLE_RECT_COLLISION_EPSILON then flipY (top - r)
    else flipXY (right + r) (top - r)
  else if sRight && sBottom then
    let dx := ball.prevPos.x - right
    let dy := ball.prevPos.y - bottom
    if dy < dx - CIRCLE_RECT_COLLISION_EPSILON then flipX (right + r)
    else if dy > dx + CIRCLE_RECT_COLLISION_EPSILON then flipY (bottom + r)
    else flipXY (right + r) (bottom + r)
  else if sLeft then flipX (left - r)
  else if sRight then flipX (right + r)
  else if sTop then flipY (top - r)
  else if sBottom then flipY (bottom + r)
  else ball

/-- Source: `BallHandleBrickCollision`. -/
def BallHandleBrickCollision (E : Env K) (ball : Ball K) (brick : Brick K) : Ball K :=
  let b := brickBounce E ball brick
  { b with speed := b.speed + 2 }

/-- Source: `BallHandleArenaCollision`; returns the ball, the player and the game state. -/
def BallHandleArenaCollision (E : Env K) (ball : Ball K) (player : Player K) (state : GameState) :
    Ball K × Player K × GameState :=
  let width := E.screenWidth
  let height := E.screenHeight
  let ball1 : Ball K :=
    if ball.prevPos.x < (ball.radius : K) then
      { ball with velocity := { ball.velocity with x := -ball.velocity.x }
                  pos := { ball.pos with x := (ball.radius : K) } }
    else if ball.prevPos.x > ((width - ball.radius : Int) : K) then
      { ball with velocity := { ball.velocity with x := -ball.velocity.x }
                  pos := { ball.pos with x := ((width - ball.radius : Int) : K) } }
    else ball
  if ball1.prevPos.y < (ball1.radius : K) then
    ({ ball1 with velocity := { ball1.velocity with y := -ball1.velocity.y }
                  pos := { ball1.pos with y := (ball1.radius : K) } }, player, state)
  else if ball1.prevPos.y > ((height - ball1.radius : Int) : K) then
    let player1 : Player K := { player with lives := player.lives - 1 }
    let state1 : GameState := { state with points := state.points - 10 }
    (InitBall player1, player1, state1)
  else (ball1, player, state)

/-- Source: `BallCheckWallCollision`; the row-major scan, returning the indices of the
first brick that is enabled and overlaps the circle at the previous position. -/
def BallCheckWallCollision (E : Env K) (wall : BrickWall K) (ball : Ball K) :
    Option (Fin BRICK_VCOUNT × Fin BRICK_HCOUNT) :=
  (List.finRange BRICK_VCOUNT).findSome? fun r =>
    (List.finRange BRICK_HCOUNT).findSome? fun c =>
      let brick := wall.bricks r c
      if !brick.enabled then none
      else if !E.CheckCollisionCircleRec ball.prevPos (ball.radius : K) brick.rect then none
      else some (r, c)

/-- The assignment `collided->enabled = false` on the brick at `rc`. -/
def disableBrick (bricks : Fin BRICK_VCOUNT → Fin BRICK_HCOUNT → Brick K)
    (rc : Fin BRICK_VCOUNT × Fin BRICK_HCOUNT) : Fin BRICK_VCOUNT → Fin BRICK_HCOUNT → Brick K :=
  fun r c => if (r, c) = rc then { bricks r c with enabled := false } else bricks r c

/-- The part of `UpdateBall` after the launch / docked test: paddle collision, brick scan and
hit, arena collision, then the integration of the position. -/
def ballStep (E : Env K) (w : World K) (deltaTime : K) : World K :=
  let ball1 := BallHandlePlayerCollision E w.ball w.player
  let hit : Ball K × BrickWall K × GameState :=
    match BallCheckWallCollision E w.wall ball1 with
    | some rc =>
        let bricks := disableBrick w.wall.bricks rc
        (BallHandleBrickCollision E ball1 (bricks rc.1 rc.2),
          { bricks := bricks, remaining := w.wall.remaining - 1 },
          { w.state with points := w.state.points + 1 })
    | none => (ball1, w.wall, w.state)
  let arena := BallHandleArenaCollision E hit.1 w.player hit.2.2
  let ball3 := arena.1
  let speed := ball3.speed * deltaTime
  let prevPos := ball3.pos
  let pos : Vector2 K :=
    { x := ball3.pos.x + ball3.velocity.x * speed, y := ball3.pos.y + ball3.velocity.y * speed }
  { ball := { ball3 with prevPos := prevPos, pos := pos }
    player := arena.2.1
    wall := hit.2.1
    state := arena.2.2 }

/-- The four assignments of `UpdateBall` that launch a docked ball. -/
def launchBall (ball : Ball K) : Ball K :=
  { ball with enabled := true, speed := BALL_SPEED, velocity := { x := 0, y := -1 } }

/-- Source: `UpdateBall`; `keySpace` is `IsKeyPressed(KEY_SPACE)`. -/
def UpdateBall (E : Env K) (w : World K) (keySpace : Bool) (deltaTime : K) : World K :=
  if !w.ball.enabled && keySpace then
    ballStep E { w with ball := launchBall w.ball } deltaTime
  else if !w.ball.enabled then
    { w with ball := { w.ball with pos := { w.ball.pos with x := (PlayerBottomMid w.player).x } } }
  else ballStep E w deltaTime

/-! ## Power-ups and the frame loop of `main` -/

/-- Source: `PowerUpIncPlayerSize`. -/
def PowerUpIncPlayerSize (player : Player K) (ball : Ball K) : Player K × Ball K :=
  ({ player with rect := { player.rect with width := player.rect.width + 35 } }, ball)

/-- Source: `PowerUpIncPlayerSize2`. -/
def PowerUpIncPlayerSize2 (player : Player K) (ball : Ball K) : Player K × Ball K :=
  ({ player with rect := { player.rect with width := player.rect.width + 65 } }, ball)

/-- Source: `PowerUpIncPlayerSpeed`. -/
def PowerUpIncPlayerSpeed (player : Player K) (ball : Ball K) : Player K × Ball K :=
  ({ player with speed := player.speed + 25 }, ball)

/-- Source: `PowerUpIncPlayerSpeed2`. -/
def PowerUpIncPlayerSpeed2 (player : Player K) (ball : Ball K) : Player K × Ball K :=
  ({ player with speed := player.speed + 50 }, ball)

/-- Source: `PowerUpDecPlayerSize`. -/
def PowerUpDecPlayerSize (player : Player K) (ball : Ball K) : Player K × Ball K :=
  ({ player with rect := { player.rect with width := player.rect.width - 25 } }, ball)

/-- Source: `PowerUpDecPlayerSize2`. -/
def PowerUpDecPlayerSize2 (player : Player K) (ball : Ball K) : Player K × Ball K :=
  ({ player with rect := { player.rect with width := player.rect.width - 40 } }, ball)

/-- Source: `PowerUpIncBallSpeed`. -/
def PowerUpIncBallSpeed (player : Player K) (ball : Ball K) : Player K × Ball K :=
  (player, { ball with speed := ball.speed + 2 })

/-- Source: `PowerUpIncBallSpeed2`. -/
def PowerUpIncBallSpeed2 (player : Player K) (ball : Ball K) : Player K × Ball K :=
  (player, { ball with speed := ball.speed + 5 })

/-- Source: `PowerUpDecBallSpeed`. -/
def PowerUpDecBallSpeed (player : Player K) (ball : Ball K) : Player K × Ball K :=
  (player, { ball with speed := ball.speed - 2 })

/-- Source: `PowerUpDecBallSpeed2`. -/
def PowerUpDecBallSpeed2 (player : Player K) (ball : Ball K) : Player K × Ball K :=
  (player, { ball with speed := ball.speed - 5 })

/-- Source: the threshold loop of `main`,
`powerUps[i].threshold = (i + 1) * maxPoints / (MAX_POWERUPS + 1)` in `size_t` arithmetic. -/
def powerUpThreshold (i : Nat) : Int :=
  (((i + 1) * (BRICK_HCOUNT * BRICK_VCOUNT) / (MAX_POWERUPS + 1) : Nat) : Int)

/-- Source: the table `powerUps` of `main` after the threshold loop (thresholds 14, 29, 44,
59, 74, 89). -/
def initPowerUps : List (PowerUp K) :=
  [ { apply := PowerUpIncPlayerSpeed, display := "+ Speed", threshold := powerUpThreshold 0
      acquired := false, displayTimer := 2 },
    { apply := PowerUpIncPlayerSpeed, display := "+ Speed", threshold := powerUpThreshold 1
      acquired := false, displayTimer := 2 },
    { apply := PowerUpIncPlayerSize, display := "+ Size", threshold := powerUpThreshold 2
      acquired := false, displayTimer := 2 },
    { apply := PowerUpIncPlayerSpeed, display := "+ Speed", threshold := powerUpThreshold 3
      acquired := false, displayTimer := 2 },
    { apply := PowerUpIncPlayerSpeed2, display := "++ Speed", threshold := powerUpThreshold 4
      acquired := false, displayTimer := 2 },
    { apply := PowerUpIncPlayerSize, display := "+ Size", threshold := powerUpThreshold 5
      acquired := false, displayTimer := 2 } ]

/-- Source: the `Reward player` loop of `main`, over the entries of the table in order. -/
def rewardPlayer (points : Int) (deltaTime : K) :
    List (PowerUp K) → Player K → Ball K → List (PowerUp K) × Player K × Ball K
  | [], player, ball => ([], player, ball)
  | pu :: rest, player, ball =>
    if pu.acquired then
      let r := rewardPlayer points deltaTime rest player ball
      ({ pu with displayTimer := pu.displayTimer - deltaTime } :: r.1, r.2.1, r.2.2)
    else if pu.threshold > points then
      let r := rewardPlayer points deltaTime rest player ball
      (pu :: r.1, r.2.1, r.2.2)
    else
      let pb := pu.apply player ball
      let r := rewardPlayer points deltaTime rest pb.1 pb.2
      ({ pu with acquired := true } :: r.1, r.2.1, r.2.2)

/-- Source: the update part of one iteration of the `while` loop of `main` (everything before
the label `render`). -/
def frameUpdate (E : Env K) (g : Game K) (i : FrameInput K) : Game K :=
  if g.state.gameOver then g
  else
    let player := UpdatePlayer E g.player i.keyRight i.keyLeft i.deltaTime
    let w := UpdateBall E { ball := g.ball, player := player, wall := g.wall, state := g.state }
      i.keySpace i.deltaTime
    let r := rewardPlayer w.state.points i.deltaTime g.powerUps w.player w.ball
    let state : GameState :=
      if w.wall.remaining == 0 || r.2.1.lives == 0 then { w.state with gameOver := true }
      else w.state
    { state := state, player := r.2.1, ball := r.2.2, wall := w.wall, powerUps := r.1 }

/-- Source: the initialisation of `main` before the loop. -/
def initGame : Game K :=
  { state := InitGameState
    player := InitPlayer
    ball := InitBall InitPlayer
    wall := InitBrickWall
    powerUps := initPowerUps }

/-- The state after a sequence of frames, one `FrameInput` per frame. -/
def runFrames (E : Env K) (g : Game K) (inputs : List (FrameInput K)) : Game K :=
  inputs.foldl (frameUpdate E) g

/-! ## Notions used to state the properties -/

/-- Number of bricks of the grid whose `enabled` flag is set. -/
def enabledCount (wall : BrickWall K) : Nat :=
  (Finset.univ.filter fun rc : Fin BRICK_VCOUNT × Fin BRICK_HCOUNT =>
    (wall.bricks rc.1 rc.2).enabled = true).card

/-- The test the scan makes on one brick: it is enabled and overlaps the circle at the
ball's previous position. -/
def brickHit (E : Env K) (wall : BrickWall K) (ball : Ball K)
    (r : Fin BRICK_VCOUNT) (c : Fin BRICK_HCOUNT) : Bool :=
  (wall.bricks r c).enabled &&
    E.CheckCollisionCircleRec ball.prevPos (ball.radius : K) (wall.bricks r c).rect

/-- The condition under which `BallHandleArenaCollision` takes its bottom-wall branch. -/
def crossesBottom (E : Env K) (ball : Ball K) : Prop :=
  ¬ ball.prevPos.y < (ball.radius : K) ∧
    ball.prevPos.y > ((E.screenHeight - ball.radius : Int) : K)

instance (E : Env K) (ball : Ball K) : Decidable (crossesBottom E ball) := by
  unfold crossesBottom
  infer_instance

/-- The state after a sequence of `UpdateBall` ticks, one `(keySpace, deltaTime)` per tick. -/
def runBall (E : Env K) (w : World K) (inputs : List (Bool × K)) : World K :=
  inputs.foldl (fun w i => UpdateBall E w i.1 i.2) w

/-- Outcome of a single-axis bounce on a vertical edge: only `velocity.x` is negated and only
`pos.x` is set, to `px`. -/
def onlyXReflected (ball res : Ball K) (px : K) : Prop :=
  res.velocity = { x := -ball.velocity.x, y := ball.velocity.y } ∧
    res.pos = { x := px, y := ball.pos.y }

/-- Outcome of a single-axis bounce on a horizontal edge: only `velocity.y` is negated and only
`pos.y` is set, to `py`. -/
def onlyYReflected (ball res : Ball K) (py : K) : Prop :=
  res.velocity = { x := ball.velocity.x, y := -ball.velocity.y } ∧
    res.pos = { x := ball.pos.x, y := py }

/-- The ball of `ballStep` after collision resolution (paddle, brick and arena), before the
integration of the position; the same expressions as in `ballStep`. -/
def resolvedBall (E : Env K) (w : World K) : Ball K :=
  let ball1 := BallHandlePlayerCollision E w.ball w.player
  let hit : Ball K × BrickWall K × GameState :=
    match BallCheckWallCollision E w.wall ball1 with
    | some rc =>
        let bricks := disableBrick w.wall.bricks rc
        (BallHandleBrickCollision E ball1 (bricks rc.1 rc.2),
          { bricks := bricks, remaining := w.wall.remaining - 1 },
          { w.state with points := w.state.points + 1 })
    | none => (ball1, w.wall, w.state)
  (BallHandleArenaCollision E hit.1 w.player hit.2.2).1

/-- Outcome of a corner bounce: both velocity components are negated and `pos` is set to
`(px, py)`. -/
def bothReflected (ball res : Ball K) (px py : K) : Prop :=
  res.velocity = { x := -ball.velocity.x, y := -ball.velocity.y } ∧
    res.pos = { x := px, y := py }

/-- Source: `sideCollision[0]` of `BallHandleBrickCollision`, the flag of the left side. -/
def sideCollisionLeft (E : Env K) (ball : Ball K) (brick : Brick K) : Prop :=
  ball.prevPos.x < brick.rect.x ∧ ball.velocity.x > E.EPSILON

instance (E : Env K) (ball : Ball K) (brick : Brick K) :
    Decidable (sideCollisionLeft E ball brick) := by
  unfold sideCollisionLeft
  infer_instance

/-- Source: `sideCollision[1]` of `BallHandleBrickCollision`, the flag of the top side. -/
def sideCollisionTop (E : Env K) (ball : Ball K) (brick : Brick K) : Prop :=
  ball.prevPos.y < brick.rect.y ∧ ball.velocity.y > E.EPSILON

instance (E : Env K) (ball : Ball K) (brick : Brick K) :
    Decidable (sideCollisionTop E ball brick) := by
  unfold sideCollisionTop
  infer_instance

/-- Source: `sideCollision[2]` of `BallHandleBrickCollision`, the flag of the right side. -/
def sideCollisionRight (E : Env K) (ball : Ball K) (brick : Brick K) : Prop :=
  ball.prevPos.x > brick.rect.x + brick.rect.width ∧ ball.velocity.x < -E.EPSILON

instance (E : Env K) (ball : Ball K) (brick : Brick K) :
    Decidable (sideCollisionRight E ball brick) := by
  unfold sideCollisionRight
  infer_instance

/-- Source: `sideCollision[3]` of `BallHandleBrickCollision`, the flag of the bottom side. -/
def sideCollisionBottom (E : Env K) (ball : Ball K) (brick : Brick K) : Prop :=
  ball.prevPos.y > brick.rect.y + brick.rect.height ∧ ball.velocity.y < -E.EPSILON

instance (E : Env K) (ball : Ball K) (brick : Brick K) :
    Decidable (sideCollisionBottom E ball brick) := by
  unfold sideCollisionBottom
  infer_instance

/-- A power-up effect that leaves the paddle's lives as they are. -/
def KeepsLives (f : Player K → Ball K → Player K × Ball K) : Prop :=
  ∀ p b, (f p b).1.lives = p.lives

/-- A power-up effect that leaves the ball's radius as it is. -/
def KeepsRadius (f : Player K → Ball K → Player K × Ball K) : Prop :=
  ∀ p b, (f p b).2.radius = b.radius

/-- A power-up effect that leaves the paddle rectangle as it is. -/
def KeepsRect (f : Player K → Ball K → Player K × Ball K) : Prop :=
  ∀ p b, (f p b).1.rect = p.rect

/-- A power-up effect that widens the paddle by 35 and leaves its other coordinates. -/
def Widens35 (f : Player K → Ball K → Player K × Ball K) : Prop :=
  ∀ p b, (f p b).1.rect = { p.rect with width := p.rect.width + 35 }

/-- `WidthBudget pus n`: exactly `n` entries of the table `pus` are size power-ups not yet
acquired; every other entry is acquired already or leaves the paddle rectangle alone. -/
inductive WidthBudget : List (PowerUp K) → Nat → Prop
  | nil : WidthBudget [] 0
  | keeps (pu : PowerUp K) (rest : List (PowerUp K)) (n : Nat) :
      KeepsRect pu.apply → WidthBudget rest n → WidthBudget (pu :: rest) n
  | done (pu : PowerUp K) (rest : List (PowerUp K)) (n : Nat) :
      pu.acquired = true → WidthBudget rest n → WidthBudget (pu :: rest) n
  | pending (pu : PowerUp K) (rest : List (PowerUp K)) (n : Nat) :
      pu.acquired = false → Widens35 pu.apply → WidthBudget rest n →
      WidthBudget (pu :: rest) (n + 1)

/-- A point lies in a rectangle, edges included. -/
def pointInRect (p : Vector2 K) (rec : Rectangle K) : Prop :=
  rec.x ≤ p.x ∧ p.x ≤ rec.x + rec.width ∧ rec.y ≤ p.y ∧ p.y ≤ rec.y + rec.height

instance (p : Vector2 K) (rec : Rectangle K) : Decidable (pointInRect p rec) := by
  unfold pointInRect
  infer_instance

/-- Two rectangles are at least `gap` apart along the x axis or along the y axis. -/
def separatedBy (gap : K) (a b : Rectangle K) : Prop :=
  a.x + a.width + gap ≤ b.x ∨ b.x + b.width + gap ≤ a.x ∨
    a.y + a.height + gap ≤ b.y ∨ b.y + b.height + gap ≤ a.y

instance (gap : K) (a b : Rectangle K) : Decidable (separatedBy gap a b) := by
  unfold separatedBy
  infer_instance

/-! ## The environment of `main` -/

/-- Modelled from the spec: the circle-versus-rectangle overlap test, which belongs to raylib
and is not part of the sources; written after raylib's `CheckCollisionCircleRec`. -/
def circleRecOverlap (center : Vector2 K) (radius : K) (rec : Rectangle K) : Bool :=
  let recCenterX := rec.x + rec.width / 2
  let recCenterY := rec.y + rec.height / 2
  let dx := |center.x - recCenterX|
  let dy := |center.y - recCenterY|
  if dx > rec.width / 2 + radius then false
  else if dy > rec.height / 2 + radius then false
  else if dx ≤ rec.width / 2 then true
  else if dy ≤ rec.height / 2 then true
  else
    let cornerDistanceSq :=
      (dx - rec.width / 2) * (dx - rec.width / 2) + (dy - rec.height / 2) * (dy - rec.height / 2)
    decide (cornerDistanceSq ≤ radius * radius)

/-- The environment of `main`: the 800 x 450 window opened by `InitWindow`, `EPSILON` of
`raymath.h` (0.000001), the overlap test above and a reciprocal square root `rsqrt`. -/
def mainEnv (rsqrt : K → K) : Env K :=
  { screenWidth := 800
    screenHeight := 450
    EPSILON := 1 / 1000000
    CheckCollisionCircleRec := circleRecOverlap
    RSqrt := rsqrt }

end Model

/-! ## Concrete data over the rationals, used to evaluate the definitions -/

/-- One Newton step loop for the integer square root, started at or above the root. -/
def isqrtLoop (n : Nat) : Nat → Nat → Nat
  | 0, x => x
  | fuel + 1, x =>
    let y := (x + n / x) / 2
    if y < x then isqrtLoop n fuel y else x

/-- Integer square root (floor), by Newton iteration from `n`; 200 steps are enough for every
`n` below `2^190`. -/
def isqrt (n : Nat) : Nat :=
  isqrtLoop n 200 n

/-- Modelled from the spec: a rational stand-in for the hardware reciprocal square root
`_mm_rsqrt_ss`, which is an approximation and not part of the sources.  For `x = n / d > 0`
it returns `4096 d / isqrt (4096^2 n d)`, which overestimates `1 / sqrt x` by a relative error
below `1 / 4095` (the hardware promises `1.5 * 2^-12`) and is exact when `x` is the square of
a rational; it returns 0 for `x ≤ 0`, where the hardware returns infinity or NaN. -/
def rsqrtQ (x : ℚ) : ℚ :=
  if x ≤ 0 then 0
  else ((x.den : ℚ) * 4096) / (isqrt (x.num.natAbs * x.den * 4096 * 4096) : ℚ)

/-- The environment of `main` over the rationals. -/
def envQ : Env ℚ := mainEnv rsqrtQ

/-- A launched ball whose previous position is inside the top-left brick of the wall. -/
def ballInBrick : Ball ℚ :=
  { radius := 8, pos := { x := 82, y := 60 }, prevPos := { x := 82, y := 70 }
    velocity := { x := 0, y := -1 }, speed := 200, enabled := true }

/-- A launched ball whose previous position is below the bottom boundary test line. -/
def ballBelow : Ball ℚ :=
  { radius := 8, pos := { x := 300, y := 449 }, prevPos := { x := 300, y := 445 }
    velocity := { x := 0, y := 1 }, speed := 240, enabled := true }

/-- A wall with every brick destroyed. -/
def clearedWall : BrickWall ℚ :=
  { bricks := fun r c => { (InitBrickWall : BrickWall ℚ).bricks r c with enabled := false }
    remaining := 0 }

/-- A paddle wider than the 800 pixel screen. -/
def widePlayer : Player ℚ :=
  { rect := { x := 0, y := 410, width := 900, height := 20 }
    color := Color.GRAY, speed := 200, lives := 5 }

/-- A brick with corners (100, 100) and (150, 120). -/
def sampleBrick : Brick ℚ :=
  { rect := { x := 100, y := 100, width := 50, height := 20 }
    color := Color.LIGHTGRAY, enabled := false }

/-- A ball up and to the left of `sampleBrick`, at equal distance 5 from its left and top
edges, moving right and down. -/
def ballAtCorner : Ball ℚ :=
  { radius := 8, pos := { x := 97, y := 99 }, prevPos := { x := 95, y := 95 }
    velocity := { x := 3 / 5, y := 4 / 5 }, speed := 200, enabled := true }

/-- A ball up and to the left of `sampleBrick`, 7 from its left edge and 1 from its top edge
(the top edge is the nearer one), moving right and down. -/
def ballNearTop : Ball ℚ :=
  { radius := 8, pos := { x := 96, y := 103 }, prevPos := { x := 93, y := 99 }
    velocity := { x := 3 / 5, y := 4 / 5 }, speed := 200, enabled := true }

/-- A ball up and to the left of `sampleBrick`, 2 from its left edge and 6 from its top edge
(the left edge is the nearer one), moving right and down. -/
def ballNearLeft : Ball ℚ :=
  { radius := 8, pos := { x := 101, y := 98 }, prevPos := { x := 98, y := 94 }
    velocity := { x := 3 / 5, y := 4 / 5 }, speed := 200, enabled := true }

/-- The initial paddle, wall and game state with `ballInBrick`. -/
def worldInBrick : World ℚ :=
  { ball := ballInBrick, player := InitPlayer, wall := InitBrickWall, state := InitGameState }

/-- The initial paddle and game state with `ballInBrick` and the cleared wall. -/
def worldCleared : World ℚ :=
  { ball := ballInBrick, player := InitPlayer, wall := clearedWall, state := InitGameState }

/-- The initial paddle, wall and game state with `ballBelow`. -/
def worldBelow : World ℚ :=
  { ball := ballBelow, player := InitPlayer, wall := InitBrickWall, state := InitGameState }

/-- A sequence of 60 frames, all with positive frame time, after which the paddle sticks
out of the arena.  Frames 1 to 5: launch, bounce off the lowest brick of the middle column
and then off the paddle, which has moved right by 4899/140 so that the new direction is
`(-4899/4901, -140/4901)`.  Frame 6 moves the paddle to the right wall.  Frames 6 to 11
take the ball over the left wall, the top wall and the right wall to the top row.  From
frame 12 on the ball crosses rows 0, 1, 2 and the first four bricks of row 3, each frame
ending with its previous position inside the next brick; the 44th brick is destroyed in
frame 60.  Entries are `⟨keyRight, keyLeft, keySpace, deltaTime⟩`. -/
def overflowInputs : List (FrameInput ℚ) :=
  [
    ⟨false, false, true, 3 / 4⟩,
    ⟨true, false, false, 4899 / 28000⟩,
    ⟨false, false, false, 78 / 101⟩,
    ⟨false, false, false, 16 / 101⟩,
    ⟨false, false, false, 1960400 / 1014093⟩,
    ⟨true, false, false, 2524465892 / 35493255⟩,
    ⟨false, false, false, 4901 / 1014093⟩,
    ⟨false, false, false, 3876691 / 1014093⟩,
    ⟨false, false, false, 1339536419 / 283946040⟩,
    ⟨false, false, false, 362674 / 1014093⟩,
    ⟨false, false, false, 259753 / 1014093⟩,
    ⟨false, false, false, 259753 / 1023891⟩,
    ⟨false, false, false, 259753 / 1033689⟩,
    ⟨false, false, false, 259753 / 1043487⟩,
    ⟨false, false, false, 259753 / 1053285⟩,
    ⟨false, false, false, 259753 / 1063083⟩,
    ⟨false, false, false, 259753 / 1072881⟩,
    ⟨false, false, false, 19981 / 83283⟩,
    ⟨false, false, false, 259753 / 1092477⟩,
    ⟨false, false, false, 259753 / 1102275⟩,
    ⟨false, false, false, 259753 / 1112073⟩,
    ⟨false, false, false, 259753 / 1121871⟩,
    ⟨false, false, false, 401882 / 1131669⟩,
    ⟨false, false, false, 13874731 / 106536920⟩,
    ⟨false, false, false, 362674 / 1141467⟩,
    ⟨false, false, false, 259753 / 1141467⟩,
    ⟨false, false, false, 259753 / 1151265⟩,
    ⟨false, false, false, 259753 / 1161063⟩,
    ⟨false, false, false, 259753 / 1170861⟩,
    ⟨false, false, false, 259753 / 1180659⟩,
    ⟨false, false, false, 259753 / 1190457⟩,
    ⟨false, false, false, 259753 / 1200255⟩,
    ⟨false, false, false, 19981 / 93081⟩,
    ⟨false, false, false, 259753 / 1219851⟩,
    ⟨false, false, false, 259753 / 1229649⟩,
    ⟨false, false, false, 259753 / 1239447⟩,
    ⟨false, false, false, 259753 / 1249245⟩,
    ⟨false, false, false, 401882 / 1259043⟩,
    ⟨false, false, false, 2935699 / 59212580⟩,
    ⟨false, false, false, 9802 / 34293⟩,
    ⟨false, false, false, 259753 / 1268841⟩,
    ⟨false, false, false, 8957 / 44091⟩,
    ⟨false, false, false, 259753 / 1288437⟩,
    ⟨false, false, false, 4901 / 24495⟩,
    ⟨false, false, false, 259753 / 1308033⟩,
    ⟨false, false, false, 259753 / 1317831⟩,
    ⟨false, false, false, 259753 / 1327629⟩,
    ⟨false, false, false, 19981 / 102879⟩,
    ⟨false, false, false, 259753 / 1347225⟩,
    ⟨false, false, false, 259753 / 1357023⟩,
    ⟨false, false, false, 259753 / 1366821⟩,
    ⟨false, false, false, 259753 / 1376619⟩,
    ⟨false, false, false, 401882 / 1386417⟩,
    ⟨false, false, false, 2935699 / 65156700⟩,
    ⟨false, false, false, 362674 / 1396215⟩,
    ⟨false, false, false, 259753 / 1396215⟩,
    ⟨false, false, false, 259753 / 1406013⟩,
    ⟨false, false, false, 259753 / 1415811⟩,
    ⟨false, false, false, 259753 / 1425609⟩,
    ⟨false, false, false, 259753 / 1435407⟩ ]

/-- The state of `main` before the first frame, as a world of `UpdateBall`. -/
def initWorld : World ℚ :=
  { ball := InitBall InitPlayer, player := InitPlayer, wall := InitBrickWall
    state := InitGameState }

/-- Four ticks `(keySpace, deltaTime)` that launch the ball, let it bounce off the lowest
brick of the middle column and bring it back to rest on the paddle at `(400, 405)`. -/
def toPaddleInputs : List (Bool × ℚ) :=
  [(true, 3 / 4), (false, 1 / 10), (false, 78 / 101), (false, 0)]

/-- Five ticks `(keySpace, deltaTime)` from the initial state: launch, bounce off the lowest
brick of the middle column, come straight down, and reach the paddle with the ball's
position at `(400, 438)`, one radius below the paddle's bottom-midpoint `(400, 430)`, while
its previous position `(400, 405)` overlaps the paddle; the last tick resolves that paddle
collision. -/
def pivotInputs : List (Bool × ℚ) :=
  [(true, 3 / 4), (false, 1 / 10), (false, 78 / 101), (false, 33 / 202), (false, 1 / 60)]

/-- A launched ball whose previous position `(400, 405)` touches the initial paddle and whose
position is `(403, 434)`: the vector from the paddle's bottom-midpoint `(400, 430)` to
`(403, 434 - 8)` is `(3, -4)`, of length 5. -/
def ballOnPaddle : Ball ℚ :=
  { radius := 8, pos := { x := 403, y := 434 }, prevPos := { x := 400, y := 405 }
    velocity := { x := 0, y := 1 }, speed := 202, enabled := true }

/-- A ball of radius 500, wider than the 800 pixel screen, near the top of the arena: its
previous position is both left of `radius` and right of `screenWidth - radius`. -/
def ballHuge : Ball ℚ :=
  { radius := 500, pos := { x := 400, y := 100 }, prevPos := { x := 400, y := 100 }
    velocity := { x := 3 / 5, y := 4 / 5 }, speed := 200, enabled := true }

/-- A ball whose previous position is 5 from the left wall, with `velocity.x > 0`. -/
def ballLeftWall : Ball ℚ :=
  { radius := 8, pos := { x := 7, y := 203 }, prevPos := { x := 5, y := 200 }
    velocity := { x := 3 / 5, y := 4 / 5 }, speed := 200, enabled := true }

/-- A ball whose previous position is 5 from the right wall, moving right. -/
def ballRightWall : Ball ℚ :=
  { radius := 8, pos := { x := 798, y := 204 }, prevPos := { x := 795, y := 200 }
    velocity := { x := 3 / 5, y := 4 / 5 }, speed := 200, enabled := true }

/-- A ball whose previous position is in the top-left corner of the arena. -/
def ballArenaCorner : Ball ℚ :=
  { radius := 8, pos := { x := 2, y := 2 }, prevPos := { x := 5, y := 6 }
    velocity := { x := -(3 / 5), y := -(4 / 5) }, speed := 200, enabled := true }

/-- A ball to the left of `sampleBrick`, level with it, moving right: only the left flag. -/
def ballFromLeft : Ball ℚ :=
  { radius := 8, pos := { x := 97, y := 110 }, prevPos := { x := 95, y := 110 }
    velocity := { x := 1, y := 0 }, speed := 200, enabled := true }

/-- A ball below `sampleBrick`, moving straight up: only the bottom flag. -/
def ballFromBelow : Ball ℚ :=
  { radius := 8, pos := { x := 125, y := 122 }, prevPos := { x := 125, y := 125 }
    velocity := { x := 0, y := -1 }, speed := 200, enabled := true }

/-- A launched ball in the free space between the wall and the paddle, moving straight up. -/
def ballFree : Ball ℚ :=
  { radius := 8, pos := { x := 400, y := 290 }, prevPos := { x := 400, y := 300 }
    velocity := { x := 0, y := -1 }, speed := 200, enabled := true }

/-- The initial paddle, wall and game state with `ballFree`. -/
def worldFree : World ℚ :=
  { ball := ballFree, player := InitPlayer, wall := InitBrickWall, state := InitGameState }

/-- The initial paddle, wall and game state with `ballOnPaddle`. -/
def worldOnPaddle : World ℚ :=
  { ball := ballOnPaddle, player := InitPlayer, wall := InitBrickWall, state := InitGameState }

/-- The initial game with one life left and `ballBelow`, about to cross the bottom. -/
def gameLastLife : Game ℚ :=
  { initGame with ball := ballBelow, player := { (InitPlayer : Player ℚ) with lives := 1 } }

/-- Five frames `⟨keyRight, keyLeft, keySpace, deltaTime⟩` from the initial state: launch,
bounce off the lowest brick of the middle column, move the paddle away to the right while
the ball comes straight down, and let the ball pass the bottom test line at `y = 442`, so
that its previous position is `(400, 445)` at the start of the next frame. -/
def missInputs : List (FrameInput ℚ) :=
  [⟨false, false, true, 3 / 4⟩, ⟨false, false, false, 1 / 10⟩, ⟨true, false, false, 78 / 101⟩,
    ⟨false, false, false, 20 / 101⟩, ⟨false, false, false, 1 / 60⟩]


/-! ## Theorems -/

section Proofs

set_option linter.unusedSectionVars false

variable {K : Type} [LinearOrderedField K]

/-- The first-match search over `List.finRange` returns the value at the least index where
the function is defined. -/
theorem findSome_finRange_eq_some {n : Nat} {β : Type} (g : Fin n → Option β) (b : β) :
    (List.finRange n).findSome? g = some b ↔ ∃ i, g i = some b ∧ ∀ j, j < i → g j = none := by
  have hpw := List.pairwise_lt_finRange n
  constructor
  · intro h
    obtain ⟨l₁, a, l₂, hl, ha, hnone⟩ := List.findSome?_eq_some_iff.mp h
    refine ⟨a, ha, fun j hj => ?_⟩
    have hmem : j ∈ List.finRange n := List.mem_finRange j
    rw [hl] at hmem hpw
    rcases List.mem_append.mp hmem with h1 | h2
    · exact hnone j h1
    · rcases List.mem_cons.mp h2 with h3 | h4
      · exact absurd hj (by rw [h3]; exact lt_irrefl _)
      · have hlt : a < j := (List.pairwise_cons.mp (List.pairwise_append.mp hpw).2.1).1 j h4
        exact absurd hj (not_lt.mpr hlt.le)
  · rintro ⟨i, hi, hnone⟩
    obtain ⟨l₁, l₂, hl⟩ := List.append_of_mem (List.mem_finRange i)
    refine List.findSome?_eq_some_iff.mpr ⟨l₁, i, l₂, hl, hi, fun x hx => hnone x ?_⟩
    rw [hl] at hpw
    exact (List.pairwise_append.mp hpw).2.2 x hx i (List.mem_cons_self _ _)

/-- The scan written with the single per-brick test `brickHit`. -/
theorem scan_unfold (E : Env K) (wall : BrickWall K) (ball : Ball K) :
    BallCheckWallCollision E wall ball =
      (List.finRange BRICK_VCOUNT).findSome? fun r =>
        (List.finRange BRICK_HCOUNT).findSome? fun c =>
          if brickHit E wall ball r c then some (r, c) else none := by
  unfold BallCheckWallCollision brickHit
  congr 1
  funext r
  congr 1
  funext c
  dsimp only
  cases (wall.bricks r c).enabled <;>
    cases E.CheckCollisionCircleRec ball.prevPos (ball.radius : K) (wall.bricks r c).rect <;> rfl

/-- The scan returns `(r, c)` exactly when that brick is hit and no brick before it in
row-major order is. -/
theorem scan_eq_some_iff (E : Env K) (wall : BrickWall K) (ball : Ball K)
    (r : Fin BRICK_VCOUNT) (c : Fin BRICK_HCOUNT) :
    BallCheckWallCollision E wall ball = some (r, c) ↔
      brickHit E wall ball r c = true ∧
      (∀ c', c' < c → brickHit E wall ball r c' = false) ∧
      (∀ r', r' < r → ∀ c', brickHit E wall ball r' c' = false) := by
  rw [scan_unfold, findSome_finRange_eq_some]
  constructor
  · rintro ⟨r₀, hr₀, hnone⟩
    obtain ⟨c₀, hc₀, hcn⟩ := (findSome_finRange_eq_some _ _).mp hr₀
    have hhit : brickHit E wall ball r₀ c₀ = true := by
      by_contra h
      simp [h] at hc₀
    simp only [hhit, if_true, Option.some.injEq, Prod.mk.injEq] at hc₀
    obtain ⟨rfl, rfl⟩ := hc₀
    refine ⟨hhit, fun c' hc' => ?_, fun r' hr' c' => ?_⟩
    · have := hcn c' hc'
      by_contra h
      simp [h] at this
    · have := hnone r' hr'
      rw [List.findSome?_eq_none_iff] at this
      have := this c' (List.mem_finRange c')
      by_contra h
      simp [h] at this
  · rintro ⟨hhit, hc, hr⟩
    refine ⟨r, (findSome_finRange_eq_some _ _).mpr ⟨c, by simp [hhit], fun j hj => by simp [hc j hj]⟩,
      fun j hj => ?_⟩
    rw [List.findSome?_eq_none_iff]
    intro c' _
    simp [hr j hj c']

/-- The scan returns nothing exactly when no brick is hit. -/
theorem scan_eq_none_iff (E : Env K) (wall : BrickWall K) (ball : Ball K) :
    BallCheckWallCollision E wall ball = none ↔ ∀ r c, brickHit E wall ball r c = false := by
  rw [scan_unfold, List.findSome?_eq_none_iff]
  constructor
  · intro h r c
    have := h r (List.mem_finRange r)
    rw [List.findSome?_eq_none_iff] at this
    have := this c (List.mem_finRange c)
    by_contra h
    simp [h] at this
  · intro h r _
    rw [List.findSome?_eq_none_iff]
    intro c _
    simp [h r c]

/-- C2: `BallCheckWallCollision` returns the brick at `(r, c)` only if that brick is enabled,
its rectangle overlaps the circle `(ball.prevPos, ball.radius)` and no brick earlier in
row-major order is both enabled and overlapping; it returns no brick if and only if no
enabled brick overlaps the circle at the previous position. -/
theorem BallCheckWallCollision_first_enabled_overlap (E : Env K) (wall : BrickWall K)
    (ball : Ball K) :
    (∀ r c, BallCheckWallCollision E wall ball = some (r, c) →
      (wall.bricks r c).enabled = true ∧
      E.CheckCollisionCircleRec ball.prevPos (ball.radius : K) (wall.bricks r c).rect = true ∧
      ∀ r' c', (r' < r ∨ (r' = r ∧ c' < c)) →
        ¬ ((wall.bricks r' c').enabled = true ∧
          E.CheckCollisionCircleRec ball.prevPos (ball.radius : K) (wall.bricks r' c').rect = true)) ∧
    (BallCheckWallCollision E wall ball = none ↔
      ∀ r c, ¬ ((wall.bricks r c).enabled = true ∧
        E.CheckCollisionCircleRec ball.prevPos (ball.radius : K) (wall.bricks r c).rect = true)) := by
  constructor
  · intro r c h
    obtain ⟨hhit, hc, hr⟩ := (scan_eq_some_iff E wall ball r c).mp h
    simp only [brickHit, Bool.and_eq_true] at hhit
    refine ⟨hhit.1, hhit.2, ?_⟩
    rintro r' c' (h1 | ⟨rfl, h2⟩) hboth
    · have := hr r' h1 c'
      simp [brickHit, hboth.1, hboth.2] at this
    · have := hc c' h2
      simp [brickHit, hboth.1, hboth.2] at this
  · rw [scan_eq_none_iff]
    constructor
    · intro h r c hboth
      have := h r c
      simp [brickHit, hboth.1, hboth.2] at this
    · intro h r c
      have := h r c
      simp only [brickHit]
      cases h1 : (wall.bricks r c).enabled <;>
        cases h2 : E.CheckCollisionCircleRec ball.prevPos (ball.radius : K) (wall.bricks r c).rect <;>
        simp_all

/-- A brick returned by the scan is enabled. -/
theorem scan_some_enabled (E : Env K) (wall : BrickWall K) (ball : Ball K)
    (rc : Fin BRICK_VCOUNT × Fin BRICK_HCOUNT) (h : BallCheckWallCollision E wall ball = some rc) :
    (wall.bricks rc.1 rc.2).enabled = true := by
  obtain ⟨r, c⟩ := rc
  have := ((scan_eq_some_iff E wall ball r c).mp h).1
  simp only [brickHit, Bool.and_eq_true] at this
  exact this.1

/-- Disabling an enabled brick lowers the number of enabled bricks by one. -/
theorem enabledCount_disableBrick (wall : BrickWall K) (rc : Fin BRICK_VCOUNT × Fin BRICK_HCOUNT)
    (n : Int) (h : (wall.bricks rc.1 rc.2).enabled = true) :
    enabledCount ({ bricks := disableBrick wall.bricks rc, remaining := n } : BrickWall K) + 1 =
      enabledCount wall := by
  unfold enabledCount
  have hset : (Finset.univ.filter fun p : Fin BRICK_VCOUNT × Fin BRICK_HCOUNT =>
        (disableBrick wall.bricks rc p.1 p.2).enabled = true) =
      (Finset.univ.filter fun p : Fin BRICK_VCOUNT × Fin BRICK_HCOUNT =>
        (wall.bricks p.1 p.2).enabled = true).erase rc := by
    ext p
    simp only [Finset.mem_filter, Finset.mem_univ, true_and, Finset.mem_erase, disableBrick]
    by_cases hp : p = rc
    · subst hp
      simp
    · have : ¬ ((p.1, p.2) = rc) := hp
      simp [hp, this]
  simp only [hset]
  rw [Finset.card_erase_of_mem (by simp [h])]
  have : 0 < (Finset.univ.filter fun p : Fin BRICK_VCOUNT × Fin BRICK_HCOUNT =>
        (wall.bricks p.1 p.2).enabled = true).card :=
    Finset.card_pos.mpr ⟨rc, by simp [h]⟩
  omega

/-- The wall after `ballStep`: untouched when the scan finds nothing, otherwise the found
brick is disabled and `remaining` is one less. -/
theorem ballStep_wall (E : Env K) (w : World K) (dt : K) :
    (BallCheckWallCollision E w.wall w.ball = none ∧ (ballStep E w dt).wall = w.wall) ∨
    ∃ rc, BallCheckWallCollision E w.wall w.ball = some rc ∧
      (ballStep E w dt).wall =
        { bricks := disableBrick w.wall.bricks rc, remaining := w.wall.remaining - 1 } := by
  have hscan : BallCheckWallCollision E w.wall (BallHandlePlayerCollision E w.ball w.player) =
      BallCheckWallCollision E w.wall w.ball := by
    unfold BallCheckWallCollision BallHandlePlayerCollision
    split <;> rfl
  unfold ballStep
  simp only [hscan]
  cases h : BallCheckWallCollision E w.wall w.ball with
  | none => left; simp
  | some rc => right; exact ⟨rc, rfl, rfl⟩

/-- The scan reads only the previous position and the radius of the ball. -/
theorem scan_congr (E : Env K) (wall : BrickWall K) (b b' : Ball K)
    (h1 : b.prevPos = b'.prevPos) (h2 : b.radius = b'.radius) :
    BallCheckWallCollision E wall b = BallCheckWallCollision E wall b' := by
  unfold BallCheckWallCollision
  rw [h1, h2]

/-- The paddle collision leaves radius, position, previous position and `enabled` alone. -/
theorem BallHandlePlayerCollision_frame (E : Env K) (ball : Ball K) (player : Player K) :
    (BallHandlePlayerCollision E ball player).prevPos = ball.prevPos ∧
    (BallHandlePlayerCollision E ball player).radius = ball.radius ∧
    (BallHandlePlayerCollision E ball player).pos = ball.pos ∧
    (BallHandlePlayerCollision E ball player).enabled = ball.enabled := by
  unfold BallHandlePlayerCollision
  split <;> simp

/-- The brick bounce leaves radius, previous position, speed and `enabled` alone. -/
theorem brickBounce_frame (E : Env K) (ball : Ball K) (brick : Brick K) :
    (brickBounce E ball brick).prevPos = ball.prevPos ∧
    (brickBounce E ball brick).radius = ball.radius ∧
    (brickBounce E ball brick).speed = ball.speed ∧
    (brickBounce E ball brick).enabled = ball.enabled := by
  unfold brickBounce
  simp only
  split_ifs <;> simp

/-- The brick collision leaves radius, previous position and `enabled` alone. -/
theorem BallHandleBrickCollision_frame (E : Env K) (ball : Ball K) (brick : Brick K) :
    (BallHandleBrickCollision E ball brick).prevPos = ball.prevPos ∧
    (BallHandleBrickCollision E ball brick).radius = ball.radius ∧
    (BallHandleBrickCollision E ball brick).enabled = ball.enabled := by
  obtain ⟨h1, h2, _, h4⟩ := brickBounce_frame E ball brick
  simp [BallHandleBrickCollision, h1, h2, h4]

/-- Player and game state after the arena collision: one life and ten points less when the
bottom branch is taken, unchanged otherwise. -/
theorem BallHandleArenaCollision_player_state (E : Env K) (ball : Ball K) (player : Player K)
    (state : GameState) :
    (BallHandleArenaCollision E ball player state).2 =
      if crossesBottom E ball then
        ({ player with lives := player.lives - 1 }, { state with points := state.points - 10 })
      else (player, state) := by
  unfold BallHandleArenaCollision crossesBottom
  simp only
  split_ifs <;> first | rfl | (exfalso; tauto)

/-- The ball after the arena collision when the bottom branch is taken. -/
theorem BallHandleArenaCollision_ball_bottom (E : Env K) (ball : Ball K) (player : Player K)
    (state : GameState) (h : crossesBottom E ball) :
    (BallHandleArenaCollision E ball player state).1 =
      InitBall { player with lives := player.lives - 1 } := by
  obtain ⟨ht, hb⟩ := h
  unfold BallHandleArenaCollision
  simp only
  split_ifs <;> rfl

/-- A tick that does not return early is `ballStep` on a ball with the same radius, position
and previous position. -/
theorem UpdateBall_launched (E : Env K) (w : World K) (keySpace : Bool) (dt : K)
    (h : w.ball.enabled = true ∨ keySpace = true) :
    ∃ b : Ball K, b.prevPos = w.ball.prevPos ∧ b.radius = w.ball.radius ∧ b.pos = w.ball.pos ∧
      UpdateBall E w keySpace dt = ballStep E { w with ball := b } dt := by
  unfold UpdateBall
  cases he : w.ball.enabled
  · have hk : keySpace = true := by simpa [he] using h
    exact ⟨launchBall w.ball, rfl, rfl, rfl, by simp [hk]⟩
  · exact ⟨w.ball, rfl, rfl, rfl, by simp⟩

/-- A tick with a docked ball and no launch only moves the ball's `pos.x`. -/
theorem UpdateBall_docked (E : Env K) (w : World K) (keySpace : Bool) (dt : K)
    (he : w.ball.enabled = false) (hk : keySpace = false) :
    UpdateBall E w keySpace dt =
      { w with ball := { w.ball with pos := { w.ball.pos with x := (PlayerBottomMid w.player).x } } } := by
  unfold UpdateBall
  simp [he, hk]

/-- Points after `ballStep`: plus one for a brick found by the scan, minus ten when the ball
crosses the bottom. -/
theorem ballStep_state (E : Env K) (w : World K) (dt : K) :
    (ballStep E w dt).state.points =
      w.state.points + (if (BallCheckWallCollision E w.wall w.ball).isSome then 1 else 0)
        - (if crossesBottom E w.ball then 10 else 0) ∧
    (ballStep E w dt).state.gameOver = w.state.gameOver ∧
    (ballStep E w dt).player =
      if crossesBottom E w.ball then { w.player with lives := w.player.lives - 1 } else w.player := by
  have hscan : BallCheckWallCollision E w.wall (BallHandlePlayerCollision E w.ball w.player) =
      BallCheckWallCollision E w.wall w.ball :=
    scan_congr E w.wall _ _ (BallHandlePlayerCollision_frame E w.ball w.player).1
      (BallHandlePlayerCollision_frame E w.ball w.player).2.1
  obtain ⟨p1, p2, _, _⟩ := BallHandlePlayerCollision_frame E w.ball w.player
  unfold ballStep
  simp only [hscan, BallHandleArenaCollision_player_state]
  cases hs : BallCheckWallCollision E w.wall w.ball with
  | none =>
    have hc : crossesBottom E (BallHandlePlayerCollision E w.ball w.player) ↔ crossesBottom E w.ball := by
      unfold crossesBottom; rw [p1, p2]
    simp only [hc]
    by_cases hb : crossesBottom E w.ball <;> simp [hb]
  | some rc =>
    obtain ⟨q1, q2, _⟩ := BallHandleBrickCollision_frame E (BallHandlePlayerCollision E w.ball w.player)
      (disableBrick w.wall.bricks rc rc.1 rc.2)
    have hc : crossesBottom E (BallHandleBrickCollision E (BallHandlePlayerCollision E w.ball w.player)
        (disableBrick w.wall.bricks rc rc.1 rc.2)) ↔ crossesBottom E w.ball := by
      unfold crossesBottom; rw [q1, q2, p1, p2]
    simp only [hc]
    by_cases hb : crossesBottom E w.ball <;> simp [hb]

/-- The wall after a tick: untouched when the tick returns early or the scan finds nothing,
otherwise the brick found by the scan is disabled and `remaining` is one less. -/
theorem UpdateBall_wall (E : Env K) (w : World K) (keySpace : Bool) (dt : K) :
    (UpdateBall E w keySpace dt).wall =
      if w.ball.enabled = true ∨ keySpace = true then
        match BallCheckWallCollision E w.wall w.ball with
        | some rc => { bricks := disableBrick w.wall.bricks rc, remaining := w.wall.remaining - 1 }
        | none => w.wall
      else w.wall := by
  by_cases h : w.ball.enabled = true ∨ keySpace = true
  · obtain ⟨b, hb1, hb2, _, hU⟩ := UpdateBall_launched E w keySpace dt h
    rw [hU, if_pos h]
    have hs : BallCheckWallCollision E w.wall b = BallCheckWallCollision E w.wall w.ball :=
      scan_congr E w.wall b w.ball hb1 hb2
    rcases ballStep_wall E { w with ball := b } dt with ⟨h1, h2⟩ | ⟨rc, h1, h2⟩
    · simp only at h1 h2
      rw [h2, ← hs, h1]
    · simp only at h1 h2
      rw [h2, ← hs, h1]
  · rw [if_neg h]
    have he : w.ball.enabled = false := by
      cases hh : w.ball.enabled
      · rfl
      · exact absurd (Or.inl hh) h
    have hk : keySpace = false := by
      cases hh : keySpace
      · rfl
      · exact absurd (Or.inr hh) h
    rw [UpdateBall_docked E w keySpace dt he hk]

/-- One tick keeps `remaining` equal to the number of enabled bricks. -/
theorem UpdateBall_remaining_inv (E : Env K) (w : World K) (keySpace : Bool) (dt : K)
    (h : w.wall.remaining = (enabledCount w.wall : Int)) :
    (UpdateBall E w keySpace dt).wall.remaining = (enabledCount (UpdateBall E w keySpace dt).wall : Int) := by
  rw [UpdateBall_wall]
  split_ifs with hl
  · cases hs : BallCheckWallCollision E w.wall w.ball with
    | none => simpa using h
    | some rc =>
      simp only
      have := enabledCount_disableBrick w.wall rc (w.wall.remaining - 1)
        (scan_some_enabled E w.wall w.ball rc hs)
      omega
  · exact h

/-- All 104 bricks of the initial wall are enabled. -/
theorem enabledCount_InitBrickWall : enabledCount (InitBrickWall : BrickWall K) = 104 := by
  unfold enabledCount InitBrickWall
  simp
  rfl

/-- C1: in every state reachable from `InitBrickWall` by any sequence of `UpdateBall` ticks
(whatever the ball, the player, the game state, the environment and the inputs are),
`wall.remaining` equals the number of bricks of the 8 x 13 grid whose `enabled` flag is set. -/
theorem remaining_eq_enabledCount_of_reachable (E : Env K) (ball : Ball K) (player : Player K)
    (state : GameState) (inputs : List (Bool × K)) :
    (runBall E ⟨ball, player, InitBrickWall, state⟩ inputs).wall.remaining =
      (enabledCount (runBall E ⟨ball, player, InitBrickWall, state⟩ inputs).wall : Int) := by
  have key : ∀ (inputs : List (Bool × K)) (w : World K),
      w.wall.remaining = (enabledCount w.wall : Int) →
      (runBall E w inputs).wall.remaining = (enabledCount (runBall E w inputs).wall : Int) := by
    intro inputs
    induction inputs with
    | nil => intro w h; exact h
    | cons i rest ih =>
      intro w h
      exact ih _ (UpdateBall_remaining_inv E w i.1 i.2 h)
  apply key
  rw [enabledCount_InitBrickWall]
  rfl

/-- Whether the ball crosses the bottom depends only on its previous position and radius. -/
theorem crossesBottom_congr (E : Env K) (b b' : Ball K)
    (h1 : b.prevPos = b'.prevPos) (h2 : b.radius = b'.radius) :
    crossesBottom E b ↔ crossesBottom E b' := by
  unfold crossesBottom
  rw [h1, h2]

/-- Points, `gameOver` and player after a tick that does not return early. -/
theorem UpdateBall_state (E : Env K) (w : World K) (keySpace : Bool) (dt : K)
    (hl : w.ball.enabled = true ∨ keySpace = true) :
    (UpdateBall E w keySpace dt).state.points =
      w.state.points + (if (BallCheckWallCollision E w.wall w.ball).isSome then 1 else 0)
        - (if crossesBottom E w.ball then 10 else 0) ∧
    (UpdateBall E w keySpace dt).state.gameOver = w.state.gameOver ∧
    (UpdateBall E w keySpace dt).player =
      if crossesBottom E w.ball then { w.player with lives := w.player.lives - 1 } else w.player := by
  obtain ⟨b, hb1, hb2, _, hU⟩ := UpdateBall_launched E w keySpace dt hl
  have hs : BallCheckWallCollision E w.wall b = BallCheckWallCollision E w.wall w.ball :=
    scan_congr E w.wall b w.ball hb1 hb2
  have hc := crossesBottom_congr E b w.ball hb1 hb2
  have := ballStep_state E { w with ball := b } dt
  simp only [hs, hc] at this
  rw [hU]
  exact this

/-- C3: in a tick of `UpdateBall` with a launched ball (enabled, or launched by the key in this
tick) in which the scan finds the brick `(r, c)` and the ball does not cross the bottom
boundary, exactly that brick changes, from enabled to disabled with rectangle and colour
unchanged; every other brick is unchanged; `remaining` decreases by exactly 1 and `points`
increases by exactly 1.  The initial wall has `remaining = 104` and all bricks enabled, the
initial points are 0, and from them one destroyed brick gives `remaining = 103`, `points = 1`. -/
theorem UpdateBall_destroys_found_brick (E : Env K) (w : World K) (keySpace : Bool) (dt : K)
    (r : Fin BRICK_VCOUNT) (c : Fin BRICK_HCOUNT)
    (hl : w.ball.enabled = true ∨ keySpace = true)
    (hscan : BallCheckWallCollision E w.wall w.ball = some (r, c))
    (hb : ¬ crossesBottom E w.ball) :
    ((w.wall.bricks r c).enabled = true ∧
      ((UpdateBall E w keySpace dt).wall.bricks r c).enabled = false ∧
      ((UpdateBall E w keySpace dt).wall.bricks r c).rect = (w.wall.bricks r c).rect ∧
      ((UpdateBall E w keySpace dt).wall.bricks r c).color = (w.wall.bricks r c).color ∧
      (∀ r' c', (r', c') ≠ (r, c) →
        (UpdateBall E w keySpace dt).wall.bricks r' c' = w.wall.bricks r' c') ∧
      (UpdateBall E w keySpace dt).wall.remaining = w.wall.remaining - 1 ∧
      (UpdateBall E w keySpace dt).state.points = w.state.points + 1) ∧
    ((InitBrickWall : BrickWall K).remaining = 104 ∧
      (∀ r' c', ((InitBrickWall : BrickWall K).bricks r' c').enabled = true) ∧
      InitGameState.points = 0 ∧
      (w.wall = InitBrickWall → w.state = InitGameState →
        (UpdateBall E w keySpace dt).wall.remaining = 103 ∧
        (UpdateBall E w keySpace dt).state.points = 1)) := by
  have hw := UpdateBall_wall E w keySpace dt
  rw [if_pos hl, hscan] at hw
  simp only at hw
  have hp := (UpdateBall_state E w keySpace dt hl).1
  rw [hscan, if_neg hb] at hp
  simp only [Option.isSome_some, if_true, sub_zero] at hp
  have hen := scan_some_enabled E w.wall w.ball (r, c) hscan
  refine ⟨⟨hen, ?_, ?_, ?_, ?_, ?_, hp⟩, rfl, fun _ _ => rfl, rfl, ?_⟩
  · rw [hw]; simp [disableBrick]
  · rw [hw]; simp [disableBrick]
  · rw [hw]; simp [disableBrick]
  · intro r' c' hne
    rw [hw]
    simp [disableBrick, hne]
  · rw [hw]
  · intro h2 h3
    rw [hp, hw, h3, h2]
    exact ⟨rfl, rfl⟩

/-- C4: across any `UpdateBall` tick `remaining` never increases and no disabled brick becomes
enabled; either `remaining` and the whole grid are unchanged, or `remaining` decreases by
exactly 1 and a previously enabled brick is now disabled; and from a state where `remaining`
is 0 and equals the number of enabled bricks, every sequence of later ticks leaves
`remaining` at 0 and the grid unchanged. -/
theorem UpdateBall_remaining_monotone (E : Env K) (w : World K) (keySpace : Bool) (dt : K) :
    (UpdateBall E w keySpace dt).wall.remaining ≤ w.wall.remaining ∧
    (∀ r c, (w.wall.bricks r c).enabled = false →
      ((UpdateBall E w keySpace dt).wall.bricks r c).enabled = false) ∧
    (((UpdateBall E w keySpace dt).wall.remaining = w.wall.remaining ∧
        (UpdateBall E w keySpace dt).wall.bricks = w.wall.bricks) ∨
      ((UpdateBall E w keySpace dt).wall.remaining = w.wall.remaining - 1 ∧
        ∃ r c, (w.wall.bricks r c).enabled = true ∧
          ((UpdateBall E w keySpace dt).wall.bricks r c).enabled = false)) ∧
    (w.wall.remaining = 0 → w.wall.remaining = (enabledCount w.wall : Int) →
      ∀ inputs : List (Bool × K),
        (runBall E w inputs).wall.remaining = 0 ∧
        (runBall E w inputs).wall.bricks = w.wall.bricks) := by
  have hw := UpdateBall_wall E w keySpace dt
  refine ⟨?_, ?_, ?_, ?_⟩
  · rw [hw]
    split_ifs
    · cases BallCheckWallCollision E w.wall w.ball <;> simp
    · exact le_refl _
  · intro r c hd
    rw [hw]
    split_ifs
    · cases BallCheckWallCollision E w.wall w.ball with
      | none => exact hd
      | some rc =>
        simp only [disableBrick]
        split_ifs
        · rfl
        · exact hd
    · exact hd
  · rw [hw]
    split_ifs
    · cases hs : BallCheckWallCollision E w.wall w.ball with
      | none => left; exact ⟨rfl, rfl⟩
      | some rc =>
        right
        refine ⟨rfl, rc.1, rc.2, scan_some_enabled E w.wall w.ball rc hs, ?_⟩
        simp [disableBrick]
    · left; exact ⟨rfl, rfl⟩
  · intro h0 hcount inputs
    have hstep : ∀ (v : World K) (k : Bool) (t : K),
        (∀ r c, (v.wall.bricks r c).enabled = false) → (UpdateBall E v k t).wall = v.wall := by
      intro v k t hall
      rw [UpdateBall_wall]
      have hnone : BallCheckWallCollision E v.wall v.ball = none := by
        rw [scan_eq_none_iff]
        intro r c
        simp [brickHit, hall r c]
      rw [hnone]
      split_ifs <;> rfl
    have hall : ∀ r c, (w.wall.bricks r c).enabled = false := by
      intro r c
      have hz : enabledCount w.wall = 0 := by omega
      unfold enabledCount at hz
      rw [Finset.card_eq_zero, Finset.filter_eq_empty_iff] at hz
      have := hz (Finset.mem_univ (r, c))
      simpa using this
    have key : ∀ (inputs : List (Bool × K)) (v : World K), v.wall = w.wall →
        (runBall E v inputs).wall = w.wall := by
      intro inputs
      induction inputs with
      | nil => intro v hv; exact hv
      | cons i rest ih =>
        intro v hv
        refine ih _ ?_
        rw [hstep v i.1 i.2 (by rw [hv]; exact hall), hv]
    rw [key inputs w rfl]
    exact ⟨h0, rfl⟩

/-- The ball after `ballStep` when it crosses the bottom: the docked ball of `InitBall`. -/
theorem ballStep_ball_bottom (E : Env K) (w : World K) (dt : K) (hc : crossesBottom E w.ball) :
    (ballStep E w dt).ball = InitBall { w.player with lives := w.player.lives - 1 } := by
  obtain ⟨p1, p2, _, _⟩ := BallHandlePlayerCollision_frame E w.ball w.player
  have hc1 : crossesBottom E (BallHandlePlayerCollision E w.ball w.player) :=
    (crossesBottom_congr E _ _ p1 p2).mpr hc
  unfold ballStep
  cases hs : BallCheckWallCollision E w.wall (BallHandlePlayerCollision E w.ball w.player) with
  | none =>
    simp only [hs]
    rw [BallHandleArenaCollision_ball_bottom E _ _ _ hc1]
    simp [InitBall]
  | some rc =>
    simp only [hs]
    obtain ⟨q1, q2, _⟩ := BallHandleBrickCollision_frame E
      (BallHandlePlayerCollision E w.ball w.player) (disableBrick w.wall.bricks rc rc.1 rc.2)
    have hc2 := (crossesBottom_congr E _ _ q1 q2).mpr hc1
    rw [BallHandleArenaCollision_ball_bottom E _ _ _ hc2]
    simp [InitBall]

/-- C5: for a launched ball whose previous position satisfies
`prevPos.y > screenHeight - radius` and not `prevPos.y < radius`, the arena resolution
decrements the paddle's lives by exactly 1, subtracts exactly 10 from the points and leaves
the ball in the docked state of `InitBall` (`enabled = false`, `speed = 0`,
`velocity = (0, 0)`, `radius = 8`, `pos = prevPos = (paddle bottom-mid x, paddle.y - 15)`);
the ball at the end of the whole tick is still that docked ball, the integration does not
move it; and 5 lives before give 4 lives after. -/
theorem bottom_crossing_docks_ball (E : Env K) (w : World K) (keySpace : Bool) (dt : K)
    (hl : w.ball.enabled = true ∨ keySpace = true)
    (h1 : ¬ w.ball.prevPos.y < (w.ball.radius : K))
    (h2 : w.ball.prevPos.y > ((E.screenHeight - w.ball.radius : Int) : K)) :
    ((BallHandleArenaCollision E w.ball w.player w.state).2.1.lives = w.player.lives - 1 ∧
      (BallHandleArenaCollision E w.ball w.player w.state).2.1.rect = w.player.rect ∧
      (BallHandleArenaCollision E w.ball w.player w.state).2.2.points = w.state.points - 10 ∧
      (BallHandleArenaCollision E w.ball w.player w.state).1 =
        { radius := 8
          pos := { x := (PlayerBottomMid w.player).x, y := w.player.rect.y - 15 }
          prevPos := { x := (PlayerBottomMid w.player).x, y := w.player.rect.y - 15 }
          velocity := { x := 0, y := 0 }
          speed := 0
          enabled := false }) ∧
    ((UpdateBall E w keySpace dt).ball =
        { radius := 8
          pos := { x := (PlayerBottomMid w.player).x, y := w.player.rect.y - 15 }
          prevPos := { x := (PlayerBottomMid w.player).x, y := w.player.rect.y - 15 }
          velocity := { x := 0, y := 0 }
          speed := 0
          enabled := false } ∧
      (UpdateBall E w keySpace dt).ball = InitBall (UpdateBall E w keySpace dt).player ∧
      (UpdateBall E w keySpace dt).player.lives = w.player.lives - 1 ∧
      (UpdateBall E w keySpace dt).player.rect = w.player.rect) ∧
    (w.player.lives = 5 →
      (BallHandleArenaCollision E w.ball w.player w.state).2.1.lives = 4 ∧
      (UpdateBall E w keySpace dt).player.lives = 4) := by
  have hc : crossesBottom E w.ball := ⟨h1, h2⟩
  have ha := BallHandleArenaCollision_player_state E w.ball w.player w.state
  rw [if_pos hc] at ha
  have hb := BallHandleArenaCollision_ball_bottom E w.ball w.player w.state hc
  have hp := (UpdateBall_state E w keySpace dt hl).2.2
  rw [if_pos hc] at hp
  obtain ⟨b, hb1, hb2, _, hU⟩ := UpdateBall_launched E w keySpace dt hl
  have hball : (UpdateBall E w keySpace dt).ball =
      InitBall { w.player with lives := w.player.lives - 1 } := by
    rw [hU]
    exact ballStep_ball_bottom E _ dt ((crossesBottom_congr E b w.ball hb1 hb2).mpr hc)
  refine ⟨⟨?_, ?_, ?_, ?_⟩, ⟨?_, ?_, ?_, ?_⟩, ?_⟩
  · rw [ha]
  · rw [ha]
  · rw [ha]
  · rw [hb]; rfl
  · rw [hball]; rfl
  · rw [hball, hp]
  · rw [hp]
  · rw [hp]
  · intro h5
    rw [ha, hp]
    simp only [h5]
    exact ⟨rfl, rfl⟩

/-- The overlap test fails when the centre is vertically farther from the rectangle's centre
than half the height plus the radius. -/
theorem circleRecOverlap_far_y (center : Vector2 K) (radius : K) (rec : Rectangle K)
    (h : |center.y - (rec.y + rec.height / 2)| > rec.height / 2 + radius) :
    circleRecOverlap center radius rec = false := by
  unfold circleRecOverlap
  simp only
  split_ifs <;> rfl

/-- The ball after the arena collision when neither the top nor the bottom branch is taken:
only `velocity.x` (kept or negated) and `pos.x` may change. -/
theorem BallHandleArenaCollision_ball_mid (E : Env K) (ball : Ball K) (player : Player K)
    (state : GameState) (h1 : ¬ ball.prevPos.y < (ball.radius : K))
    (h2 : ¬ ball.prevPos.y > ((E.screenHeight - ball.radius : Int) : K)) :
    (BallHandleArenaCollision E ball player state).1.enabled = ball.enabled ∧
    (BallHandleArenaCollision E ball player state).1.speed = ball.speed ∧
    (BallHandleArenaCollision E ball player state).1.radius = ball.radius ∧
    (BallHandleArenaCollision E ball player state).1.prevPos = ball.prevPos ∧
    (BallHandleArenaCollision E ball player state).1.pos.y = ball.pos.y ∧
    (BallHandleArenaCollision E ball player state).1.velocity.y = ball.velocity.y ∧
    ((BallHandleArenaCollision E ball player state).1.velocity.x = ball.velocity.x ∨
      (BallHandleArenaCollision E ball player state).1.velocity.x = -ball.velocity.x) := by
  unfold BallHandleArenaCollision
  simp only
  split_ifs <;> simp

/-- C6: for the docked ball produced by `InitBall` against a paddle at the initial vertical
position (`y = 410`, height 20), together with the initial brick wall, an `UpdateBall` tick
with the launch key pressed ends with `enabled = true`, `velocity = (0, -1)` and
`speed = 200`; no collision alters them, and paddle, wall and game state are unchanged. -/
theorem launch_tick (rsqrt : K → K) (player : Player K) (state : GameState) (dt : K)
    (hy : player.rect.y = 410) (hh : player.rect.height = 20) :
    (UpdateBall (mainEnv rsqrt) ⟨InitBall player, player, InitBrickWall, state⟩ true dt).ball.enabled
        = true ∧
    (UpdateBall (mainEnv rsqrt) ⟨InitBall player, player, InitBrickWall, state⟩ true dt).ball.velocity
        = { x := 0, y := -1 } ∧
    (UpdateBall (mainEnv rsqrt) ⟨InitBall player, player, InitBrickWall, state⟩ true dt).ball.speed
        = 200 ∧
    (UpdateBall (mainEnv rsqrt) ⟨InitBall player, player, InitBrickWall, state⟩ true dt).player
        = player ∧
    (UpdateBall (mainEnv rsqrt) ⟨InitBall player, player, InitBrickWall, state⟩ true dt).state
        = state ∧
    (UpdateBall (mainEnv rsqrt) ⟨InitBall player, player, InitBrickWall, state⟩ true dt).wall.remaining
        = 104 ∧
    (UpdateBall (mainEnv rsqrt) ⟨InitBall player, player, InitBrickWall, state⟩ true dt).wall.bricks
        = (InitBrickWall : BrickWall K).bricks := by
  have hpad : circleRecOverlap (InitBall player).prevPos ((BALL_RADIUS : Int) : K) (PlayerRect player)
      = false := by
    apply circleRecOverlap_far_y
    simp only [InitBall, PlayerRect, hy, hh, BALL_RADIUS]
    norm_num
  have hbrick : ∀ (r : Fin BRICK_VCOUNT) (c : Fin BRICK_HCOUNT),
      circleRecOverlap (InitBall player).prevPos ((BALL_RADIUS : Int) : K)
        ((InitBrickWall : BrickWall K).bricks r c).rect = false := by
    intro r c
    apply circleRecOverlap_far_y
    simp only [InitBall, InitBrickWall, hy, BALL_RADIUS, BRICK_HEIGHT, BRICK_VPAD, BRICK_VGAP]
    have hr : ((r : Nat) : K) ≤ 7 := by
      have : (r : Nat) ≤ 7 := by
        have := r.isLt
        unfold BRICK_VCOUNT at this
        omega
      exact_mod_cast this
    have hr0 : (0 : K) ≤ ((r : Nat) : K) := Nat.cast_nonneg _
    rw [abs_of_nonneg (by push_cast; linarith)]
    push_cast
    linarith
  have hscan : BallCheckWallCollision (mainEnv rsqrt) (InitBrickWall : BrickWall K)
      (launchBall (InitBall player)) = none := by
    rw [scan_eq_none_iff]
    intro r c
    have := hbrick r c
    simp only [brickHit, mainEnv, launchBall, InitBall] at this ⊢
    rw [this]
    simp
  have hpc : BallHandlePlayerCollision (mainEnv rsqrt) (launchBall (InitBall player)) player =
      launchBall (InitBall player) := by
    unfold BallHandlePlayerCollision
    rw [if_pos]
    simp only [mainEnv, launchBall, InitBall] at hpad ⊢
    rw [hpad]
    rfl
  have hU : UpdateBall (mainEnv rsqrt) ⟨InitBall player, player, InitBrickWall, state⟩ true dt =
      ballStep (mainEnv rsqrt) ⟨launchBall (InitBall player), player, InitBrickWall, state⟩ dt := by
    unfold UpdateBall
    simp [InitBall]
  rw [hU]
  have hnb : ¬ crossesBottom (mainEnv rsqrt) (launchBall (InitBall player)) := by
    simp only [crossesBottom, launchBall, InitBall, mainEnv, hy, BALL_RADIUS]
    norm_num
  have hst := ballStep_state (mainEnv rsqrt)
    ⟨launchBall (InitBall player), player, InitBrickWall, state⟩ dt
  simp only [hscan, if_neg hnb] at hst
  have hwall := ballStep_wall (mainEnv rsqrt)
    ⟨launchBall (InitBall player), player, InitBrickWall, state⟩ dt
  simp only [hscan] at hwall
  have hw : (ballStep (mainEnv rsqrt)
      ⟨launchBall (InitBall player), player, InitBrickWall, state⟩ dt).wall = InitBrickWall := by
    rcases hwall with ⟨_, h⟩ | ⟨rc, h, _⟩
    · exact h
    · exact absurd h (by simp)
  have hmid := BallHandleArenaCollision_ball_mid (mainEnv rsqrt) (launchBall (InitBall player))
    player state
    (by simp only [launchBall, InitBall, hy, BALL_RADIUS]; norm_num)
    (by simp only [launchBall, InitBall, hy, BALL_RADIUS, mainEnv]; norm_num)
  obtain ⟨m1, m2, _, _, _, m6, m7⟩ := hmid
  have hball : (ballStep (mainEnv rsqrt)
      ⟨launchBall (InitBall player), player, InitBrickWall, state⟩ dt).ball.enabled = true ∧
      (ballStep (mainEnv rsqrt)
      ⟨launchBall (InitBall player), player, InitBrickWall, state⟩ dt).ball.speed = 200 ∧
      (ballStep (mainEnv rsqrt)
      ⟨launchBall (InitBall player), player, InitBrickWall, state⟩ dt).ball.velocity =
        { x := 0, y := -1 } := by
    unfold ballStep
    simp only [hpc, hscan]
    refine ⟨m1, m2, ?_⟩
    have hx : (BallHandleArenaCollision (mainEnv rsqrt) (launchBall (InitBall player)) player
        state).1.velocity.x = 0 := by
      rcases m7 with h | h
      · exact h
      · rw [h]; simp [launchBall]
    have hyv : (BallHandleArenaCollision (mainEnv rsqrt) (launchBall (InitBall player)) player
        state).1.velocity.y = -1 := m6
    cases hv : (BallHandleArenaCollision (mainEnv rsqrt) (launchBall (InitBall player)) player
        state).1.velocity with
    | mk vx vy =>
      rw [hv] at hx hyv
      simp only at hx hyv
      rw [hx, hyv]
  have hstate : (ballStep (mainEnv rsqrt)
      ⟨launchBall (InitBall player), player, InitBrickWall, state⟩ dt).state = state := by
    cases hs : (ballStep (mainEnv rsqrt)
      ⟨launchBall (InitBall player), player, InitBrickWall, state⟩ dt).state with
    | mk g p =>
      rw [hs] at hst
      simp at hst
      cases state
      simp_all
  refine ⟨hball.1, hball.2.2, hball.2.1, hst.2.2, hstate, ?_, ?_⟩
  · rw [hw]; rfl
  · rw [hw]

/-- C9: for a brick and a ball whose flags for the left and the top side are both set
(`prevPos.x < left`, `velocity.x > EPSILON`, `prevPos.y < top`, `velocity.y > EPSILON`) and
whose distances to the left edge and to the top edge differ by at most
`CIRCLE_RECT_COLLISION_EPSILON`, `BallHandleBrickCollision` negates both `velocity.x` and
`velocity.y` and sets `pos` to exactly `(left - radius, top - radius)`. -/
theorem brick_corner_left_top (E : Env K) (ball : Ball K) (brick : Brick K)
    (hx : ball.prevPos.x < brick.rect.x) (hvx : ball.velocity.x > E.EPSILON)
    (hy : ball.prevPos.y < brick.rect.y) (hvy : ball.velocity.y > E.EPSILON)
    (hd : |(brick.rect.x - ball.prevPos.x) - (brick.rect.y - ball.prevPos.y)| ≤
      CIRCLE_RECT_COLLISION_EPSILON) :
    (BallHandleBrickCollision E ball brick).velocity =
      { x := -ball.velocity.x, y := -ball.velocity.y } ∧
    (BallHandleBrickCollision E ball brick).pos =
      { x := brick.rect.x - (ball.radius : K), y := brick.rect.y - (ball.radius : K) } := by
  obtain ⟨hd1, hd2⟩ := abs_le.mp hd
  have h1 : ¬ (brick.rect.y - ball.prevPos.y <
      brick.rect.x - ball.prevPos.x - CIRCLE_RECT_COLLISION_EPSILON) := by
    intro h; linarith
  have h2 : ¬ (brick.rect.y - ball.prevPos.y >
      brick.rect.x - ball.prevPos.x + CIRCLE_RECT_COLLISION_EPSILON) := by
    intro h; linarith
  unfold BallHandleBrickCollision brickBounce
  simp only [hx, hvx, hy, hvy, decide_True, Bool.and_self, if_true, h1, h2, if_false]
  exact ⟨trivial, trivial⟩

/-- C10 as amended: with `0 ≤ EPSILON`, for a ball approaching two adjacent sides of a brick
(both flags set) whose distances to the two edges differ by more than
`CIRCLE_RECT_COLLISION_EPSILON`, `BallHandleBrickCollision` reflects one axis only, the one of
the farther edge: when the horizontal edge (top or bottom) is the nearer one only
`velocity.x` is negated and `pos.x` is put one radius outside the vertical edge; when the
vertical edge (left or right) is the nearer one only `velocity.y` is negated and `pos.y` is
put one radius outside the horizontal edge; the other velocity component and the other
coordinate are unchanged.  This holds at each of the four corners. -/
theorem brick_corner_single_axis (E : Env K) (ball : Ball K) (brick : Brick K)
    (hE : 0 ≤ E.EPSILON) :
    -- left-top corner
    (ball.prevPos.x < brick.rect.x → ball.velocity.x > E.EPSILON →
      ball.prevPos.y < brick.rect.y → ball.velocity.y > E.EPSILON →
      (brick.rect.y - ball.prevPos.y <
          brick.rect.x - ball.prevPos.x - CIRCLE_RECT_COLLISION_EPSILON →
        onlyXReflected ball (BallHandleBrickCollision E ball brick)
          (brick.rect.x - (ball.radius : K))) ∧
      (brick.rect.y - ball.prevPos.y >
          brick.rect.x - ball.prevPos.x + CIRCLE_RECT_COLLISION_EPSILON →
        onlyYReflected ball (BallHandleBrickCollision E ball brick)
          (brick.rect.y - (ball.radius : K)))) ∧
    -- left-bottom corner
    (ball.prevPos.x < brick.rect.x → ball.velocity.x > E.EPSILON →
      ball.prevPos.y > brick.rect.y + brick.rect.height → ball.velocity.y < -E.EPSILON →
      (ball.prevPos.y - (brick.rect.y + brick.rect.height) <
          brick.rect.x - ball.prevPos.x - CIRCLE_RECT_COLLISION_EPSILON →
        onlyXReflected ball (BallHandleBrickCollision E ball brick)
          (brick.rect.x - (ball.radius : K))) ∧
      (ball.prevPos.y - (brick.rect.y + brick.rect.height) >
          brick.rect.x - ball.prevPos.x + CIRCLE_RECT_COLLISION_EPSILON →
        onlyYReflected ball (BallHandleBrickCollision E ball brick)
          (brick.rect.y + brick.rect.height + (ball.radius : K)))) ∧
    -- right-top corner
    (ball.prevPos.x > brick.rect.x + brick.rect.width → ball.velocity.x < -E.EPSILON →
      ball.prevPos.y < brick.rect.y → ball.velocity.y > E.EPSILON →
      (brick.rect.y - ball.prevPos.y <
          ball.prevPos.x - (brick.rect.x + brick.rect.width) - CIRCLE_RECT_COLLISION_EPSILON →
        onlyXReflected ball (BallHandleBrickCollision E ball brick)
          (brick.rect.x + brick.rect.width + (ball.radius : K))) ∧
      (brick.rect.y - ball.prevPos.y >
          ball.prevPos.x - (brick.rect.x + brick.rect.width) + CIRCLE_RECT_COLLISION_EPSILON →
        onlyYReflected ball (BallHandleBrickCollision E ball brick)
          (brick.rect.y - (ball.radius : K)))) ∧
    -- right-bottom corner
    (ball.prevPos.x > brick.rect.x + brick.rect.width → ball.velocity.x < -E.EPSILON →
      ball.prevPos.y > brick.rect.y + brick.rect.height → ball.velocity.y < -E.EPSILON →
      (ball.prevPos.y - (brick.rect.y + brick.rect.height) <
          ball.prevPos.x - (brick.rect.x + brick.rect.width) - CIRCLE_RECT_COLLISION_EPSILON →
        onlyXReflected ball (BallHandleBrickCollision E ball brick)
          (brick.rect.x + brick.rect.width + (ball.radius : K))) ∧
      (ball.prevPos.y - (brick.rect.y + brick.rect.height) >
          ball.prevPos.x - (brick.rect.x + brick.rect.width) + CIRCLE_RECT_COLLISION_EPSILON →
        onlyYReflected ball (BallHandleBrickCollision E ball brick)
          (brick.rect.y + brick.rect.height + (ball.radius : K)))) := by
  have hce : (0 : K) < CIRCLE_RECT_COLLISION_EPSILON := by
    unfold CIRCLE_RECT_COLLISION_EPSILON; norm_num
  refine ⟨?_, ?_, ?_, ?_⟩
  · intro hx hvx hy hvy
    constructor
    · intro hd
      unfold BallHandleBrickCollision brickBounce onlyXReflected
      simp only [hx, hvx, hy, hvy, decide_True, Bool.and_self, if_true, hd]
      exact ⟨trivial, trivial⟩
    · intro hd
      have h1 : ¬ (brick.rect.y - ball.prevPos.y <
          brick.rect.x - ball.prevPos.x - CIRCLE_RECT_COLLISION_EPSILON) := by
        intro h; linarith
      unfold BallHandleBrickCollision brickBounce onlyYReflected
      simp only [hx, hvx, hy, hvy, decide_True, Bool.and_self, if_true, hd, h1, if_false]
      exact ⟨trivial, trivial⟩
  · intro hx hvx hy hvy
    have hnt : ¬ (ball.velocity.y > E.EPSILON) := by intro h; linarith
    constructor
    · intro hd
      unfold BallHandleBrickCollision brickBounce onlyXReflected
      simp only [hx, hvx, hy, hvy, hnt, decide_True, decide_False, Bool.and_self, Bool.and_false,
        Bool.and_true, if_true, hd]
      exact ⟨rfl, rfl⟩
    · intro hd
      have h1 : ¬ (ball.prevPos.y - (brick.rect.y + brick.rect.height) <
          brick.rect.x - ball.prevPos.x - CIRCLE_RECT_COLLISION_EPSILON) := by
        intro h; linarith
      unfold BallHandleBrickCollision brickBounce onlyYReflected
      simp only [hx, hvx, hy, hvy, hnt, decide_True, decide_False, Bool.and_self, Bool.and_false,
        Bool.and_true, if_true, hd, h1, if_false]
      exact ⟨rfl, rfl⟩
  · intro hx hvx hy hvy
    have hnl : ¬ (ball.velocity.x > E.EPSILON) := by intro h; linarith
    constructor
    · intro hd
      unfold BallHandleBrickCollision brickBounce onlyXReflected
      simp only [hx, hvx, hy, hvy, hnl, decide_True, decide_False, Bool.and_self, Bool.and_false,
        Bool.and_true, Bool.false_and, if_true, hd]
      exact ⟨rfl, rfl⟩
    · intro hd
      have h1 : ¬ (brick.rect.y - ball.prevPos.y <
          ball.prevPos.x - (brick.rect.x + brick.rect.width) - CIRCLE_RECT_COLLISION_EPSILON) := by
        intro h; linarith
      unfold BallHandleBrickCollision brickBounce onlyYReflected
      simp only [hx, hvx, hy, hvy, hnl, decide_True, decide_False, Bool.and_self, Bool.and_false,
        Bool.and_true, Bool.false_and, if_true, hd, h1, if_false]
      exact ⟨rfl, rfl⟩
  · intro hx hvx hy hvy
    have hnl : ¬ (ball.velocity.x > E.EPSILON) := by intro h; linarith
    have hnt : ¬ (ball.velocity.y > E.EPSILON) := by intro h; linarith
    constructor
    · intro hd
      unfold BallHandleBrickCollision brickBounce onlyXReflected
      simp only [hx, hvx, hy, hvy, hnl, hnt, decide_True, decide_False, Bool.and_self,
        Bool.and_false, Bool.and_true, Bool.false_and, if_true, hd]
      exact ⟨rfl, rfl⟩
    · intro hd
      have h1 : ¬ (ball.prevPos.y - (brick.rect.y + brick.rect.height) <
          ball.prevPos.x - (brick.rect.x + brick.rect.width) - CIRCLE_RECT_COLLISION_EPSILON) := by
        intro h; linarith
      unfold BallHandleBrickCollision brickBounce onlyYReflected
      simp only [hx, hvx, hy, hvy, hnl, hnt, decide_True, decide_False, Bool.and_self,
        Bool.and_false, Bool.and_true, Bool.false_and, if_true, hd, h1, if_false]
      exact ⟨rfl, rfl⟩

/-! ### The paddle in the frame loop -/

/-- The reward loop spends the width budget: the paddle keeps its `x`, and its width grows by
35 for every size power-up that becomes acquired. -/
theorem rewardPlayer_width (points : Int) (dt : K) (pus : List (PowerUp K)) (n : Nat)
    (h : WidthBudget pus n) (p : Player K) (b : Ball K) :
    ∃ m : Nat, m ≤ n ∧ WidthBudget (rewardPlayer points dt pus p b).1 m ∧
      (rewardPlayer points dt pus p b).2.1.rect.x = p.rect.x ∧
      (rewardPlayer points dt pus p b).2.1.rect.width + 35 * (m : K) =
        p.rect.width + 35 * (n : K) := by
  induction h generalizing p b with
  | nil => exact ⟨0, le_refl _, WidthBudget.nil, rfl, rfl⟩
  | keeps pu rest n hk _ ih =>
    unfold rewardPlayer
    split_ifs with ha ht
    · obtain ⟨m, hm, hb, hx, hw⟩ := ih p b
      exact ⟨m, hm, WidthBudget.keeps _ _ _ hk hb, hx, hw⟩
    · obtain ⟨m, hm, hb, hx, hw⟩ := ih p b
      exact ⟨m, hm, WidthBudget.keeps _ _ _ hk hb, hx, hw⟩
    · obtain ⟨m, hm, hb, hx, hw⟩ := ih (pu.apply p b).1 (pu.apply p b).2
      refine ⟨m, hm, WidthBudget.keeps _ _ _ hk hb, ?_, ?_⟩
      · simp only at hx ⊢; rw [hx, hk p b]
      · simp only at hw ⊢; rw [hw, hk p b]
  | done pu rest n hd _ ih =>
    unfold rewardPlayer
    rw [if_pos hd]
    obtain ⟨m, hm, hb, hx, hw⟩ := ih p b
    exact ⟨m, hm, WidthBudget.done _ _ _ hd hb, hx, hw⟩
  | pending pu rest n hd hwid _ ih =>
    unfold rewardPlayer
    have hna : ¬ (pu.acquired = true) := by simp [hd]
    rw [if_neg hna]
    split_ifs with ht
    · obtain ⟨m, hm, hb, hx, hw⟩ := ih p b
      refine ⟨m + 1, by omega, WidthBudget.pending _ _ _ hd hwid hb, hx, ?_⟩
      simp only at hw ⊢
      push_cast
      linarith
    · obtain ⟨m, hm, hb, hx, hw⟩ := ih (pu.apply p b).1 (pu.apply p b).2
      refine ⟨m, by omega, WidthBudget.done _ _ _ rfl hb, ?_, ?_⟩
      · simp only at hx ⊢; rw [hx, hwid p b]
      · simp only at hw ⊢
        rw [hw, hwid p b]
        push_cast
        ring

/-- A tick of `UpdateBall` never changes the paddle rectangle. -/
theorem UpdateBall_player_rect (E : Env K) (w : World K) (keySpace : Bool) (dt : K) :
    (UpdateBall E w keySpace dt).player.rect = w.player.rect := by
  by_cases h : w.ball.enabled = true ∨ keySpace = true
  · rw [(UpdateBall_state E w keySpace dt h).2.2]
    split_ifs <;> rfl
  · have he : w.ball.enabled = false := by
      cases hh : w.ball.enabled
      · rfl
      · exact absurd (Or.inl hh) h
    have hk : keySpace = false := by
      cases hh : keySpace
      · rfl
      · exact absurd (Or.inr hh) h
    rw [UpdateBall_docked E w keySpace dt he hk]

/-- The clamp of `UpdatePlayer`, for a paddle no wider than the screen. -/
theorem UpdatePlayer_bounds (E : Env K) (player : Player K) (keyRight keyLeft : Bool) (dt : K)
    (hw : player.rect.width ≤ (E.screenWidth : K)) :
    0 ≤ (UpdatePlayer E player keyRight keyLeft dt).rect.x ∧
    (UpdatePlayer E player keyRight keyLeft dt).rect.x + player.rect.width ≤ (E.screenWidth : K) ∧
    (UpdatePlayer E player keyRight keyLeft dt).rect.width = player.rect.width := by
  unfold UpdatePlayer
  simp only
  refine ⟨?_, ?_, trivial⟩
  · split_ifs <;> linarith
  · split_ifs <;> linarith

/-- The size power-ups of the initial table are the entries 2 and 5. -/
theorem WidthBudget_initPowerUps : WidthBudget (initPowerUps : List (PowerUp K)) 2 := by
  unfold initPowerUps
  refine WidthBudget.keeps _ _ _ (fun _ _ => rfl) ?_
  refine WidthBudget.keeps _ _ _ (fun _ _ => rfl) ?_
  refine WidthBudget.pending _ _ _ rfl (fun _ _ => rfl) ?_
  refine WidthBudget.keeps _ _ _ (fun _ _ => rfl) ?_
  refine WidthBudget.keeps _ _ _ (fun _ _ => rfl) ?_
  refine WidthBudget.pending _ _ _ rfl (fun _ _ => rfl) ?_
  exact WidthBudget.nil

/-- One frame keeps: the width plus 35 for each pending size power-up (at most two) is 170,
`0 ≤ rect.x`, and `rect.x + 100 ≤ screenWidth`. -/
theorem frameUpdate_paddle_inv (E : Env K) (hE : E.screenWidth = 800) (g : Game K)
    (i : FrameInput K)
    (h : ∃ n : Nat, n ≤ 2 ∧ WidthBudget g.powerUps n ∧
      g.player.rect.width + 35 * (n : K) = 170 ∧
      0 ≤ g.player.rect.x ∧ g.player.rect.x + 100 ≤ 800) :
    ∃ n : Nat, n ≤ 2 ∧ WidthBudget (frameUpdate E g i).powerUps n ∧
      (frameUpdate E g i).player.rect.width + 35 * (n : K) = 170 ∧
      0 ≤ (frameUpdate E g i).player.rect.x ∧ (frameUpdate E g i).player.rect.x + 100 ≤ 800 := by
  obtain ⟨n, hn2, hb, hw, hx0, hx1⟩ := h
  unfold frameUpdate
  split_ifs with hgo
  · exact ⟨n, hn2, hb, hw, hx0, hx1⟩
  · simp only
    have hn0 : (0 : K) ≤ (n : K) := Nat.cast_nonneg n
    have hnle : (n : K) ≤ 2 := by exact_mod_cast hn2
    have hwle : g.player.rect.width ≤ (E.screenWidth : K) := by
      rw [hE]; push_cast; linarith
    obtain ⟨u0, u1, u2⟩ := UpdatePlayer_bounds E g.player i.keyRight i.keyLeft i.deltaTime hwle
    have hrect := UpdateBall_player_rect E
      ⟨g.ball, UpdatePlayer E g.player i.keyRight i.keyLeft i.deltaTime, g.wall, g.state⟩
      i.keySpace i.deltaTime
    simp only at hrect
    obtain ⟨m, hm, hb', hx, hw'⟩ := rewardPlayer_width
      (UpdateBall E
        ⟨g.ball, UpdatePlayer E g.player i.keyRight i.keyLeft i.deltaTime, g.wall, g.state⟩
        i.keySpace i.deltaTime).state.points i.deltaTime g.powerUps n hb
      (UpdateBall E
        ⟨g.ball, UpdatePlayer E g.player i.keyRight i.keyLeft i.deltaTime, g.wall, g.state⟩
        i.keySpace i.deltaTime).player
      (UpdateBall E
        ⟨g.ball, UpdatePlayer E g.player i.keyRight i.keyLeft i.deltaTime, g.wall, g.state⟩
        i.keySpace i.deltaTime).ball
    rw [hrect] at hx hw'
    rw [hE] at u1
    push_cast at u1
    refine ⟨m, by omega, hb', ?_, ?_, ?_⟩
    · rw [hw', u2]; exact hw
    · rw [hx]; exact u0
    · rw [hx]
      linarith

/-- In every state reached by the frame loop of `main` from its initial state, with a screen
800 wide: the paddle width is between 100 and 170, `0 ≤ rect.x`, `rect.x + 100 ≤ 800`, and
the paddle that `UpdatePlayer` produces at the start of the next frame lies within the
arena, `0 ≤ rect.x` and `rect.x + rect.width ≤ 800`, whatever the input. -/
theorem paddle_within_arena_after_UpdatePlayer (E : Env K) (hE : E.screenWidth = 800)
    (inputs : List (FrameInput K)) (keyRight keyLeft : Bool) (dt : K) :
    100 ≤ (runFrames E initGame inputs).player.rect.width ∧
    (runFrames E initGame inputs).player.rect.width ≤ 170 ∧
    0 ≤ (runFrames E initGame inputs).player.rect.x ∧
    (runFrames E initGame inputs).player.rect.x + 100 ≤ 800 ∧
    0 ≤ (UpdatePlayer E (runFrames E initGame inputs).player keyRight keyLeft dt).rect.x ∧
    (UpdatePlayer E (runFrames E initGame inputs).player keyRight keyLeft dt).rect.x +
      (UpdatePlayer E (runFrames E initGame inputs).player keyRight keyLeft dt).rect.width
        ≤ 800 := by
  have key : ∀ (inputs : List (FrameInput K)) (g : Game K),
      (∃ n : Nat, n ≤ 2 ∧ WidthBudget g.powerUps n ∧
        g.player.rect.width + 35 * (n : K) = 170 ∧
        0 ≤ g.player.rect.x ∧ g.player.rect.x + 100 ≤ 800) →
      ∃ n : Nat, n ≤ 2 ∧ WidthBudget (runFrames E g inputs).powerUps n ∧
        (runFrames E g inputs).player.rect.width + 35 * (n : K) = 170 ∧
        0 ≤ (runFrames E g inputs).player.rect.x ∧
        (runFrames E g inputs).player.rect.x + 100 ≤ 800 := by
    intro inputs
    induction inputs with
    | nil => intro g h; exact h
    | cons i rest ih =>
      intro g h
      exact ih _ (frameUpdate_paddle_inv E hE g i h)
  obtain ⟨n, hn2, _, hw, hx0, hx1⟩ := key inputs initGame
    ⟨2, le_refl _, WidthBudget_initPowerUps, by simp only [initGame, InitPlayer]; norm_num,
      by simp only [initGame, InitPlayer]; norm_num,
      by simp only [initGame, InitPlayer]; norm_num⟩
  have hn0 : (0 : K) ≤ (n : K) := Nat.cast_nonneg n
  have hnle : (n : K) ≤ 2 := by exact_mod_cast hn2
  have hwle : (runFrames E initGame inputs).player.rect.width ≤ (E.screenWidth : K) := by
    rw [hE]; push_cast; linarith
  obtain ⟨u0, u1, u2⟩ := UpdatePlayer_bounds E (runFrames E initGame inputs).player
    keyRight keyLeft dt hwle
  rw [hE] at u1
  push_cast at u1
  refine ⟨by linarith, by linarith, hx0, hx1, u0, ?_⟩
  rw [u2]
  exact u1

/-- C11: for every paddle and ball, if the circle `(ball.prevPos, radius)` overlaps the paddle
rectangle, `BallHandlePlayerCollision` sets the velocity to `Normalize2` of the vector from the
paddle's bottom-midpoint `(rect.x + width / 2, rect.y + height)` to the point
`(ball.pos.x, ball.pos.y - radius)` taken from the ball's current position, that is, that
vector scaled by `RSqrt` of its squared length; if the circle does not overlap, the ball is
unchanged. -/
theorem BallHandlePlayerCollision_velocity (E : Env K) (ball : Ball K) (player : Player K) :
    (E.CheckCollisionCircleRec ball.prevPos (ball.radius : K) player.rect = true →
      (BallHandlePlayerCollision E ball player).velocity =
        Normalize2 E
          { x := ball.pos.x - (player.rect.x + player.rect.width / 2)
            y := ball.pos.y - (ball.radius : K) - (player.rect.y + player.rect.height) } ∧
      (BallHandlePlayerCollision E ball player).velocity.x =
        (ball.pos.x - (player.rect.x + player.rect.width / 2)) *
          E.RSqrt
            ((ball.pos.x - (player.rect.x + player.rect.width / 2)) *
                (ball.pos.x - (player.rect.x + player.rect.width / 2)) +
              (ball.pos.y - (ball.radius : K) - (player.rect.y + player.rect.height)) *
                (ball.pos.y - (ball.radius : K) - (player.rect.y + player.rect.height))) ∧
      (BallHandlePlayerCollision E ball player).velocity.y =
        (ball.pos.y - (ball.radius : K) - (player.rect.y + player.rect.height)) *
          E.RSqrt
            ((ball.pos.x - (player.rect.x + player.rect.width / 2)) *
                (ball.pos.x - (player.rect.x + player.rect.width / 2)) +
              (ball.pos.y - (ball.radius : K) - (player.rect.y + player.rect.height)) *
                (ball.pos.y - (ball.radius : K) - (player.rect.y + player.rect.height)))) ∧
    (E.CheckCollisionCircleRec ball.prevPos (ball.radius : K) player.rect = false →
      BallHandlePlayerCollision E ball player = ball) := by
  have hrect : PlayerRect player = player.rect := rfl
  constructor
  · intro h
    unfold BallHandlePlayerCollision
    simp only [hrect, h, Bool.not_true, Bool.false_eq_true, if_false, PlayerBottomMid, Normalize2]
    exact ⟨trivial, trivial, trivial⟩
  · intro h
    unfold BallHandlePlayerCollision
    simp [hrect, h]

/-- The ball after the arena collision when the bottom branch is not taken: each axis is
resolved by its own test on the previous position. -/
theorem BallHandleArenaCollision_ball_axes (E : Env K) (ball : Ball K) (player : Player K)
    (state : GameState) (hb : ¬ crossesBottom E ball) :
    (BallHandleArenaCollision E ball player state).1.velocity.x =
      (if ball.prevPos.x < (ball.radius : K) then -ball.velocity.x
        else if ball.prevPos.x > ((E.screenWidth - ball.radius : Int) : K) then -ball.velocity.x
        else ball.velocity.x) ∧
    (BallHandleArenaCollision E ball player state).1.pos.x =
      (if ball.prevPos.x < (ball.radius : K) then (ball.radius : K)
        else if ball.prevPos.x > ((E.screenWidth - ball.radius : Int) : K) then
          ((E.screenWidth - ball.radius : Int) : K)
        else ball.pos.x) ∧
    (BallHandleArenaCollision E ball player state).1.velocity.y =
      (if ball.prevPos.y < (ball.radius : K) then -ball.velocity.y else ball.velocity.y) ∧
    (BallHandleArenaCollision E ball player state).1.pos.y =
      (if ball.prevPos.y < (ball.radius : K) then (ball.radius : K) else ball.pos.y) ∧
    (BallHandleArenaCollision E ball player state).1.speed = ball.speed ∧
    (BallHandleArenaCollision E ball player state).1.enabled = ball.enabled ∧
    (BallHandleArenaCollision E ball player state).1.radius = ball.radius ∧
    (BallHandleArenaCollision E ball player state).1.prevPos = ball.prevPos := by
  unfold crossesBottom at hb
  unfold BallHandleArenaCollision
  simp only
  split_ifs <;> first | exact ⟨rfl, rfl, rfl, rfl, rfl, rfl, rfl, rfl⟩ | (exfalso; tauto)

/-- C18: for every ball with `prevPos.x < radius` and `prevPos.y < radius`, one call of
`BallHandleArenaCollision` negates both `velocity.x` and `velocity.y` and sets `pos` to
exactly `(radius, radius)`; and the two checks are independent: whenever the bottom branch is
not taken, the new `velocity.x` and `pos.x` are decided by the horizontal test alone and the
new `velocity.y` and `pos.y` by the vertical test alone. -/
theorem arena_corner_both_axes (E : Env K) (ball : Ball K) (player : Player K)
    (state : GameState) :
    (ball.prevPos.x < (ball.radius : K) → ball.prevPos.y < (ball.radius : K) →
      (BallHandleArenaCollision E ball player state).1.velocity =
        { x := -ball.velocity.x, y := -ball.velocity.y } ∧
      (BallHandleArenaCollision E ball player state).1.pos =
        { x := (ball.radius : K), y := (ball.radius : K) }) ∧
    (¬ crossesBottom E ball →
      (BallHandleArenaCollision E ball player state).1.velocity.x =
        (if ball.prevPos.x < (ball.radius : K) then -ball.velocity.x
          else if ball.prevPos.x > ((E.screenWidth - ball.radius : Int) : K) then
            -ball.velocity.x
          else ball.velocity.x) ∧
      (BallHandleArenaCollision E ball player state).1.pos.x =
        (if ball.prevPos.x < (ball.radius : K) then (ball.radius : K)
          else if ball.prevPos.x > ((E.screenWidth - ball.radius : Int) : K) then
            ((E.screenWidth - ball.radius : Int) : K)
          else ball.pos.x) ∧
      (BallHandleArenaCollision E ball player state).1.velocity.y =
        (if ball.prevPos.y < (ball.radius : K) then -ball.velocity.y else ball.velocity.y) ∧
      (BallHandleArenaCollision E ball player state).1.pos.y =
        (if ball.prevPos.y < (ball.radius : K) then (ball.radius : K) else ball.pos.y)) := by
  constructor
  · intro hx hy
    have hb : ¬ crossesBottom E ball := fun h => h.1 hy
    obtain ⟨h1, h2, h3, h4, _⟩ := BallHandleArenaCollision_ball_axes E ball player state hb
    rw [if_pos hx] at h1 h2
    rw [if_pos hy] at h3 h4
    constructor
    · cases hv : (BallHandleArenaCollision E ball player state).1.velocity with
      | mk vx vy =>
        rw [hv] at h1 h3
        simp only at h1 h3
        rw [h1, h3]
    · cases hp : (BallHandleArenaCollision E ball player state).1.pos with
      | mk px py =>
        rw [hp] at h2 h4
        simp only at h2 h4
        rw [h2, h4]
  · intro hb
    obtain ⟨h1, h2, h3, h4, _⟩ := BallHandleArenaCollision_ball_axes E ball player state hb
    exact ⟨h1, h2, h3, h4⟩

/-- The chain of branches of `BallHandleBrickCollision` written with the four side flags. -/
theorem brickBounce_flags (E : Env K) (ball : Ball K) (brick : Brick K) :
    brickBounce E ball brick =
      let r : K := (ball.radius : K)
      let left := brick.rect.x
      let top := brick.rect.y
      let right := brick.rect.x + brick.rect.width
      let bottom := brick.rect.y + brick.rect.height
      let flipX (px : K) : Ball K :=
        { ball with velocity := { x := -ball.velocity.x, y := ball.velocity.y }
                    pos := { x := px, y := ball.pos.y } }
      let flipY (py : K) : Ball K :=
        { ball with velocity := { x := ball.velocity.x, y := -ball.velocity.y }
                    pos := { x := ball.pos.x, y := py } }
      let flipXY (px py : K) : Ball K :=
        { ball with velocity := { x := -ball.velocity.x, y := -ball.velocity.y }
                    pos := { x := px, y := py } }
      if sideCollisionLeft E ball brick ∧ sideCollisionTop E ball brick then
        if top - ball.prevPos.y < left - ball.prevPos.x - CIRCLE_RECT_COLLISION_EPSILON then
          flipX (left - r)
        else if top - ball.prevPos.y > left - ball.prevPos.x + CIRCLE_RECT_COLLISION_EPSILON then
          flipY (top - r)
        else flipXY (left - r) (top - r)
      else if sideCollisionLeft E ball brick ∧ sideCollisionBottom E ball brick then
        if ball.prevPos.y - bottom < left - ball.prevPos.x - CIRCLE_RECT_COLLISION_EPSILON then
          flipX (left - r)
        else if ball.prevPos.y - bottom > left - ball.prevPos.x + CIRCLE_RECT_COLLISION_EPSILON then
          flipY (bottom + r)
        else flipXY (left - r) (bottom + r)
      else if sideCollisionRight E ball brick ∧ sideCollisionTop E ball brick then
        if top - ball.prevPos.y < ball.prevPos.x - right - CIRCLE_RECT_COLLISION_EPSILON then
          flipX (right + r)
        else if top - ball.prevPos.y > ball.prevPos.x - right + CIRCLE_RECT_COLLISION_EPSILON then
          flipY (top - r)
        else flipXY (right + r) (top - r)
      else if sideCollisionRight E ball brick ∧ sideCollisionBottom E ball brick then
        if ball.prevPos.y - bottom < ball.prevPos.x - right - CIRCLE_RECT_COLLISION_EPSILON then
          flipX (right + r)
        else if ball.prevPos.y - bottom > ball.prevPos.x - right + CIRCLE_RECT_COLLISION_EPSILON then
          flipY (bottom + r)
        else flipXY (right + r) (bottom + r)
      else if sideCollisionLeft E ball brick then flipX (left - r)
      else if sideCollisionRight E ball brick then flipX (right + r)
      else if sideCollisionTop E ball brick then flipY (top - r)
      else if sideCollisionBottom E ball brick then flipY (bottom + r)
      else ball := by
  unfold brickBounce sideCollisionLeft sideCollisionTop sideCollisionRight sideCollisionBottom
  simp only [Bool.and_eq_true, decide_eq_true_eq]

/-- C16: in `BallHandleBrickCollision`, when exactly one side flag is set, only the
corresponding velocity component is negated and only the corresponding position coordinate
is snapped to that edge offset by one radius (left: `pos.x = left - radius`; right:
`pos.x = right + radius`; top: `pos.y = top - radius`; bottom: `pos.y = bottom + radius`);
when no flag is set, velocity and position are unchanged; and in every call the outcome is
that of at most one of the branches: nothing, one single-axis bounce, or one corner bounce.
The speed grows by 2 in every case. -/
theorem brick_single_side (E : Env K) (ball : Ball K) (brick : Brick K) :
    (sideCollisionLeft E ball brick → ¬ sideCollisionTop E ball brick →
      ¬ sideCollisionRight E ball brick → ¬ sideCollisionBottom E ball brick →
      onlyXReflected ball (BallHandleBrickCollision E ball brick)
        (brick.rect.x - (ball.radius : K))) ∧
    (¬ sideCollisionLeft E ball brick → ¬ sideCollisionTop E ball brick →
      sideCollisionRight E ball brick → ¬ sideCollisionBottom E ball brick →
      onlyXReflected ball (BallHandleBrickCollision E ball brick)
        (brick.rect.x + brick.rect.width + (ball.radius : K))) ∧
    (¬ sideCollisionLeft E ball brick → sideCollisionTop E ball brick →
      ¬ sideCollisionRight E ball brick → ¬ sideCollisionBottom E ball brick →
      onlyYReflected ball (BallHandleBrickCollision E ball brick)
        (brick.rect.y - (ball.radius : K))) ∧
    (¬ sideCollisionLeft E ball brick → ¬ sideCollisionTop E ball brick →
      ¬ sideCollisionRight E ball brick → sideCollisionBottom E ball brick →
      onlyYReflected ball (BallHandleBrickCollision E ball brick)
        (brick.rect.y + brick.rect.height + (ball.radius : K))) ∧
    (¬ sideCollisionLeft E ball brick → ¬ sideCollisionTop E ball brick →
      ¬ sideCollisionRight E ball brick → ¬ sideCollisionBottom E ball brick →
      (BallHandleBrickCollision E ball brick).velocity = ball.velocity ∧
      (BallHandleBrickCollision E ball brick).pos = ball.pos) ∧
    (((BallHandleBrickCollision E ball brick).velocity = ball.velocity ∧
        (BallHandleBrickCollision E ball brick).pos = ball.pos) ∨
      onlyXReflected ball (BallHandleBrickCollision E ball brick)
        (brick.rect.x - (ball.radius : K)) ∨
      onlyXReflected ball (BallHandleBrickCollision E ball brick)
        (brick.rect.x + brick.rect.width + (ball.radius : K)) ∨
      onlyYReflected ball (BallHandleBrickCollision E ball brick)
        (brick.rect.y - (ball.radius : K)) ∨
      onlyYReflected ball (BallHandleBrickCollision E ball brick)
        (brick.rect.y + brick.rect.height + (ball.radius : K)) ∨
      bothReflected ball (BallHandleBrickCollision E ball brick)
        (brick.rect.x - (ball.radius : K)) (brick.rect.y - (ball.radius : K)) ∨
      bothReflected ball (BallHandleBrickCollision E ball brick)
        (brick.rect.x - (ball.radius : K)) (brick.rect.y + brick.rect.height + (ball.radius : K)) ∨
      bothReflected ball (BallHandleBrickCollision E ball brick)
        (brick.rect.x + brick.rect.width + (ball.radius : K)) (brick.rect.y - (ball.radius : K)) ∨
      bothReflected ball (BallHandleBrickCollision E ball brick)
        (brick.rect.x + brick.rect.width + (ball.radius : K))
        (brick.rect.y + brick.rect.height + (ball.radius : K))) ∧
    (BallHandleBrickCollision E ball brick).speed = ball.speed + 2 := by
  have hv : (BallHandleBrickCollision E ball brick).velocity = (brickBounce E ball brick).velocity :=
    rfl
  have hp : (BallHandleBrickCollision E ball brick).pos = (brickBounce E ball brick).pos := rfl
  have hs : (BallHandleBrickCollision E ball brick).speed = (brickBounce E ball brick).speed + 2 :=
    rfl
  unfold onlyXReflected onlyYReflected bothReflected
  rw [hv, hp, hs, (brickBounce_frame E ball brick).2.2.1, brickBounce_flags]
  refine ⟨?_, ?_, ?_, ?_, ?_, ?_, rfl⟩
  · intro hl ht hr hb
    simp [hl, ht, hr, hb]
  · intro hl ht hr hb
    simp [hl, ht, hr, hb]
  · intro hl ht hr hb
    simp [hl, ht, hr, hb]
  · intro hl ht hr hb
    simp [hl, ht, hr, hb]
  · intro hl ht hr hb
    simp [hl, ht, hr, hb]
  · simp only
    split_ifs <;> simp

/-- The ball after `ballStep` is the collision-resolved ball with the position integrated. -/
theorem ballStep_ball (E : Env K) (w : World K) (dt : K) :
    (ballStep E w dt).ball =
      { resolvedBall E w with
        prevPos := (resolvedBall E w).pos
        pos :=
          { x := (resolvedBall E w).pos.x + (resolvedBall E w).velocity.x *
              ((resolvedBall E w).speed * dt)
            y := (resolvedBall E w).pos.y + (resolvedBall E w).velocity.y *
              ((resolvedBall E w).speed * dt) } } :=
  rfl

/-- Without paddle overlap, brick hit and arena boundary condition, collision resolution
returns the ball as it is. -/
theorem resolvedBall_no_collision (E : Env K) (w : World K)
    (hp : E.CheckCollisionCircleRec w.ball.prevPos (w.ball.radius : K) w.player.rect = false)
    (hs : BallCheckWallCollision E w.wall w.ball = none)
    (hl : ¬ w.ball.prevPos.x < (w.ball.radius : K))
    (hr : ¬ w.ball.prevPos.x > ((E.screenWidth - w.ball.radius : Int) : K))
    (ht : ¬ w.ball.prevPos.y < (w.ball.radius : K))
    (hb : ¬ w.ball.prevPos.y > ((E.screenHeight - w.ball.radius : Int) : K)) :
    resolvedBall E w = w.ball := by
  have h1 : BallHandlePlayerCollision E w.ball w.player = w.ball := by
    unfold BallHandlePlayerCollision
    have : PlayerRect w.player = w.player.rect := rfl
    simp [this, hp]
  unfold resolvedBall
  simp only [h1, hs]
  unfold BallHandleArenaCollision
  simp only [if_neg hl, if_neg hr, if_neg ht, if_neg hb]

/-- C19: in every `UpdateBall` tick with a launched ball (already enabled, or launched by the
key in this tick), the new `prevPos` is the position after collision resolution, the new
`pos` is that position plus `velocity * speed * deltaTime` with the post-collision velocity
and speed, and the integration changes neither velocity nor speed; in a tick of an enabled
ball with no paddle overlap, no brick hit and no arena boundary condition the velocity (and
the speed) is exactly the one before the tick, so a unit-length velocity stays unit-length. -/
theorem UpdateBall_integration (E : Env K) (w : World K) (keySpace : Bool) (dt : K) :
    (∀ b : Ball K,
      (w.ball.enabled = true ∧ b = resolvedBall E w) ∨
        (w.ball.enabled = false ∧ keySpace = true ∧
          b = resolvedBall E { w with ball := launchBall w.ball }) →
      (UpdateBall E w keySpace dt).ball.prevPos = b.pos ∧
      (UpdateBall E w keySpace dt).ball.pos =
        { x := b.pos.x + b.velocity.x * b.speed * dt
          y := b.pos.y + b.velocity.y * b.speed * dt } ∧
      (UpdateBall E w keySpace dt).ball.velocity = b.velocity ∧
      (UpdateBall E w keySpace dt).ball.speed = b.speed) ∧
    (w.ball.enabled = true →
      E.CheckCollisionCircleRec w.ball.prevPos (w.ball.radius : K) w.player.rect = false →
      BallCheckWallCollision E w.wall w.ball = none →
      ¬ w.ball.prevPos.x < (w.ball.radius : K) →
      ¬ w.ball.prevPos.x > ((E.screenWidth - w.ball.radius : Int) : K) →
      ¬ w.ball.prevPos.y < (w.ball.radius : K) →
      ¬ w.ball.prevPos.y > ((E.screenHeight - w.ball.radius : Int) : K) →
      (UpdateBall E w keySpace dt).ball.velocity = w.ball.velocity ∧
      (UpdateBall E w keySpace dt).ball.speed = w.ball.speed ∧
      (UpdateBall E w keySpace dt).ball.prevPos = w.ball.pos ∧
      (UpdateBall E w keySpace dt).ball.pos =
        { x := w.ball.pos.x + w.ball.velocity.x * w.ball.speed * dt
          y := w.ball.pos.y + w.ball.velocity.y * w.ball.speed * dt } ∧
      (w.ball.velocity.x ^ 2 + w.ball.velocity.y ^ 2 = 1 →
        (UpdateBall E w keySpace dt).ball.velocity.x ^ 2 +
          (UpdateBall E w keySpace dt).ball.velocity.y ^ 2 = 1)) := by
  have hen : w.ball.enabled = true → UpdateBall E w keySpace dt = ballStep E w dt := by
    intro he
    unfold UpdateBall
    simp [he]
  have hla : w.ball.enabled = false → keySpace = true →
      UpdateBall E w keySpace dt = ballStep E { w with ball := launchBall w.ball } dt := by
    intro he hk
    unfold UpdateBall
    simp [he, hk]
  have key : ∀ v : World K,
      (ballStep E v dt).ball.prevPos = (resolvedBall E v).pos ∧
      (ballStep E v dt).ball.pos =
        { x := (resolvedBall E v).pos.x + (resolvedBall E v).velocity.x *
            (resolvedBall E v).speed * dt
          y := (resolvedBall E v).pos.y + (resolvedBall E v).velocity.y *
            (resolvedBall E v).speed * dt } ∧
      (ballStep E v dt).ball.velocity = (resolvedBall E v).velocity ∧
      (ballStep E v dt).ball.speed = (resolvedBall E v).speed := by
    intro v
    rw [ballStep_ball]
    refine ⟨rfl, ?_, rfl, rfl⟩
    simp only [mul_assoc]
  constructor
  · rintro b (⟨he, rfl⟩ | ⟨he, hk, rfl⟩)
    · rw [hen he]
      exact key w
    · rw [hla he hk]
      exact key _
  · intro he hp hs hl hr ht hb
    have hres := resolvedBall_no_collision E w hp hs hl hr ht hb
    obtain ⟨k1, k2, k3, k4⟩ := key w
    rw [hen he]
    rw [hres] at k1 k2 k3 k4
    refine ⟨k3, k4, k1, k2, ?_⟩
    intro hu
    rw [k3]
    exact hu

/-- Points, remaining bricks and lives after any tick: a brick found by the scan is one point
more and one brick less, a bottom crossing is ten points and one life less; a tick that
returns early changes none of them. -/
theorem UpdateBall_counters (E : Env K) (w : World K) (keySpace : Bool) (dt : K) :
    ∃ hit cross : Int, (hit = 0 ∨ hit = 1) ∧ (cross = 0 ∨ cross = 1) ∧
      (cross = 1 ↔ (w.ball.enabled = true ∨ keySpace = true) ∧ crossesBottom E w.ball) ∧
      (hit = 1 ↔ (w.ball.enabled = true ∨ keySpace = true) ∧
        (BallCheckWallCollision E w.wall w.ball).isSome = true) ∧
      (UpdateBall E w keySpace dt).state.points = w.state.points + hit - 10 * cross ∧
      (UpdateBall E w keySpace dt).wall.remaining = w.wall.remaining - hit ∧
      (UpdateBall E w keySpace dt).player.lives = w.player.lives - cross ∧
      (UpdateBall E w keySpace dt).state.gameOver = w.state.gameOver := by
  have hw := UpdateBall_wall E w keySpace dt
  by_cases hl : w.ball.enabled = true ∨ keySpace = true
  · obtain ⟨hp, hg, hpl⟩ := UpdateBall_state E w keySpace dt hl
    rw [if_pos hl] at hw
    refine ⟨if (BallCheckWallCollision E w.wall w.ball).isSome then 1 else 0,
      if crossesBottom E w.ball then 1 else 0, ?_, ?_, ?_, ?_, ?_, ?_, ?_, hg⟩
    · split_ifs <;> simp
    · split_ifs <;> simp
    · split_ifs with h <;> simp [h, hl]
    · split_ifs with h <;> simp [h, hl]
    · rw [hp]
      split_ifs <;> ring
    · rw [hw]
      cases hs : BallCheckWallCollision E w.wall w.ball <;> simp
    · rw [hpl]
      split_ifs <;> simp
  · rw [if_neg hl] at hw
    have he : w.ball.enabled = false := by
      cases hh : w.ball.enabled
      · rfl
      · exact absurd (Or.inl hh) hl
    have hk : keySpace = false := by
      cases hh : keySpace
      · rfl
      · exact absurd (Or.inr hh) hl
    have hd := UpdateBall_docked E w keySpace dt he hk
    refine ⟨0, 0, Or.inl rfl, Or.inl rfl, ?_, ?_, ?_, ?_, ?_, ?_⟩
    · simp [hl]
    · simp [hl]
    · rw [hd]; simp
    · rw [hw]; simp
    · rw [hd]; simp
    · rw [hd]

/-- C20: in every state reachable from the initial state (points 0, lives 5, remaining 104,
any ball) by `UpdateBall` ticks, `points = (104 - remaining) - 10 * (5 - lives)`: the score
is the number of destroyed bricks minus ten times the number of lives lost. -/
theorem points_eq_bricks_minus_lives (E : Env K) (ball : Ball K) (inputs : List (Bool × K)) :
    (runBall E ⟨ball, InitPlayer, InitBrickWall, InitGameState⟩ inputs).state.points =
      (104 - (runBall E ⟨ball, InitPlayer, InitBrickWall, InitGameState⟩ inputs).wall.remaining) -
        10 * (5 - (runBall E ⟨ball, InitPlayer, InitBrickWall, InitGameState⟩
          inputs).player.lives) := by
  have key : ∀ (inputs : List (Bool × K)) (w : World K),
      w.state.points = (104 - w.wall.remaining) - 10 * (5 - w.player.lives) →
      (runBall E w inputs).state.points =
        (104 - (runBall E w inputs).wall.remaining) - 10 * (5 - (runBall E w inputs).player.lives) := by
    intro inputs
    induction inputs with
    | nil => intro w h; exact h
    | cons i rest ih =>
      intro w h
      refine ih _ ?_
      obtain ⟨hit, cross, _, _, _, _, hp, hr, hlv, _⟩ := UpdateBall_counters E w i.1 i.2
      rw [hp, hr, hlv, h]
      ring
  apply key
  rfl

/-- A frame that starts with `gameOver` set returns the state as it is. -/
theorem frameUpdate_gameOver (E : Env K) (g : Game K) (i : FrameInput K)
    (h : g.state.gameOver = true) : frameUpdate E g i = g := by
  unfold frameUpdate
  rw [if_pos h]

/-- Frames that start with `gameOver` set return the state as it is. -/
theorem runFrames_gameOver (E : Env K) (g : Game K) (inputs : List (FrameInput K))
    (h : g.state.gameOver = true) : runFrames E g inputs = g := by
  induction inputs with
  | nil => rfl
  | cons i rest ih =>
    show runFrames E (frameUpdate E g i) rest = g
    rw [frameUpdate_gameOver E g i h]
    exact ih

/-- The end of the update pass: `gameOver` is set when no brick remains or no life is left,
and once set it stays set. -/
theorem frameUpdate_gameOver_set (E : Env K) (g : Game K) (i : FrameInput K) :
    ((frameUpdate E g i).wall.remaining = 0 ∨ (frameUpdate E g i).player.lives = 0 →
      (frameUpdate E g i).state.gameOver = true) ∧
    (g.state.gameOver = true → (frameUpdate E g i).state.gameOver = true) := by
  constructor
  · by_cases h : g.state.gameOver = true
    · intro _
      rw [frameUpdate_gameOver E g i h]
      exact h
    · unfold frameUpdate
      rw [if_neg h]
      simp only
      intro hz
      rw [if_pos]
      simpa using hz
  · intro h
    rw [frameUpdate_gameOver E g i h]
    exact h

/-- C14: for the frame loop of `main`: a frame that starts with `gameOver` true changes
nothing (paddle, ball, brick wall, points, power-up table and `gameOver` itself), so once
`gameOver` is true it stays true, and the state stays the same, in every later frame; and at
the end of every frame whose update leaves `remaining = 0` or `lives = 0`, `gameOver` is
true. -/
theorem gameOver_permanent (E : Env K) (g : Game K) (i : FrameInput K) :
    (g.state.gameOver = true →
      frameUpdate E g i = g ∧
      (frameUpdate E g i).player = g.player ∧ (frameUpdate E g i).ball = g.ball ∧
      (frameUpdate E g i).wall.remaining = g.wall.remaining ∧
      (frameUpdate E g i).wall.bricks = g.wall.bricks ∧
      (frameUpdate E g i).state.points = g.state.points ∧
      (frameUpdate E g i).powerUps = g.powerUps ∧
      (frameUpdate E g i).state.gameOver = true ∧
      ∀ inputs : List (FrameInput K),
        runFrames E g inputs = g ∧ (runFrames E g inputs).state.gameOver = true) ∧
    ((frameUpdate E g i).wall.remaining = 0 ∨ (frameUpdate E g i).player.lives = 0 →
      (frameUpdate E g i).state.gameOver = true) := by
  refine ⟨fun h => ?_, (frameUpdate_gameOver_set E g i).1⟩
  have hf := frameUpdate_gameOver E g i h
  refine ⟨hf, by rw [hf], by rw [hf], by rw [hf], by rw [hf], by rw [hf], by rw [hf],
    by rw [hf]; exact h, ?_⟩
  intro inputs
  have hr := runFrames_gameOver E g inputs h
  exact ⟨hr, by rw [hr]; exact h⟩

/-- The reward loop keeps the lives when every entry of the table does, and the entries of
the new table still do. -/
theorem rewardPlayer_lives (points : Int) (dt : K) (pus : List (PowerUp K))
    (h : ∀ pu ∈ pus, KeepsLives pu.apply) (p : Player K) (b : Ball K) :
    (rewardPlayer points dt pus p b).2.1.lives = p.lives ∧
    ∀ pu ∈ (rewardPlayer points dt pus p b).1, KeepsLives pu.apply := by
  induction pus generalizing p b with
  | nil => exact ⟨rfl, fun _ hm => absurd hm (List.not_mem_nil _)⟩
  | cons pu rest ih =>
    have hpu : KeepsLives pu.apply := h pu (List.mem_cons_self _ _)
    have hrest : ∀ q ∈ rest, KeepsLives q.apply := fun q hq => h q (List.mem_cons_of_mem _ hq)
    unfold rewardPlayer
    split_ifs
    · obtain ⟨h1, h2⟩ := ih hrest p b
      refine ⟨h1, fun q hq => ?_⟩
      rcases List.mem_cons.mp hq with rfl | hq
      · exact hpu
      · exact h2 q hq
    · obtain ⟨h1, h2⟩ := ih hrest p b
      refine ⟨h1, fun q hq => ?_⟩
      rcases List.mem_cons.mp hq with rfl | hq
      · exact hpu
      · exact h2 q hq
    · obtain ⟨h1, h2⟩ := ih hrest (pu.apply p b).1 (pu.apply p b).2
      refine ⟨by simp only at h1 ⊢; rw [h1, hpu p b], fun q hq => ?_⟩
      rcases List.mem_cons.mp hq with rfl | hq
      · exact hpu
      · exact h2 q hq

/-- No entry of the initial power-up table changes the lives. -/
theorem initPowerUps_keepsLives : ∀ pu ∈ (initPowerUps : List (PowerUp K)), KeepsLives pu.apply := by
  intro pu hpu
  unfold initPowerUps at hpu
  simp only [List.mem_cons, List.mem_singleton, List.not_mem_nil, or_false] at hpu
  rcases hpu with rfl | rfl | rfl | rfl | rfl | rfl <;> exact fun _ _ => rfl

/-- Lives and `gameOver` after one frame, for a table whose entries keep the lives: one life
less exactly when the game is not over, the tick does not return early and the ball crosses
the bottom; `gameOver` is set when the lives reach 0. -/
theorem frameUpdate_lives (E : Env K) (g : Game K) (i : FrameInput K)
    (h : ∀ pu ∈ g.powerUps, KeepsLives pu.apply) :
    (frameUpdate E g i).player.lives =
      (if g.state.gameOver = false ∧ (g.ball.enabled = true ∨ i.keySpace = true) ∧
          crossesBottom E g.ball then g.player.lives - 1 else g.player.lives) ∧
    (∀ pu ∈ (frameUpdate E g i).powerUps, KeepsLives pu.apply) := by
  by_cases hg : g.state.gameOver = true
  · rw [frameUpdate_gameOver E g i hg]
    refine ⟨?_, h⟩
    rw [if_neg]
    simp [hg]
  · have hgf : g.state.gameOver = false := by simpa using hg
    unfold frameUpdate
    rw [if_neg hg]
    simp only
    obtain ⟨r1, r2⟩ := rewardPlayer_lives
      (UpdateBall E ⟨g.ball, UpdatePlayer E g.player i.keyRight i.keyLeft i.deltaTime, g.wall,
        g.state⟩ i.keySpace i.deltaTime).state.points i.deltaTime g.powerUps h
      (UpdateBall E ⟨g.ball, UpdatePlayer E g.player i.keyRight i.keyLeft i.deltaTime, g.wall,
        g.state⟩ i.keySpace i.deltaTime).player
      (UpdateBall E ⟨g.ball, UpdatePlayer E g.player i.keyRight i.keyLeft i.deltaTime, g.wall,
        g.state⟩ i.keySpace i.deltaTime).ball
    refine ⟨?_, r2⟩
    rw [r1]
    obtain ⟨hit, cross, _, hc01, hcross, _, _, _, hlv, _⟩ := UpdateBall_counters E
      ⟨g.ball, UpdatePlayer E g.player i.keyRight i.keyLeft i.deltaTime, g.wall, g.state⟩
      i.keySpace i.deltaTime
    rw [hlv]
    have hup : (UpdatePlayer E g.player i.keyRight i.keyLeft i.deltaTime).lives = g.player.lives :=
      rfl
    simp only [hup] at hcross ⊢
    split_ifs with hc
    · have : cross = 1 := hcross.mpr hc.2
      omega
    · have hne : ¬ cross = 1 := fun h1 => hc ⟨hgf, hcross.mp h1⟩
      rcases hc01 with h0 | h1
      · omega
      · exact absurd h1 hne

/-- One frame keeps: lives between 0 and 5, `gameOver` set when no life is left, and a
power-up table whose entries keep the lives. -/
theorem frameUpdate_lives_inv (E : Env K) (g : Game K) (i : FrameInput K)
    (h : (0 ≤ g.player.lives ∧ g.player.lives ≤ 5) ∧
      (g.player.lives = 0 → g.state.gameOver = true) ∧
      ∀ pu ∈ g.powerUps, KeepsLives pu.apply) :
    (0 ≤ (frameUpdate E g i).player.lives ∧ (frameUpdate E g i).player.lives ≤ 5) ∧
    ((frameUpdate E g i).player.lives = 0 → (frameUpdate E g i).state.gameOver = true) ∧
    ∀ pu ∈ (frameUpdate E g i).powerUps, KeepsLives pu.apply := by
  obtain ⟨⟨h0, h5⟩, hz, hk⟩ := h
  obtain ⟨hl, hk'⟩ := frameUpdate_lives E g i hk
  refine ⟨?_, fun h => (frameUpdate_gameOver_set E g i).1 (Or.inr h), hk'⟩
  rw [hl]
  split_ifs with hc
  · have hne : g.player.lives ≠ 0 := by
      intro h
      have := hz h
      rw [hc.1] at this
      exact Bool.false_ne_true this
    constructor <;> omega
  · exact ⟨h0, h5⟩

/-- C15: in every state reachable by the frame loop from the initial state (lives = 5), the
lives are between 0 and 5 and `gameOver` is set when they are 0; a frame never increases the
lives and decreases them by at most 1, by exactly 1 precisely when the ball crosses the
bottom boundary in that frame (the game is not over, the tick does not return early and the
previous position is past the bottom test); and when the lives are 0 at the end of a frame
that same update pass has set `gameOver`, so the lives never become negative. -/
theorem lives_between_zero_and_five (E : Env K) (inputs : List (FrameInput K))
    (i : FrameInput K) :
    (0 ≤ (runFrames E initGame inputs).player.lives ∧
      (runFrames E initGame inputs).player.lives ≤ 5) ∧
    ((runFrames E initGame inputs).player.lives = 0 →
      (runFrames E initGame inputs).state.gameOver = true) ∧
    (frameUpdate E (runFrames E initGame inputs) i).player.lives ≤
      (runFrames E initGame inputs).player.lives ∧
    (runFrames E initGame inputs).player.lives - 1 ≤
      (frameUpdate E (runFrames E initGame inputs) i).player.lives ∧
    ((frameUpdate E (runFrames E initGame inputs) i).player.lives =
        (runFrames E initGame inputs).player.lives - 1 ↔
      (runFrames E initGame inputs).state.gameOver = false ∧
        ((runFrames E initGame inputs).ball.enabled = true ∨ i.keySpace = true) ∧
        crossesBottom E (runFrames E initGame inputs).ball) ∧
    ((frameUpdate E (runFrames E initGame inputs) i).player.lives = 0 →
      (frameUpdate E (runFrames E initGame inputs) i).state.gameOver = true) ∧
    0 ≤ (frameUpdate E (runFrames E initGame inputs) i).player.lives := by
  have key : ∀ (inputs : List (FrameInput K)) (g : Game K),
      ((0 ≤ g.player.lives ∧ g.player.lives ≤ 5) ∧
        (g.player.lives = 0 → g.state.gameOver = true) ∧
        ∀ pu ∈ g.powerUps, KeepsLives pu.apply) →
      ((0 ≤ (runFrames E g inputs).player.lives ∧ (runFrames E g inputs).player.lives ≤ 5) ∧
        ((runFrames E g inputs).player.lives = 0 → (runFrames E g inputs).state.gameOver = true) ∧
        ∀ pu ∈ (runFrames E g inputs).powerUps, KeepsLives pu.apply) := by
    intro inputs
    induction inputs with
    | nil => intro g h; exact h
    | cons j rest ih =>
      intro g h
      exact ih _ (frameUpdate_lives_inv E g j h)
  have hinit : (0 ≤ (initGame : Game K).player.lives ∧ (initGame : Game K).player.lives ≤ 5) ∧
      ((initGame : Game K).player.lives = 0 → (initGame : Game K).state.gameOver = true) ∧
      ∀ pu ∈ (initGame : Game K).powerUps, KeepsLives pu.apply := by
    have h5 : (initGame : Game K).player.lives = 5 := rfl
    refine ⟨⟨by rw [h5]; decide, by rw [h5]⟩, fun h => ?_, initPowerUps_keepsLives⟩
    rw [h5] at h
    exact absurd h (by decide)
  have hinv := key inputs initGame hinit
  obtain ⟨⟨h0, h5⟩, hz, hk⟩ := hinv
  obtain ⟨⟨n0, _⟩, nz, _⟩ := frameUpdate_lives_inv E _ i ⟨⟨h0, h5⟩, hz, hk⟩
  obtain ⟨hl, _⟩ := frameUpdate_lives E (runFrames E initGame inputs) i hk
  refine ⟨⟨h0, h5⟩, hz, ?_, ?_, ?_, nz, n0⟩
  · rw [hl]; split_ifs <;> omega
  · rw [hl]; split_ifs <;> omega
  · rw [hl]
    constructor
    · intro h
      by_contra hc
      rw [if_neg hc] at h
      omega
    · intro hc
      rw [if_pos hc]

/-- Speed after the paddle collision: 5 more on overlap, unchanged otherwise. -/
theorem BallHandlePlayerCollision_speed (E : Env K) (ball : Ball K) (player : Player K) :
    (BallHandlePlayerCollision E ball player).speed =
      ball.speed +
        (if E.CheckCollisionCircleRec ball.prevPos (ball.radius : K) player.rect = true then 5
          else 0) := by
  have hrect : PlayerRect player = player.rect := rfl
  unfold BallHandlePlayerCollision
  rw [hrect]
  cases E.CheckCollisionCircleRec ball.prevPos (ball.radius : K) player.rect <;> simp

/-- Speed after collision resolution when the ball does not cross the bottom: 5 more for a
paddle overlap and 2 more for a brick found by the scan. -/
theorem resolvedBall_speed (E : Env K) (w : World K) (hb : ¬ crossesBottom E w.ball) :
    (resolvedBall E w).speed =
      w.ball.speed +
        (if E.CheckCollisionCircleRec w.ball.prevPos (w.ball.radius : K) w.player.rect = true
          then 5 else 0) +
        (if (BallCheckWallCollision E w.wall w.ball).isSome = true then 2 else 0) := by
  obtain ⟨p1, p2, _, _⟩ := BallHandlePlayerCollision_frame E w.ball w.player
  have hscan : BallCheckWallCollision E w.wall (BallHandlePlayerCollision E w.ball w.player) =
      BallCheckWallCollision E w.wall w.ball := scan_congr E w.wall _ _ p1 p2
  have hb1 : ¬ crossesBottom E (BallHandlePlayerCollision E w.ball w.player) :=
    fun h => hb ((crossesBottom_congr E _ _ p1 p2).mp h)
  unfold resolvedBall
  simp only [hscan]
  cases hs : BallCheckWallCollision E w.wall w.ball with
  | none =>
    simp only
    rw [(BallHandleArenaCollision_ball_axes E _ w.player w.state hb1).2.2.2.2.1,
      BallHandlePlayerCollision_speed]
    simp
  | some rc =>
    simp only
    obtain ⟨q1, q2, _⟩ := BallHandleBrickCollision_frame E
      (BallHandlePlayerCollision E w.ball w.player) (disableBrick w.wall.bricks rc rc.1 rc.2)
    have hb2 : ¬ crossesBottom E (BallHandleBrickCollision E
        (BallHandlePlayerCollision E w.ball w.player) (disableBrick w.wall.bricks rc rc.1 rc.2)) :=
      fun h => hb1 ((crossesBottom_congr E _ _ q1 q2).mp h)
    rw [(BallHandleArenaCollision_ball_axes E _ w.player _ hb2).2.2.2.2.1]
    have hsp : (BallHandleBrickCollision E (BallHandlePlayerCollision E w.ball w.player)
        (disableBrick w.wall.bricks rc rc.1 rc.2)).speed =
        (BallHandlePlayerCollision E w.ball w.player).speed + 2 := by
      show (brickBounce E _ _).speed + 2 = _
      rw [(brickBounce_frame E _ _).2.2.1]
    rw [hsp, BallHandlePlayerCollision_speed]
    simp

/-- A ball resting on the paddle: with `deltaTime = 0`, an enabled ball whose position and
previous position coincide, overlap the paddle and touch neither a brick nor an arena
boundary gains 5 of speed in every tick and stays where it is. -/
theorem runBall_resting_speed (E : Env K) (n : Nat) (w : World K)
    (he : w.ball.enabled = true) (hpos : w.ball.pos = w.ball.prevPos)
    (hp : E.CheckCollisionCircleRec w.ball.prevPos (w.ball.radius : K) w.player.rect = true)
    (hs : BallCheckWallCollision E w.wall w.ball = none)
    (hl : ¬ w.ball.prevPos.x < (w.ball.radius : K))
    (hr : ¬ w.ball.prevPos.x > ((E.screenWidth - w.ball.radius : Int) : K))
    (ht : ¬ w.ball.prevPos.y < (w.ball.radius : K))
    (hb : ¬ w.ball.prevPos.y > ((E.screenHeight - w.ball.radius : Int) : K)) :
    (runBall E w (List.replicate n (false, 0))).ball.enabled = true ∧
    (runBall E w (List.replicate n (false, 0))).ball.speed = w.ball.speed + 5 * (n : K) := by
  induction n generalizing w with
  | zero => exact ⟨he, by simp [runBall]⟩
  | succ n ih =>
    have hcb : ¬ crossesBottom E w.ball := fun h => hb h.2
    have hU : UpdateBall E w false 0 = ballStep E w 0 := by
      unfold UpdateBall
      simp [he]
    have hball := ballStep_ball E w 0
    have hsp := resolvedBall_speed E w hcb
    rw [if_pos hp, hs] at hsp
    simp only [Option.isSome_none, Bool.false_eq_true, if_false, add_zero] at hsp
    -- the resolved ball keeps radius, previous position, position and the enabled flag
    obtain ⟨p1, p2, p3, p4⟩ := BallHandlePlayerCollision_frame E w.ball w.player
    have hres : (resolvedBall E w).radius = w.ball.radius ∧
        (resolvedBall E w).pos = w.ball.pos ∧ (resolvedBall E w).enabled = true := by
      have hb1 : ¬ crossesBottom E (BallHandlePlayerCollision E w.ball w.player) :=
        fun h => hcb ((crossesBottom_congr E _ _ p1 p2).mp h)
      have hscan : BallCheckWallCollision E w.wall (BallHandlePlayerCollision E w.ball w.player) =
          none := by rw [scan_congr E w.wall _ _ p1 p2, hs]
      obtain ⟨_, a2, _, a4, _, a6, a7, _⟩ :=
        BallHandleArenaCollision_ball_axes E (BallHandlePlayerCollision E w.ball w.player)
          w.player w.state hb1
      rw [p1, p2] at a2 a4
      rw [if_neg hl, if_neg hr] at a2
      rw [if_neg ht] at a4
      unfold resolvedBall
      simp only [hscan]
      refine ⟨by rw [a7, p2], ?_, by rw [a6, p4, he]⟩
      cases hq : (BallHandleArenaCollision E (BallHandlePlayerCollision E w.ball w.player)
          w.player w.state).1.pos with
      | mk px py =>
        rw [hq] at a2 a4
        simp only at a2 a4
        rw [a2, a4, p3]
    obtain ⟨r1, r2, r3⟩ := hres
    have hwall : (ballStep E w 0).wall = w.wall := by
      rcases ballStep_wall E w 0 with ⟨_, h⟩ | ⟨rc, h, _⟩
      · exact h
      · rw [hs] at h; exact absurd h (by simp)
    have hplayer : (ballStep E w 0).player = w.player := by
      rw [(ballStep_state E w 0).2.2, if_neg hcb]
    have hb' : (ballStep E w 0).ball.radius = w.ball.radius ∧
        (ballStep E w 0).ball.prevPos = w.ball.prevPos ∧
        (ballStep E w 0).ball.pos = w.ball.prevPos ∧
        (ballStep E w 0).ball.enabled = true ∧
        (ballStep E w 0).ball.speed = w.ball.speed + 5 := by
      rw [hball]
      refine ⟨r1, by simp only; rw [r2, hpos], ?_, r3, hsp⟩
      simp only [mul_zero, add_zero]
      rw [r2, hpos]
    obtain ⟨b1, b2, b3, b4, b5⟩ := hb'
    have hscan' : BallCheckWallCollision E (ballStep E w 0).wall (ballStep E w 0).ball = none := by
      rw [hwall, scan_congr E w.wall _ w.ball b2 b1, hs]
    have := ih (ballStep E w 0) b4 (by rw [b3, b2]) (by rw [b2, b1, hplayer]; exact hp) hscan'
      (by rw [b2, b1]; exact hl) (by rw [b2, b1]; exact hr) (by rw [b2, b1]; exact ht)
      (by rw [b2, b1]; exact hb)
    have hrun : runBall E w (List.replicate (n + 1) (false, 0)) =
        runBall E (ballStep E w 0) (List.replicate n (false, 0)) := by
      simp only [runBall, List.replicate_succ, List.foldl_cons, hU]
    rw [hrun]
    refine ⟨this.1, ?_⟩
    rw [this.2, b5]
    push_cast
    ring

/-- After `toPaddleInputs` the ball rests on the paddle with speed 202. -/
theorem toPaddleInputs_resting :
    (runBall envQ initWorld toPaddleInputs).ball.enabled = true ∧
    (runBall envQ initWorld toPaddleInputs).ball.pos =
      (runBall envQ initWorld toPaddleInputs).ball.prevPos ∧
    envQ.CheckCollisionCircleRec (runBall envQ initWorld toPaddleInputs).ball.prevPos
      ((runBall envQ initWorld toPaddleInputs).ball.radius : ℚ)
      (runBall envQ initWorld toPaddleInputs).player.rect = true ∧
    BallCheckWallCollision envQ (runBall envQ initWorld toPaddleInputs).wall
      (runBall envQ initWorld toPaddleInputs).ball = none ∧
    ¬ (runBall envQ initWorld toPaddleInputs).ball.prevPos.x <
      ((runBall envQ initWorld toPaddleInputs).ball.radius : ℚ) ∧
    ¬ (runBall envQ initWorld toPaddleInputs).ball.prevPos.x >
      ((envQ.screenWidth - (runBall envQ initWorld toPaddleInputs).ball.radius : Int) : ℚ) ∧
    ¬ (runBall envQ initWorld toPaddleInputs).ball.prevPos.y <
      ((runBall envQ initWorld toPaddleInputs).ball.radius : ℚ) ∧
    ¬ (runBall envQ initWorld toPaddleInputs).ball.prevPos.y >
      ((envQ.screenHeight - (runBall envQ initWorld toPaddleInputs).ball.radius : Int) : ℚ) ∧
    (runBall envQ initWorld toPaddleInputs).ball.speed = 202 := by
  decide!

/-- C17: in every `UpdateBall` tick in which the ball does not cross the bottom boundary, the
speed of an enabled ball at the end of the tick is its speed before plus 5 if the circle at the
previous position overlapped the paddle plus 2 if the scan found a brick (7 if both, 0 if
neither), so it does not decrease; a ball launched in the tick ends with `BALL_SPEED` plus the
same increments; the brick collision adds 2 whatever the side flags are; and the speed has no
upper bound: for every `n` some sequence of ticks from the initial state ends with an enabled
ball of speed `202 + 5 n`. -/
theorem ball_speed_increments (E : Env K) (w : World K) (keySpace : Bool) (dt : K)
    (hb : ¬ crossesBottom E w.ball) :
    (w.ball.enabled = true →
      (UpdateBall E w keySpace dt).ball.speed =
        w.ball.speed +
          (if E.CheckCollisionCircleRec w.ball.prevPos (w.ball.radius : K) w.player.rect = true
            then 5 else 0) +
          (if (BallCheckWallCollision E w.wall w.ball).isSome = true then 2 else 0) ∧
      w.ball.speed ≤ (UpdateBall E w keySpace dt).ball.speed) ∧
    (w.ball.enabled = false → keySpace = true →
      (UpdateBall E w keySpace dt).ball.speed =
        BALL_SPEED +
          (if E.CheckCollisionCircleRec w.ball.prevPos (w.ball.radius : K) w.player.rect = true
            then 5 else 0) +
          (if (BallCheckWallCollision E w.wall w.ball).isSome = true then 2 else 0)) ∧
    (∀ (ball : Ball K) (brick : Brick K),
      (BallHandleBrickCollision E ball brick).speed = ball.speed + 2) ∧
    (∀ n : Nat, ∃ inputs : List (Bool × ℚ),
      (runBall envQ initWorld inputs).ball.enabled = true ∧
      (runBall envQ initWorld inputs).ball.speed = 202 + 5 * (n : ℚ)) := by
  refine ⟨?_, ?_, ?_, ?_⟩
  · intro he
    have hU : UpdateBall E w keySpace dt = ballStep E w dt := by
      unfold UpdateBall
      simp [he]
    have hsp : (UpdateBall E w keySpace dt).ball.speed = (resolvedBall E w).speed := by
      rw [hU, ballStep_ball]
    rw [hsp, resolvedBall_speed E w hb]
    refine ⟨rfl, ?_⟩
    have h5 : (0 : K) ≤ (if E.CheckCollisionCircleRec w.ball.prevPos (w.ball.radius : K)
        w.player.rect = true then 5 else 0) := by split_ifs <;> norm_num
    have h2 : (0 : K) ≤ (if (BallCheckWallCollision E w.wall w.ball).isSome = true then 2
        else 0) := by split_ifs <;> norm_num
    linarith
  · intro he hk
    have hU : UpdateBall E w keySpace dt = ballStep E { w with ball := launchBall w.ball } dt := by
      unfold UpdateBall
      simp [he, hk]
    have hsp : (UpdateBall E w keySpace dt).ball.speed =
        (resolvedBall E { w with ball := launchBall w.ball }).speed := by
      rw [hU, ballStep_ball]
    rw [hsp, resolvedBall_speed E { w with ball := launchBall w.ball } hb]
    rfl
  · intro ball brick
    show (brickBounce E ball brick).speed + 2 = _
    rw [(brickBounce_frame E ball brick).2.2.1]
  · intro n
    obtain ⟨h1, h2, h3, h4, h5, h6, h7, h8, h9⟩ := toPaddleInputs_resting
    refine ⟨toPaddleInputs ++ List.replicate n (false, 0), ?_⟩
    have happ : runBall envQ initWorld (toPaddleInputs ++ List.replicate n (false, 0)) =
        runBall envQ (runBall envQ initWorld toPaddleInputs) (List.replicate n (false, 0)) := by
      simp only [runBall, List.foldl_append]
    rw [happ]
    have := runBall_resting_speed envQ n (runBall envQ initWorld toPaddleInputs)
      h1 h2 h3 h4 h5 h6 h7 h8
    rw [h9] at this
    exact this

/-- `Normalize2` returns a unit-length vector when `RSqrt` is exact at the squared length of
its argument. -/
theorem Normalize2_unit (E : Env K) (vec : Vector2 K)
    (h : (vec.x * vec.x + vec.y * vec.y) * E.RSqrt (vec.x * vec.x + vec.y * vec.y) *
      E.RSqrt (vec.x * vec.x + vec.y * vec.y) = 1) :
    (Normalize2 E vec).x ^ 2 + (Normalize2 E vec).y ^ 2 = 1 := by
  unfold Normalize2
  simp only
  rw [← h]
  ring

/-- `Normalize2` of the zero vector is the zero vector, whatever `RSqrt` returns at 0. -/
theorem Normalize2_zero (E : Env K) : Normalize2 E { x := 0, y := 0 } = { x := 0, y := 0 } := by
  unfold Normalize2
  simp

/-- A paddle collision in which the ball's position is exactly one radius below the paddle's
bottom-midpoint sets the velocity to `(0, 0)`, in every environment. -/
theorem BallHandlePlayerCollision_pivot (E : Env K) (ball : Ball K) (player : Player K)
    (ho : E.CheckCollisionCircleRec ball.prevPos (ball.radius : K) player.rect = true)
    (hx : ball.pos.x = player.rect.x + player.rect.width / 2)
    (hy : ball.pos.y - (ball.radius : K) = player.rect.y + player.rect.height) :
    (BallHandlePlayerCollision E ball player).velocity = { x := 0, y := 0 } ∧
    (BallHandlePlayerCollision E ball player).enabled = ball.enabled := by
  have hrect : PlayerRect player = player.rect := rfl
  unfold BallHandlePlayerCollision
  simp only [hrect, ho, Bool.not_true, Bool.false_eq_true, if_false, PlayerBottomMid, hx, hy,
    sub_self]
  exact ⟨Normalize2_zero E, trivial⟩

/-- The brick bounce keeps the square of each velocity component. -/
theorem brickBounce_velocity_sq (E : Env K) (ball : Ball K) (brick : Brick K) :
    (brickBounce E ball brick).velocity.x ^ 2 = ball.velocity.x ^ 2 ∧
    (brickBounce E ball brick).velocity.y ^ 2 = ball.velocity.y ^ 2 := by
  rw [brickBounce_flags]
  simp only
  split_ifs <;> simp

/-- Collision resolution without bottom crossing keeps the squared length that the velocity
has after the paddle collision. -/
theorem resolvedBall_velocity_sq (E : Env K) (w : World K) (hb : ¬ crossesBottom E w.ball) :
    (resolvedBall E w).velocity.x ^ 2 + (resolvedBall E w).velocity.y ^ 2 =
      (BallHandlePlayerCollision E w.ball w.player).velocity.x ^ 2 +
        (BallHandlePlayerCollision E w.ball w.player).velocity.y ^ 2 := by
  obtain ⟨p1, p2, _, _⟩ := BallHandlePlayerCollision_frame E w.ball w.player
  have hb1 : ¬ crossesBottom E (BallHandlePlayerCollision E w.ball w.player) :=
    fun h => hb ((crossesBottom_congr E _ _ p1 p2).mp h)
  have harena : ∀ (b : Ball K) (st : GameState), ¬ crossesBottom E b →
      (BallHandleArenaCollision E b w.player st).1.velocity.x ^ 2 +
        (BallHandleArenaCollision E b w.player st).1.velocity.y ^ 2 =
      b.velocity.x ^ 2 + b.velocity.y ^ 2 := by
    intro b st hcb
    obtain ⟨a1, _, a3, _⟩ := BallHandleArenaCollision_ball_axes E b w.player st hcb
    rw [a1, a3]
    split_ifs <;> ring
  unfold resolvedBall
  cases hs : BallCheckWallCollision E w.wall (BallHandlePlayerCollision E w.ball w.player) with
  | none =>
    simp only [hs]
    exact harena _ _ hb1
  | some rc =>
    simp only [hs]
    obtain ⟨q1, q2, _⟩ := BallHandleBrickCollision_frame E
      (BallHandlePlayerCollision E w.ball w.player) (disableBrick w.wall.bricks rc rc.1 rc.2)
    have hb2 : ¬ crossesBottom E (BallHandleBrickCollision E
        (BallHandlePlayerCollision E w.ball w.player) (disableBrick w.wall.bricks rc rc.1 rc.2)) :=
      fun h => hb1 ((crossesBottom_congr E _ _ q1 q2).mp h)
    rw [harena _ _ hb2]
    obtain ⟨s1, s2⟩ := brickBounce_velocity_sq E (BallHandlePlayerCollision E w.ball w.player)
      (disableBrick w.wall.bricks rc rc.1 rc.2)
    show (brickBounce E _ _).velocity.x ^ 2 + (brickBounce E _ _).velocity.y ^ 2 = _
    rw [s1, s2]

/-- One tick keeps the velocity of an enabled ball at unit length, provided `RSqrt` is exact
on positive numbers and, if the paddle is hit, the vector that is normalised (from the
paddle's bottom-midpoint to the point one radius above the ball's position) is not the zero
vector. -/
theorem UpdateBall_unit_velocity (E : Env K)
    (hexact : ∀ x : K, 0 < x → x * E.RSqrt x * E.RSqrt x = 1)
    (w : World K) (keySpace : Bool) (dt : K)
    (hunit : w.ball.enabled = true → w.ball.velocity.x ^ 2 + w.ball.velocity.y ^ 2 = 1)
    (hnd : E.CheckCollisionCircleRec w.ball.prevPos (w.ball.radius : K) w.player.rect = true →
      w.ball.pos.x - (w.player.rect.x + w.player.rect.width / 2) ≠ 0 ∨
        w.ball.pos.y - (w.ball.radius : K) - (w.player.rect.y + w.player.rect.height) ≠ 0) :
    (UpdateBall E w keySpace dt).ball.enabled = true →
      (UpdateBall E w keySpace dt).ball.velocity.x ^ 2 +
        (UpdateBall E w keySpace dt).ball.velocity.y ^ 2 = 1 := by
  -- the step from a ball that is enabled with unit velocity
  have step : ∀ v : World K, v.ball.velocity.x ^ 2 + v.ball.velocity.y ^ 2 = 1 →
      v.ball.prevPos = w.ball.prevPos → v.ball.radius = w.ball.radius → v.ball.pos = w.ball.pos →
      v.player = w.player →
      (ballStep E v dt).ball.enabled = true →
      (ballStep E v dt).ball.velocity.x ^ 2 + (ballStep E v dt).ball.velocity.y ^ 2 = 1 := by
    intro v hv h1 h2 h3 h4 hen
    rw [ballStep_ball] at hen ⊢
    simp only at hen ⊢
    by_cases hcb : crossesBottom E v.ball
    · exfalso
      have := ballStep_ball_bottom E v dt hcb
      rw [ballStep_ball] at this
      have he : (resolvedBall E v).enabled = false := by
        have := congrArg Ball.enabled this
        simpa [InitBall] using this
      rw [he] at hen
      exact Bool.false_ne_true hen
    · rw [resolvedBall_velocity_sq E v hcb]
      cases ho : E.CheckCollisionCircleRec v.ball.prevPos (v.ball.radius : K) v.player.rect with
      | false =>
        have hrect : PlayerRect v.player = v.player.rect := rfl
        have : BallHandlePlayerCollision E v.ball v.player = v.ball := by
          unfold BallHandlePlayerCollision
          simp [hrect, ho]
        rw [this]
        exact hv
      | true =>
        have hrect : PlayerRect v.player = v.player.rect := rfl
        have hvel : (BallHandlePlayerCollision E v.ball v.player).velocity =
            Normalize2 E
              { x := v.ball.pos.x - (v.player.rect.x + v.player.rect.width / 2)
                y := v.ball.pos.y - (v.ball.radius : K) -
                  (v.player.rect.y + v.player.rect.height) } := by
          unfold BallHandlePlayerCollision
          simp only [hrect, ho, Bool.not_true, Bool.false_eq_true, if_false, PlayerBottomMid]
        rw [hvel]
        apply Normalize2_unit
        apply hexact
        simp only
        rw [h1, h2, h4] at ho
        have hd := hnd ho
        rw [h2, h3, h4]
        rcases hd with hd | hd
        · have := mul_self_pos.mpr hd
          have := mul_self_nonneg
            (w.ball.pos.y - (w.ball.radius : K) - (w.player.rect.y + w.player.rect.height))
          linarith
        · have := mul_self_pos.mpr hd
          have := mul_self_nonneg (w.ball.pos.x - (w.player.rect.x + w.player.rect.width / 2))
          linarith
  intro hen
  cases he : w.ball.enabled with
  | true =>
    have hU : UpdateBall E w keySpace dt = ballStep E w dt := by
      unfold UpdateBall
      simp [he]
    rw [hU] at hen ⊢
    exact step w (hunit he) rfl rfl rfl rfl hen
  | false =>
    cases hk : keySpace with
    | false =>
      exfalso
      rw [UpdateBall_docked E w keySpace dt he hk] at hen
      simp only at hen
      rw [he] at hen
      exact Bool.false_ne_true hen
    | true =>
      have hU : UpdateBall E w true dt = ballStep E { w with ball := launchBall w.ball } dt := by
        unfold UpdateBall
        simp [he]
      rw [hk] at hen
      rw [hU] at hen ⊢
      refine step _ ?_ rfl rfl rfl rfl hen
      simp [launchBall]

/-- The value of the macro `BRICK_HPAD`: `(800 - (13 * (50 + 3) - 3)) / 2 = 57`. -/
theorem BRICK_HPAD_eq : (BRICK_HPAD : K) = 57 := by
  unfold BRICK_HPAD BRICK_WIDTH SCREEN_WIDTH BRICK_HGAP
  norm_num

/-- The rectangle of brick `(r, c)` of the initial wall. -/
theorem InitBrickWall_rect (r : Fin BRICK_VCOUNT) (c : Fin BRICK_HCOUNT) :
    ((InitBrickWall : BrickWall K).bricks r c).rect =
      { x := 57 + 53 * ((c : Nat) : K), y := 60 + 23 * ((r : Nat) : K)
        width := 50, height := 20 } := by
  have hx : (BRICK_HPAD : K) + ((c : Nat) : K) * (BRICK_WIDTH + ((BRICK_HGAP : Int) : K)) =
      57 + 53 * ((c : Nat) : K) := by
    rw [BRICK_HPAD_eq]
    unfold BRICK_WIDTH BRICK_HGAP
    push_cast
    ring
  have hy : ((BRICK_VPAD : Int) : K) + ((r : Nat) : K) * (BRICK_HEIGHT + ((BRICK_VGAP : Int) : K)) =
      60 + 23 * ((r : Nat) : K) := by
    unfold BRICK_VPAD BRICK_HEIGHT BRICK_VGAP
    push_cast
    ring
  show ({ x := _, y := _, width := _, height := _ } : Rectangle K) = _
  rw [hx, hy]
  rfl

/-- Distinct indices, cast to the field, differ by at least one. -/
theorem cast_succ_le_of_lt (a b : Nat) (h : a < b) : ((a : Nat) : K) + 1 ≤ ((b : Nat) : K) := by
  have : a + 1 ≤ b := h
  exact_mod_cast this

/-- C21: the wall built by `InitBrickWall` has brick `(r, c)`, for `r < 8` and `c < 13`, at
`x = 57 + 53 c`, `y = 60 + 23 r` with width 50 and height 20; every brick lies inside the
800 x 450 arena; any two distinct bricks are at least 3 apart along one axis, so no point
lies in both rectangles, and neighbours in a row or in a column are exactly 3 apart; and the
grid is horizontally centred: the left margin `BRICK_HPAD = 57` equals the right margin
`800 - 743 = 57`. -/
theorem InitBrickWall_layout (r r' : Fin BRICK_VCOUNT) (c c' : Fin BRICK_HCOUNT) :
    ((InitBrickWall : BrickWall K).bricks r c).rect =
      { x := 57 + 53 * ((c : Nat) : K), y := 60 + 23 * ((r : Nat) : K)
        width := 50, height := 20 } ∧
    (0 ≤ ((InitBrickWall : BrickWall K).bricks r c).rect.x ∧
      ((InitBrickWall : BrickWall K).bricks r c).rect.x +
        ((InitBrickWall : BrickWall K).bricks r c).rect.width ≤ ((SCREEN_WIDTH : Int) : K) ∧
      0 ≤ ((InitBrickWall : BrickWall K).bricks r c).rect.y ∧
      ((InitBrickWall : BrickWall K).bricks r c).rect.y +
        ((InitBrickWall : BrickWall K).bricks r c).rect.height ≤ ((SCREEN_HEIGHT : Int) : K)) ∧
    ((r, c) ≠ (r', c') →
      separatedBy 3 ((InitBrickWall : BrickWall K).bricks r c).rect
        ((InitBrickWall : BrickWall K).bricks r' c').rect ∧
      ∀ p : Vector2 K,
        ¬ (pointInRect p ((InitBrickWall : BrickWall K).bricks r c).rect ∧
          pointInRect p ((InitBrickWall : BrickWall K).bricks r' c').rect)) ∧
    ((c : Nat) + 1 = (c' : Nat) →
      ((InitBrickWall : BrickWall K).bricks r c').rect.x -
        (((InitBrickWall : BrickWall K).bricks r c).rect.x +
          ((InitBrickWall : BrickWall K).bricks r c).rect.width) = 3) ∧
    ((r : Nat) + 1 = (r' : Nat) →
      ((InitBrickWall : BrickWall K).bricks r' c).rect.y -
        (((InitBrickWall : BrickWall K).bricks r c).rect.y +
          ((InitBrickWall : BrickWall K).bricks r c).rect.height) = 3) ∧
    ((BRICK_HPAD : K) = 57 ∧
      ((InitBrickWall : BrickWall K).bricks r 0).rect.x = 57 ∧
      ((InitBrickWall : BrickWall K).bricks r 12).rect.x +
        ((InitBrickWall : BrickWall K).bricks r 12).rect.width = 743 ∧
      ((SCREEN_WIDTH : Int) : K) -
        (((InitBrickWall : BrickWall K).bricks r 12).rect.x +
          ((InitBrickWall : BrickWall K).bricks r 12).rect.width) =
        ((InitBrickWall : BrickWall K).bricks r 0).rect.x) := by
  have hc0 : (0 : K) ≤ ((c : Nat) : K) := Nat.cast_nonneg _
  have hr0 : (0 : K) ≤ ((r : Nat) : K) := Nat.cast_nonneg _
  have hc12 : ((c : Nat) : K) ≤ 12 := by
    have : (c : Nat) ≤ 12 := by have := c.isLt; unfold BRICK_HCOUNT at this; omega
    exact_mod_cast this
  have hr7 : ((r : Nat) : K) ≤ 7 := by
    have : (r : Nat) ≤ 7 := by have := r.isLt; unfold BRICK_VCOUNT at this; omega
    exact_mod_cast this
  have hW : ((SCREEN_WIDTH : Int) : K) = 800 := by unfold SCREEN_WIDTH; norm_num
  have hH : ((SCREEN_HEIGHT : Int) : K) = 450 := by unfold SCREEN_HEIGHT; norm_num
  refine ⟨InitBrickWall_rect r c, ?_, ?_, ?_, ?_, ?_⟩
  · rw [InitBrickWall_rect r c, hW, hH]
    simp only
    refine ⟨by linarith, by linarith, by linarith, by linarith⟩
  · intro hne
    have hsep : separatedBy (3 : K) ((InitBrickWall : BrickWall K).bricks r c).rect
        ((InitBrickWall : BrickWall K).bricks r' c').rect := by
      rw [InitBrickWall_rect r c, InitBrickWall_rect r' c']
      unfold separatedBy
      simp only
      by_cases hcc : (c : Nat) = (c' : Nat)
      · have hrr : (r : Nat) ≠ (r' : Nat) := by
          intro hrr
          exact hne (Prod.ext (Fin.ext hrr) (Fin.ext hcc))
        rcases Nat.lt_or_gt_of_ne hrr with h | h
        · have := @cast_succ_le_of_lt K _ _ _ h
          right; right; left
          linarith
        · have := @cast_succ_le_of_lt K _ _ _ h
          right; right; right
          linarith
      · rcases Nat.lt_or_gt_of_ne hcc with h | h
        · have := @cast_succ_le_of_lt K _ _ _ h
          left
          linarith
        · have := @cast_succ_le_of_lt K _ _ _ h
          right; left
          linarith
    refine ⟨hsep, ?_⟩
    intro p hp
    obtain ⟨⟨a1, a2, a3, a4⟩, b1, b2, b3, b4⟩ := hp
    rcases hsep with h | h | h | h <;> linarith
  · intro h
    rw [InitBrickWall_rect r c, InitBrickWall_rect r c']
    simp only
    have : ((c' : Nat) : K) = ((c : Nat) : K) + 1 := by exact_mod_cast h.symm
    rw [this]
    ring
  · intro h
    rw [InitBrickWall_rect r c, InitBrickWall_rect r' c]
    simp only
    have : ((r' : Nat) : K) = ((r : Nat) : K) + 1 := by exact_mod_cast h.symm
    rw [this]
    ring
  · have h0 : (((0 : Fin BRICK_HCOUNT) : Nat) : K) = 0 := by
      have : ((0 : Fin BRICK_HCOUNT) : Nat) = 0 := rfl
      rw [this]
      norm_num
    have h12 : (((12 : Fin BRICK_HCOUNT) : Nat) : K) = 12 := by
      have : ((12 : Fin BRICK_HCOUNT) : Nat) = 12 := rfl
      rw [this]
      norm_num
    rw [InitBrickWall_rect r 0, InitBrickWall_rect r 12, hW]
    simp only
    rw [h0, h12]
    refine ⟨BRICK_HPAD_eq, ?_, ?_, ?_⟩ <;> norm_num

/-! ### The ball's radius in the frame loop -/

/-- Collision resolution returns a ball of the same radius, or the ball of `InitBall`. -/
theorem resolvedBall_radius (E : Env K) (w : World K) (h : w.ball.radius = BALL_RADIUS) :
    (resolvedBall E w).radius = BALL_RADIUS := by
  obtain ⟨_, p2, _, _⟩ := BallHandlePlayerCollision_frame E w.ball w.player
  have key : ∀ (b : Ball K) (state : GameState), b.radius = BALL_RADIUS →
      (BallHandleArenaCollision E b w.player state).1.radius = BALL_RADIUS := by
    intro b state hb
    by_cases hc : crossesBottom E b
    · rw [BallHandleArenaCollision_ball_bottom E b w.player state hc]
      rfl
    · rw [(BallHandleArenaCollision_ball_axes E b w.player state hc).2.2.2.2.2.2.1]
      exact hb
  unfold resolvedBall
  dsimp only
  cases hs : BallCheckWallCollision E w.wall (BallHandlePlayerCollision E w.ball w.player) with
  | none =>
    simp only
    exact key _ _ (p2.trans h)
  | some rc =>
    simp only
    obtain ⟨_, q2, _⟩ := BallHandleBrickCollision_frame E
      (BallHandlePlayerCollision E w.ball w.player) (disableBrick w.wall.bricks rc rc.1 rc.2)
    exact key _ _ (q2.trans (p2.trans h))

/-- A tick of `UpdateBall` keeps the ball's radius at `BALL_RADIUS`. -/
theorem UpdateBall_radius (E : Env K) (w : World K) (keySpace : Bool) (dt : K)
    (h : w.ball.radius = BALL_RADIUS) :
    (UpdateBall E w keySpace dt).ball.radius = BALL_RADIUS := by
  by_cases hl : w.ball.enabled = true ∨ keySpace = true
  · obtain ⟨b, _, hr, _, hU⟩ := UpdateBall_launched E w keySpace dt hl
    rw [hU, ballStep_ball]
    exact resolvedBall_radius E { w with ball := b } (hr.trans h)
  · have he : w.ball.enabled = false := by
      cases hh : w.ball.enabled
      · rfl
      · exact absurd (Or.inl hh) hl
    have hk : keySpace = false := by
      cases hh : keySpace
      · rfl
      · exact absurd (Or.inr hh) hl
    rw [UpdateBall_docked E w keySpace dt he hk]
    exact h

/-- The reward loop keeps the ball's radius when every entry of the table does, and the
entries of the new table still do. -/
theorem rewardPlayer_radius (points : Int) (dt : K) (pus : List (PowerUp K))
    (h : ∀ pu ∈ pus, KeepsRadius pu.apply) (p : Player K) (b : Ball K) :
    (rewardPlayer points dt pus p b).2.2.radius = b.radius ∧
    ∀ pu ∈ (rewardPlayer points dt pus p b).1, KeepsRadius pu.apply := by
  induction pus generalizing p b with
  | nil => exact ⟨rfl, fun _ hm => absurd hm (List.not_mem_nil _)⟩
  | cons pu rest ih =>
    have hpu : KeepsRadius pu.apply := h pu (List.mem_cons_self _ _)
    have hrest : ∀ q ∈ rest, KeepsRadius q.apply := fun q hq => h q (List.mem_cons_of_mem _ hq)
    unfold rewardPlayer
    split_ifs
    · obtain ⟨h1, h2⟩ := ih hrest p b
      refine ⟨h1, fun q hq => ?_⟩
      rcases List.mem_cons.mp hq with rfl | hq
      · exact hpu
      · exact h2 q hq
    · obtain ⟨h1, h2⟩ := ih hrest p b
      refine ⟨h1, fun q hq => ?_⟩
      rcases List.mem_cons.mp hq with rfl | hq
      · exact hpu
      · exact h2 q hq
    · obtain ⟨h1, h2⟩ := ih hrest (pu.apply p b).1 (pu.apply p b).2
      refine ⟨h1.trans (hpu p b), fun q hq => ?_⟩
      rcases List.mem_cons.mp hq with rfl | hq
      · exact hpu
      · exact h2 q hq

/-- No entry of the initial power-up table changes the ball's radius. -/
theorem initPowerUps_keepsRadius :
    ∀ pu ∈ (initPowerUps : List (PowerUp K)), KeepsRadius pu.apply := by
  intro pu hpu
  unfold initPowerUps at hpu
  simp only [List.mem_cons, List.mem_singleton, List.not_mem_nil, or_false] at hpu
  rcases hpu with rfl | rfl | rfl | rfl | rfl | rfl <;> exact fun _ _ => rfl

/-- One frame keeps the ball's radius at `BALL_RADIUS`, for a table whose entries keep the
radius. -/
theorem frameUpdate_radius_inv (E : Env K) (g : Game K) (i : FrameInput K)
    (h : g.ball.radius = BALL_RADIUS ∧ ∀ pu ∈ g.powerUps, KeepsRadius pu.apply) :
    (frameUpdate E g i).ball.radius = BALL_RADIUS ∧
      ∀ pu ∈ (frameUpdate E g i).powerUps, KeepsRadius pu.apply := by
  unfold frameUpdate
  split_ifs with hgo
  · exact h
  · simp only
    obtain ⟨h1, h2⟩ := rewardPlayer_radius
      (UpdateBall E
        ⟨g.ball, UpdatePlayer E g.player i.keyRight i.keyLeft i.deltaTime, g.wall, g.state⟩
        i.keySpace i.deltaTime).state.points i.deltaTime g.powerUps h.2
      (UpdateBall E
        ⟨g.ball, UpdatePlayer E g.player i.keyRight i.keyLeft i.deltaTime, g.wall, g.state⟩
        i.keySpace i.deltaTime).player
      (UpdateBall E
        ⟨g.ball, UpdatePlayer E g.player i.keyRight i.keyLeft i.deltaTime, g.wall, g.state⟩
        i.keySpace i.deltaTime).ball
    refine ⟨h1.trans ?_, h2⟩
    exact UpdateBall_radius E _ i.keySpace i.deltaTime h.1

/-- In every state reached by the frame loop of `main` from its initial state the ball's
radius is `BALL_RADIUS = 8`. -/
theorem runFrames_radius (E : Env K) (inputs : List (FrameInput K)) :
    (runFrames E initGame inputs).ball.radius = BALL_RADIUS := by
  have key : ∀ (inputs : List (FrameInput K)) (g : Game K),
      (g.ball.radius = BALL_RADIUS ∧ ∀ pu ∈ g.powerUps, KeepsRadius pu.apply) →
      ((runFrames E g inputs).ball.radius = BALL_RADIUS ∧
        ∀ pu ∈ (runFrames E g inputs).powerUps, KeepsRadius pu.apply) := by
    intro inputs
    induction inputs with
    | nil => intro g h; exact h
    | cons j rest ih =>
      intro g h
      exact ih _ (frameUpdate_radius_inv E g j h)
  exact (key inputs initGame ⟨rfl, initPowerUps_keepsRadius⟩).1

/-- C7: for every paddle that fits the screen (`rect.width ≤ screenWidth`), every combination
of move-left / move-right input and every `deltaTime`, after `UpdatePlayer` the paddle
satisfies `0 ≤ rect.x` and `rect.x ≤ screenWidth - rect.width`, and its width is not changed;
and every paddle that the frame loop of `main` holds, on its screen 800 wide, fits the screen
(its width is between 100 and 170), so that the two bounds hold after `UpdatePlayer` in every
frame of the game, whatever the input. -/
theorem UpdatePlayer_clamped (E : Env K) (player : Player K) (keyRight keyLeft : Bool) (dt : K) :
    (player.rect.width ≤ (E.screenWidth : K) →
      0 ≤ (UpdatePlayer E player keyRight keyLeft dt).rect.x ∧
      (UpdatePlayer E player keyRight keyLeft dt).rect.x ≤
        (E.screenWidth : K) - (UpdatePlayer E player keyRight keyLeft dt).rect.width ∧
      (UpdatePlayer E player keyRight keyLeft dt).rect.width = player.rect.width) ∧
    (E.screenWidth = 800 → ∀ inputs : List (FrameInput K),
      100 ≤ (runFrames E initGame inputs).player.rect.width ∧
      (runFrames E initGame inputs).player.rect.width ≤ 170 ∧
      (runFrames E initGame inputs).player.rect.width ≤ (E.screenWidth : K) ∧
      0 ≤ (UpdatePlayer E (runFrames E initGame inputs).player keyRight keyLeft dt).rect.x ∧
      (UpdatePlayer E (runFrames E initGame inputs).player keyRight keyLeft dt).rect.x ≤
        (E.screenWidth : K) -
          (UpdatePlayer E (runFrames E initGame inputs).player keyRight keyLeft dt).rect.width) := by
  have base : ∀ p : Player K, p.rect.width ≤ (E.screenWidth : K) →
      0 ≤ (UpdatePlayer E p keyRight keyLeft dt).rect.x ∧
      (UpdatePlayer E p keyRight keyLeft dt).rect.x ≤
        (E.screenWidth : K) - (UpdatePlayer E p keyRight keyLeft dt).rect.width ∧
      (UpdatePlayer E p keyRight keyLeft dt).rect.width = p.rect.width := by
    intro p hw
    unfold UpdatePlayer
    simp only
    refine ⟨?_, ?_, trivial⟩
    · split_ifs <;> linarith
    · split_ifs <;> linarith
  refine ⟨base player, ?_⟩
  intro hE inputs
  obtain ⟨h100, h170, _, _, _, _⟩ :=
    paddle_within_arena_after_UpdatePlayer E hE inputs keyRight keyLeft dt
  have hwle : (runFrames E initGame inputs).player.rect.width ≤ (E.screenWidth : K) := by
    rw [hE]; push_cast; linarith
  obtain ⟨b0, b1, _⟩ := base (runFrames E initGame inputs).player hwle
  exact ⟨h100, h170, hwle, b0, b1⟩

/-- C13: for every ball that does not cross the bottom boundary in the same call, if
`prevPos.x < radius` then `BallHandleArenaCollision` negates `velocity.x` (so a positive
`velocity.x` becomes negative) and sets `pos.x` to exactly `radius`; symmetrically, for a ball
that fits the arena (`2 * radius ≤ screenWidth`), if `prevPos.x > screenWidth - radius` then
it negates `velocity.x` and sets `pos.x` to exactly `screenWidth - radius`.  The right-wall
test is the else-branch of the left-wall test, and for a ball that fits the arena the two
tests exclude each other.  Every ball of the game fits the arena: in every state reached by
the frame loop of `main` the radius is `BALL_RADIUS = 8`, the paddle and the brick collision
that precede the arena collision in a tick keep the radius, and the screen is 800 wide. -/
theorem arena_side_walls (E : Env K) (ball : Ball K) (player : Player K) (state : GameState)
    (hb : ¬ crossesBottom E ball) :
    (ball.prevPos.x < (ball.radius : K) →
      (BallHandleArenaCollision E ball player state).1.velocity.x = -ball.velocity.x ∧
      (BallHandleArenaCollision E ball player state).1.pos.x = (ball.radius : K) ∧
      (0 < ball.velocity.x → (BallHandleArenaCollision E ball player state).1.velocity.x < 0)) ∧
    (2 * ball.radius ≤ E.screenWidth →
      ball.prevPos.x > ((E.screenWidth - ball.radius : Int) : K) →
      (BallHandleArenaCollision E ball player state).1.velocity.x = -ball.velocity.x ∧
      (BallHandleArenaCollision E ball player state).1.pos.x =
        ((E.screenWidth - ball.radius : Int) : K) ∧
      (ball.velocity.x < 0 → 0 < (BallHandleArenaCollision E ball player state).1.velocity.x)) ∧
    (ball.prevPos.x > ((E.screenWidth - ball.radius : Int) : K) →
      ¬ ball.prevPos.x < (ball.radius : K) →
      (BallHandleArenaCollision E ball player state).1.velocity.x = -ball.velocity.x ∧
      (BallHandleArenaCollision E ball player state).1.pos.x =
        ((E.screenWidth - ball.radius : Int) : K)) ∧
    (2 * ball.radius ≤ E.screenWidth →
      ball.prevPos.x > ((E.screenWidth - ball.radius : Int) : K) →
      ¬ ball.prevPos.x < (ball.radius : K)) ∧
    ((∀ inputs : List (FrameInput K), (runFrames E initGame inputs).ball.radius = BALL_RADIUS) ∧
      (∀ (b : Ball K) (p : Player K), (BallHandlePlayerCollision E b p).radius = b.radius) ∧
      (∀ (b : Ball K) (brick : Brick K), (BallHandleBrickCollision E b brick).radius = b.radius) ∧
      (E.screenWidth = 800 → 2 * BALL_RADIUS ≤ E.screenWidth)) := by
  obtain ⟨hvx, hpx, _⟩ := BallHandleArenaCollision_ball_axes E ball player state hb
  have hex : 2 * ball.radius ≤ E.screenWidth →
      ball.prevPos.x > ((E.screenWidth - ball.radius : Int) : K) →
      ¬ ball.prevPos.x < (ball.radius : K) := by
    intro h2 h hlt
    have hc : ((2 * ball.radius : Int) : K) ≤ ((E.screenWidth : Int) : K) := by exact_mod_cast h2
    push_cast at hc h
    linarith
  refine ⟨?_, ?_, ?_, hex, ?_⟩
  · intro h
    rw [hvx, hpx, if_pos h, if_pos h]
    exact ⟨rfl, rfl, fun hv => by linarith⟩
  · intro h2 h
    have hn := hex h2 h
    rw [hvx, hpx, if_neg hn, if_neg hn, if_pos h, if_pos h]
    exact ⟨rfl, rfl, fun hv => by linarith⟩
  · intro h hn
    rw [hvx, hpx, if_neg hn, if_neg hn, if_pos h, if_pos h]
    exact ⟨rfl, rfl⟩
  · refine ⟨runFrames_radius E, fun b p => (BallHandlePlayerCollision_frame E b p).2.1,
      fun b brick => (BallHandleBrickCollision_frame E b brick).2.1, ?_⟩
    intro hE
    rw [hE]
    decide

end Proofs

/-! ## Evaluations at concrete inputs -/

/-- C2 at a concrete input: with the ball inside the top-left brick of the initial wall the
scan returns brick `(0, 0)`, which is enabled and overlaps the ball. -/
theorem BallCheckWallCollision_first_enabled_overlap_witness :
    BallCheckWallCollision envQ InitBrickWall ballInBrick = some (0, 0) ∧
    ((InitBrickWall : BrickWall ℚ).bricks 0 0).enabled = true ∧
    envQ.CheckCollisionCircleRec ballInBrick.prevPos (ballInBrick.radius : ℚ)
      ((InitBrickWall : BrickWall ℚ).bricks 0 0).rect = true :=
  ⟨by decide!,
    ((BallCheckWallCollision_first_enabled_overlap envQ InitBrickWall ballInBrick).1 0 0
      (by decide!)).1,
    ((BallCheckWallCollision_first_enabled_overlap envQ InitBrickWall ballInBrick).1 0 0
      (by decide!)).2.1⟩

/-- C3 at a concrete input: from the initial wall and points 0, a tick with the ball inside
brick `(0, 0)` gives `remaining = 103` and `points = 1`. -/
theorem UpdateBall_destroys_found_brick_witness :
    (worldInBrick.ball.enabled = true ∨ false = true) ∧
    BallCheckWallCollision envQ worldInBrick.wall worldInBrick.ball = some (0, 0) ∧
    ¬ crossesBottom envQ worldInBrick.ball ∧
    (UpdateBall envQ worldInBrick false (1 / 60)).wall.remaining = 103 ∧
    (UpdateBall envQ worldInBrick false (1 / 60)).state.points = 1 :=
  ⟨Or.inl rfl, by decide!, by decide!,
    (UpdateBall_destroys_found_brick envQ worldInBrick false (1 / 60) 0 0 (Or.inl rfl)
      (by decide!) (by decide!)).2.2.2.2 rfl rfl⟩

/-- C4 at a concrete input: from a cleared wall with `remaining = 0`, two further ticks leave
`remaining` at 0 and the grid unchanged. -/
theorem UpdateBall_remaining_monotone_witness :
    worldCleared.wall.remaining = 0 ∧
    worldCleared.wall.remaining = (enabledCount worldCleared.wall : Int) ∧
    (runBall envQ worldCleared [(false, 1 / 60), (false, 1 / 60)]).wall.remaining = 0 ∧
    (runBall envQ worldCleared [(false, 1 / 60), (false, 1 / 60)]).wall.bricks =
      worldCleared.wall.bricks :=
  ⟨rfl, by decide!,
    (UpdateBall_remaining_monotone envQ worldCleared false 0).2.2.2 rfl (by decide!)
      [(false, 1 / 60), (false, 1 / 60)]⟩

/-- C5 at a concrete input: a launched ball with `prevPos.y = 445 > 450 - 8` and 5 lives
before leaves 4 lives after, in the arena resolution and at the end of the tick. -/
theorem bottom_crossing_docks_ball_witness :
    (worldBelow.ball.enabled = true ∨ false = true) ∧
    ¬ worldBelow.ball.prevPos.y < (worldBelow.ball.radius : ℚ) ∧
    worldBelow.ball.prevPos.y > ((envQ.screenHeight - worldBelow.ball.radius : Int) : ℚ) ∧
    (BallHandleArenaCollision envQ worldBelow.ball worldBelow.player worldBelow.state).2.1.lives
      = 4 ∧
    (UpdateBall envQ worldBelow false (1 / 60)).player.lives = 4 :=
  ⟨Or.inl rfl, by decide!, by decide!,
    (bottom_crossing_docks_ball envQ worldBelow false (1 / 60) (Or.inl rfl) (by decide!)
      (by decide!)).2.2 rfl⟩

/-- C6 at a concrete input: the initial paddle (`x = 350`, width 100, bottom-mid `x = 400`);
launching from it gives velocity `(0, -1)`, speed 200 and an enabled ball. -/
theorem launch_tick_witness :
    (InitPlayer : Player ℚ).rect.y = 410 ∧ (InitPlayer : Player ℚ).rect.height = 20 ∧
    (PlayerBottomMid (InitPlayer : Player ℚ)).x = 400 ∧
    (UpdateBall envQ ⟨InitBall InitPlayer, InitPlayer, InitBrickWall, InitGameState⟩ true
      (1 / 60)).ball.enabled = true ∧
    (UpdateBall envQ ⟨InitBall InitPlayer, InitPlayer, InitBrickWall, InitGameState⟩ true
      (1 / 60)).ball.velocity = { x := 0, y := -1 } ∧
    (UpdateBall envQ ⟨InitBall InitPlayer, InitPlayer, InitBrickWall, InitGameState⟩ true
      (1 / 60)).ball.speed = 200 :=
  ⟨rfl, rfl, by decide!,
    (launch_tick rsqrtQ InitPlayer InitGameState (1 / 60) rfl rfl).1,
    (launch_tick rsqrtQ InitPlayer InitGameState (1 / 60) rfl rfl).2.1,
    (launch_tick rsqrtQ InitPlayer InitGameState (1 / 60) rfl rfl).2.2.1⟩

/-- Outside the range of the game: a paddle of width 900 at `x = 0` on the 800 pixel screen,
with no key held, is moved by `UpdatePlayer` to `x = 800 - 900 = -100`.  The interval
`[0, screenWidth - width]` is empty for such a paddle, which is why the bounds are stated for
paddles that fit the screen. -/
theorem UpdatePlayer_paddle_wider_than_screen :
    (UpdatePlayer envQ widePlayer false false 0).rect.x = -100 ∧
    ¬ (0 ≤ (UpdatePlayer envQ widePlayer false false 0).rect.x ∧
      (UpdatePlayer envQ widePlayer false false 0).rect.x ≤
        (envQ.screenWidth : ℚ) - (UpdatePlayer envQ widePlayer false false 0).rect.width) := by
  decide!

/-- C7 at concrete inputs: the initial paddle with the right key held for a frame of four
seconds ends at `x = 700 = 800 - 100`; and after the 60 frames of `overflowInputs`, where the
paddle is 135 wide, the next `UpdatePlayer` puts it at `x = 665 = 800 - 135`. -/
theorem UpdatePlayer_clamped_witness :
    (InitPlayer : Player ℚ).rect.width ≤ (envQ.screenWidth : ℚ) ∧
    (UpdatePlayer envQ InitPlayer true false 4).rect.x = 700 ∧
    0 ≤ (UpdatePlayer envQ InitPlayer true false 4).rect.x ∧
    (UpdatePlayer envQ InitPlayer true false 4).rect.x ≤
      (envQ.screenWidth : ℚ) - (UpdatePlayer envQ InitPlayer true false 4).rect.width ∧
    (runFrames envQ initGame overflowInputs).player.rect.width = 135 ∧
    (UpdatePlayer envQ (runFrames envQ initGame overflowInputs).player true false 4).rect.x
      = 665 ∧
    (UpdatePlayer envQ (runFrames envQ initGame overflowInputs).player true false 4).rect.x ≤
      (envQ.screenWidth : ℚ) -
        (UpdatePlayer envQ (runFrames envQ initGame overflowInputs).player true
          false 4).rect.width :=
  ⟨by decide!, by decide!,
    ((UpdatePlayer_clamped envQ InitPlayer true false 4).1 (by decide!)).1,
    ((UpdatePlayer_clamped envQ InitPlayer true false 4).1 (by decide!)).2.1,
    by decide!, by decide!,
    ((UpdatePlayer_clamped envQ InitPlayer true false 4).2 rfl overflowInputs).2.2.2.2⟩

/-- C9 at a concrete input: a ball at distance 5 from both the left and the top edge of the
brick, moving right and down, leaves with both velocity components negated and
`pos = (100 - 8, 100 - 8)`. -/
theorem brick_corner_left_top_witness :
    ballAtCorner.prevPos.x < sampleBrick.rect.x ∧ ballAtCorner.velocity.x > envQ.EPSILON ∧
    ballAtCorner.prevPos.y < sampleBrick.rect.y ∧ ballAtCorner.velocity.y > envQ.EPSILON ∧
    |(sampleBrick.rect.x - ballAtCorner.prevPos.x) - (sampleBrick.rect.y - ballAtCorner.prevPos.y)|
      ≤ CIRCLE_RECT_COLLISION_EPSILON ∧
    (BallHandleBrickCollision envQ ballAtCorner sampleBrick).velocity =
      { x := -(3 / 5), y := -(4 / 5) } ∧
    (BallHandleBrickCollision envQ ballAtCorner sampleBrick).pos = { x := 92, y := 92 } :=
  ⟨by decide!, by decide!, by decide!, by decide!, by decide!,
    ((brick_corner_left_top envQ ballAtCorner sampleBrick (by decide!) (by decide!) (by decide!)
      (by decide!) (by decide!)).1.trans (by decide!)),
    ((brick_corner_left_top envQ ballAtCorner sampleBrick (by decide!) (by decide!) (by decide!)
      (by decide!) (by decide!)).2.trans (by decide!))⟩

/-- C10 fails as stated: for a ball 7 from the left edge and 1 from the top edge of the brick,
with both flags set, the top edge is the nearer one by more than the epsilon, yet the code
negates `velocity.x` and leaves `velocity.y` unchanged. -/
theorem brick_corner_nearer_edge_counterexample :
    (ballNearTop.prevPos.x < sampleBrick.rect.x ∧ ballNearTop.velocity.x > envQ.EPSILON ∧
      ballNearTop.prevPos.y < sampleBrick.rect.y ∧ ballNearTop.velocity.y > envQ.EPSILON) ∧
    sampleBrick.rect.y - ballNearTop.prevPos.y <
      sampleBrick.rect.x - ballNearTop.prevPos.x - CIRCLE_RECT_COLLISION_EPSILON ∧
    (BallHandleBrickCollision envQ ballNearTop sampleBrick).velocity =
      { x := -ballNearTop.velocity.x, y := ballNearTop.velocity.y } ∧
    ¬ ((BallHandleBrickCollision envQ ballNearTop sampleBrick).velocity.y =
        -ballNearTop.velocity.y ∧
      (BallHandleBrickCollision envQ ballNearTop sampleBrick).velocity.x =
        ballNearTop.velocity.x) := by
  decide!

/-- C10 as amended, at a concrete input: for a ball 2 from the left edge and 6 from the top
edge (the left edge is nearer) only `velocity.y` is negated and `pos.y` becomes `100 - 8`. -/
theorem brick_corner_single_axis_witness :
    0 ≤ envQ.EPSILON ∧
    (ballNearLeft.prevPos.x < sampleBrick.rect.x ∧ ballNearLeft.velocity.x > envQ.EPSILON ∧
      ballNearLeft.prevPos.y < sampleBrick.rect.y ∧ ballNearLeft.velocity.y > envQ.EPSILON) ∧
    sampleBrick.rect.y - ballNearLeft.prevPos.y >
      sampleBrick.rect.x - ballNearLeft.prevPos.x + CIRCLE_RECT_COLLISION_EPSILON ∧
    onlyYReflected ballNearLeft (BallHandleBrickCollision envQ ballNearLeft sampleBrick)
      (sampleBrick.rect.y - (ballNearLeft.radius : ℚ)) :=
  ⟨by decide!, by decide!, by decide!,
    ((brick_corner_single_axis envQ ballNearLeft sampleBrick (by decide!)).1 (by decide!)
      (by decide!) (by decide!) (by decide!)).2 (by decide!)⟩

/-- C8 fails on the code: after the 60 frames of `overflowInputs` (each with a positive frame
time, played from the initial state of `main`) the game is not over, the 44th point has just
been scored with the paddle at the right wall, the size power-up of threshold 44 has widened
the paddle from 100 to 135 after `UpdatePlayer` clamped it, and at the end of the frame's
update `rect.x + rect.width = 835 > 800`.  The clamp of the next frame brings it back. -/
theorem paddle_leaves_arena_after_size_powerup :
    (∀ i ∈ overflowInputs, 0 < i.deltaTime) ∧
    (runFrames envQ initGame overflowInputs).state.gameOver = false ∧
    (runFrames envQ initGame overflowInputs).state.points = 44 ∧
    (runFrames envQ initGame overflowInputs).player.lives = 5 ∧
    (runFrames envQ initGame (overflowInputs.take 59)).player.rect.x = 700 ∧
    (runFrames envQ initGame (overflowInputs.take 59)).player.rect.width = 100 ∧
    (runFrames envQ initGame overflowInputs).player.rect.x = 700 ∧
    (runFrames envQ initGame overflowInputs).player.rect.width = 135 ∧
    ¬ ((runFrames envQ initGame overflowInputs).player.rect.x +
        (runFrames envQ initGame overflowInputs).player.rect.width ≤ (envQ.screenWidth : ℚ)) ∧
    (frameUpdate envQ (runFrames envQ initGame overflowInputs)
      ⟨false, false, false, 1 / 60⟩).player.rect.x = 665 := by
  decide!

/-- C11 at concrete inputs: a ball whose previous position touches the initial paddle and
whose position is `(403, 434)` leaves with velocity `(3, -4) / 5`; a ball far from the paddle
is returned unchanged. -/
theorem BallHandlePlayerCollision_velocity_witness :
    envQ.CheckCollisionCircleRec ballOnPaddle.prevPos (ballOnPaddle.radius : ℚ)
      (InitPlayer : Player ℚ).rect = true ∧
    (BallHandlePlayerCollision envQ ballOnPaddle InitPlayer).velocity =
      { x := 3 / 5, y := -(4 / 5) } ∧
    envQ.CheckCollisionCircleRec ballInBrick.prevPos (ballInBrick.radius : ℚ)
      (InitPlayer : Player ℚ).rect = false ∧
    BallHandlePlayerCollision envQ ballInBrick InitPlayer = ballInBrick :=
  ⟨by decide!,
    ((BallHandlePlayerCollision_velocity envQ ballOnPaddle InitPlayer).1 (by decide!)).1.trans
      (by decide!),
    by decide!,
    (BallHandlePlayerCollision_velocity envQ ballInBrick InitPlayer).2 (by decide!)⟩

/-- C12 fails on the code: the five ticks of `pivotInputs` from the initial state (launch,
brick bounce, straight fall) bring the enabled ball, with unit velocity `(0, 1)`, to position
`(400, 438)` while its previous position `(400, 405)` overlaps the paddle; the paddle
collision of the fifth tick then normalises the zero vector from the paddle's bottom-midpoint
`(400, 430)` to `(400, 438 - 8)`, and the ball stays enabled with velocity `(0, 0)`, which is
not of unit length.  Over the field of the model a sixth tick gives velocity `(0, 0)` again;
in IEEE floats the velocity is NaN from the fifth tick on. -/
theorem paddle_pivot_hit_loses_unit_velocity :
    (runBall envQ initWorld (pivotInputs.take 4)).ball.enabled = true ∧
    (runBall envQ initWorld (pivotInputs.take 4)).ball.velocity = { x := 0, y := 1 } ∧
    (runBall envQ initWorld (pivotInputs.take 4)).ball.prevPos = { x := 400, y := 405 } ∧
    (runBall envQ initWorld (pivotInputs.take 4)).ball.pos = { x := 400, y := 438 } ∧
    PlayerBottomMid (runBall envQ initWorld (pivotInputs.take 4)).player =
      { x := 400, y := 430 } ∧
    envQ.CheckCollisionCircleRec (runBall envQ initWorld (pivotInputs.take 4)).ball.prevPos 8
      (runBall envQ initWorld (pivotInputs.take 4)).player.rect = true ∧
    (runBall envQ initWorld pivotInputs).ball.enabled = true ∧
    (runBall envQ initWorld pivotInputs).ball.velocity = { x := 0, y := 0 } ∧
    ¬ ((runBall envQ initWorld pivotInputs).ball.velocity.x *
          (runBall envQ initWorld pivotInputs).ball.velocity.x +
        (runBall envQ initWorld pivotInputs).ball.velocity.y *
          (runBall envQ initWorld pivotInputs).ball.velocity.y = 1) ∧
    (UpdateBall envQ (runBall envQ initWorld pivotInputs) false (1 / 60)).ball.enabled = true ∧
    (UpdateBall envQ (runBall envQ initWorld pivotInputs) false (1 / 60)).ball.velocity =
      { x := 0, y := 0 } := by
  decide!

/-- Outside the range of the game: for a ball of radius 500 on the 800 pixel screen with
`prevPos.x = 400`, both `prevPos.x < radius` and `prevPos.x > screenWidth - radius` hold; the
left branch is taken and `pos.x` becomes `radius = 500`.  This is why the right-wall part is
stated for balls that fit the arena. -/
theorem arena_walls_ball_wider_than_screen :
    ¬ crossesBottom envQ ballHuge ∧
    ballHuge.prevPos.x > ((envQ.screenWidth - ballHuge.radius : Int) : ℚ) ∧
    (BallHandleArenaCollision envQ ballHuge InitPlayer InitGameState).1.pos.x = 500 ∧
    ¬ (BallHandleArenaCollision envQ ballHuge InitPlayer InitGameState).1.pos.x =
      ((envQ.screenWidth - ballHuge.radius : Int) : ℚ) := by
  decide!

/-- C13 at concrete inputs: a ball 5 from the left wall with `velocity.x = 3/5` leaves with
`velocity.x = -3/5` and `pos.x = 8`; a ball of radius 8 that is 5 from the right wall of the
screen 800 wide leaves with `velocity.x = -3/5` and `pos.x = 792`. -/
theorem arena_side_walls_witness :
    (¬ crossesBottom envQ ballLeftWall ∧ ballLeftWall.prevPos.x < (ballLeftWall.radius : ℚ) ∧
      (BallHandleArenaCollision envQ ballLeftWall InitPlayer InitGameState).1.velocity.x =
        -(3 / 5) ∧
      (BallHandleArenaCollision envQ ballLeftWall InitPlayer InitGameState).1.pos.x = 8) ∧
    (¬ crossesBottom envQ ballRightWall ∧
      2 * ballRightWall.radius ≤ envQ.screenWidth ∧
      ballRightWall.prevPos.x > ((envQ.screenWidth - ballRightWall.radius : Int) : ℚ) ∧
      (BallHandleArenaCollision envQ ballRightWall InitPlayer InitGameState).1.velocity.x =
        -(3 / 5) ∧
      (BallHandleArenaCollision envQ ballRightWall InitPlayer InitGameState).1.pos.x = 792) :=
  ⟨⟨by decide!, by decide!,
      ((arena_side_walls envQ ballLeftWall InitPlayer InitGameState (by decide!)).1
        (by decide!)).1.trans (by decide!),
      ((arena_side_walls envQ ballLeftWall InitPlayer InitGameState (by decide!)).1
        (by decide!)).2.1.trans (by decide!)⟩,
    ⟨by decide!, by decide!, by decide!,
      ((arena_side_walls envQ ballRightWall InitPlayer InitGameState (by decide!)).2.1
        (by decide!) (by decide!)).1.trans (by decide!),
      ((arena_side_walls envQ ballRightWall InitPlayer InitGameState (by decide!)).2.1
        (by decide!) (by decide!)).2.1.trans (by decide!)⟩⟩

/-- C14 at a concrete input: with one life left and the ball past the bottom test line, the
frame ends with `lives = 0` and `gameOver` set, and a further frame, with keys held, returns
the same state. -/
theorem gameOver_permanent_witness :
    gameLastLife.state.gameOver = false ∧
    (frameUpdate envQ gameLastLife ⟨false, false, false, 1 / 60⟩).player.lives = 0 ∧
    (frameUpdate envQ gameLastLife ⟨false, false, false, 1 / 60⟩).state.gameOver = true ∧
    frameUpdate envQ (frameUpdate envQ gameLastLife ⟨false, false, false, 1 / 60⟩)
        ⟨true, false, true, 1 / 60⟩ =
      frameUpdate envQ gameLastLife ⟨false, false, false, 1 / 60⟩ :=
  ⟨rfl, by decide!,
    (gameOver_permanent envQ gameLastLife ⟨false, false, false, 1 / 60⟩).2
      (Or.inr (by decide!)),
    ((gameOver_permanent envQ (frameUpdate envQ gameLastLife ⟨false, false, false, 1 / 60⟩)
      ⟨true, false, true, 1 / 60⟩).1 (by decide!)).1⟩

/-- C15 at a concrete input: after the five frames of `missInputs` from the initial state the
ball is enabled with its previous position past the bottom test line and 5 lives; the next
frame leaves 4 lives. -/
theorem lives_between_zero_and_five_witness :
    (runFrames envQ initGame missInputs).player.lives = 5 ∧
    (runFrames envQ initGame missInputs).state.gameOver = false ∧
    (runFrames envQ initGame missInputs).ball.enabled = true ∧
    crossesBottom envQ (runFrames envQ initGame missInputs).ball ∧
    (frameUpdate envQ (runFrames envQ initGame missInputs)
      ⟨false, false, false, 1 / 60⟩).player.lives =
        (runFrames envQ initGame missInputs).player.lives - 1 ∧
    (frameUpdate envQ (runFrames envQ initGame missInputs)
      ⟨false, false, false, 1 / 60⟩).player.lives = 4 :=
  ⟨by decide!, by decide!, by decide!, by decide!,
    (lives_between_zero_and_five envQ missInputs ⟨false, false, false, 1 / 60⟩).2.2.2.2.1.mpr
      ⟨by decide!, Or.inl (by decide!), by decide!⟩,
    by decide!⟩

/-- C16 at concrete inputs: a ball left of the brick moving right (left flag only) leaves with
velocity `(-1, 0)` and `pos.x = 100 - 8`; a ball below the brick moving up (bottom flag only)
leaves with velocity `(0, 1)` and `pos.y = 120 + 8`; a ball inside the brick's span moving up
from inside (no flag) keeps velocity and position. -/
theorem brick_single_side_witness :
    (sideCollisionLeft envQ ballFromLeft sampleBrick ∧
      ¬ sideCollisionTop envQ ballFromLeft sampleBrick ∧
      ¬ sideCollisionRight envQ ballFromLeft sampleBrick ∧
      ¬ sideCollisionBottom envQ ballFromLeft sampleBrick) ∧
    onlyXReflected ballFromLeft (BallHandleBrickCollision envQ ballFromLeft sampleBrick)
      (sampleBrick.rect.x - (ballFromLeft.radius : ℚ)) ∧
    (BallHandleBrickCollision envQ ballFromLeft sampleBrick).velocity = { x := -1, y := 0 } ∧
    (BallHandleBrickCollision envQ ballFromLeft sampleBrick).pos = { x := 92, y := 110 } ∧
    (¬ sideCollisionLeft envQ ballFromBelow sampleBrick ∧
      ¬ sideCollisionTop envQ ballFromBelow sampleBrick ∧
      ¬ sideCollisionRight envQ ballFromBelow sampleBrick ∧
      sideCollisionBottom envQ ballFromBelow sampleBrick) ∧
    onlyYReflected ballFromBelow (BallHandleBrickCollision envQ ballFromBelow sampleBrick)
      (sampleBrick.rect.y + sampleBrick.rect.height + (ballFromBelow.radius : ℚ)) ∧
    (BallHandleBrickCollision envQ ballFromBelow sampleBrick).velocity = { x := 0, y := 1 } ∧
    (BallHandleBrickCollision envQ ballFromBelow sampleBrick).pos = { x := 125, y := 128 } ∧
    (¬ sideCollisionLeft envQ ballInBrick ((InitBrickWall : BrickWall ℚ).bricks 0 0) ∧
      ¬ sideCollisionTop envQ ballInBrick ((InitBrickWall : BrickWall ℚ).bricks 0 0) ∧
      ¬ sideCollisionRight envQ ballInBrick ((InitBrickWall : BrickWall ℚ).bricks 0 0) ∧
      ¬ sideCollisionBottom envQ ballInBrick ((InitBrickWall : BrickWall ℚ).bricks 0 0)) ∧
    (BallHandleBrickCollision envQ ballInBrick ((InitBrickWall : BrickWall ℚ).bricks 0 0)).velocity
      = ballInBrick.velocity ∧
    (BallHandleBrickCollision envQ ballInBrick ((InitBrickWall : BrickWall ℚ).bricks 0 0)).pos
      = ballInBrick.pos ∧
    (BallHandleBrickCollision envQ ballInBrick ((InitBrickWall : BrickWall ℚ).bricks 0 0)).speed
      = 202 :=
  ⟨by decide!,
    (brick_single_side envQ ballFromLeft sampleBrick).1 (by decide!) (by decide!) (by decide!)
      (by decide!),
    by decide!, by decide!, by decide!,
    (brick_single_side envQ ballFromBelow sampleBrick).2.2.2.1 (by decide!) (by decide!)
      (by decide!) (by decide!),
    by decide!, by decide!, by decide!,
    ((brick_single_side envQ ballInBrick ((InitBrickWall : BrickWall ℚ).bricks 0 0)).2.2.2.2.1
      (by decide!) (by decide!) (by decide!) (by decide!)).1,
    ((brick_single_side envQ ballInBrick ((InitBrickWall : BrickWall ℚ).bricks 0 0)).2.2.2.2.1
      (by decide!) (by decide!) (by decide!) (by decide!)).2,
    by decide!⟩

/-- C17 at concrete inputs: a tick with the ball inside a brick takes the speed from 200 to
202, a tick with the ball on the paddle from 202 to 207, and a tick in free space leaves it
at 200. -/
theorem ball_speed_increments_witness :
    (¬ crossesBottom envQ worldInBrick.ball ∧ worldInBrick.ball.enabled = true ∧
      worldInBrick.ball.speed = 200 ∧
      (UpdateBall envQ worldInBrick false (1 / 60)).ball.speed = 202) ∧
    (¬ crossesBottom envQ worldOnPaddle.ball ∧ worldOnPaddle.ball.enabled = true ∧
      worldOnPaddle.ball.speed = 202 ∧
      (UpdateBall envQ worldOnPaddle false (1 / 60)).ball.speed = 207) ∧
    (¬ crossesBottom envQ worldFree.ball ∧ worldFree.ball.enabled = true ∧
      worldFree.ball.speed = 200 ∧
      (UpdateBall envQ worldFree false (1 / 60)).ball.speed = 200) :=
  ⟨⟨by decide!, rfl, rfl,
      ((ball_speed_increments envQ worldInBrick false (1 / 60) (by decide!)).1 rfl).1.trans
        (by decide!)⟩,
    ⟨by decide!, rfl, rfl,
      ((ball_speed_increments envQ worldOnPaddle false (1 / 60) (by decide!)).1 rfl).1.trans
        (by decide!)⟩,
    ⟨by decide!, rfl, rfl,
      ((ball_speed_increments envQ worldFree false (1 / 60) (by decide!)).1 rfl).1.trans
        (by decide!)⟩⟩

/-- C18 at a concrete input: a ball whose previous position `(5, 6)` is in the top-left corner
of the arena, moving up and left, leaves with velocity `(3/5, 4/5)` and position `(8, 8)`. -/
theorem arena_corner_both_axes_witness :
    ballArenaCorner.prevPos.x < (ballArenaCorner.radius : ℚ) ∧
    ballArenaCorner.prevPos.y < (ballArenaCorner.radius : ℚ) ∧
    (BallHandleArenaCollision envQ ballArenaCorner InitPlayer InitGameState).1.velocity =
      { x := 3 / 5, y := 4 / 5 } ∧
    (BallHandleArenaCollision envQ ballArenaCorner InitPlayer InitGameState).1.pos =
      { x := 8, y := 8 } :=
  ⟨by decide!, by decide!,
    ((arena_corner_both_axes envQ ballArenaCorner InitPlayer InitGameState).1 (by decide!)
      (by decide!)).1.trans (by decide!),
    ((arena_corner_both_axes envQ ballArenaCorner InitPlayer InitGameState).1 (by decide!)
      (by decide!)).2.trans (by decide!)⟩

/-- C19 at concrete inputs: a tick of 1/60 s in free space moves the ball from `(400, 290)` to
`(400, 290 - 200 / 60)` with `prevPos = (400, 290)` and the velocity `(0, -1)` unchanged; a tick
on the paddle integrates with the post-collision velocity `(3/5, -4/5)` and speed 207. -/
theorem UpdateBall_integration_witness :
    (UpdateBall envQ worldFree false (1 / 60)).ball.velocity = { x := 0, y := -1 } ∧
    (UpdateBall envQ worldFree false (1 / 60)).ball.prevPos = { x := 400, y := 290 } ∧
    (UpdateBall envQ worldFree false (1 / 60)).ball.pos = { x := 400, y := 860 / 3 } ∧
    (UpdateBall envQ worldFree false (1 / 60)).ball.velocity.x ^ 2 +
      (UpdateBall envQ worldFree false (1 / 60)).ball.velocity.y ^ 2 = 1 ∧
    (resolvedBall envQ worldOnPaddle).velocity = { x := 3 / 5, y := -(4 / 5) } ∧
    (resolvedBall envQ worldOnPaddle).speed = 207 ∧
    (UpdateBall envQ worldOnPaddle false (1 / 60)).ball.prevPos = { x := 403, y := 434 } ∧
    (UpdateBall envQ worldOnPaddle false (1 / 60)).ball.pos =
      { x := 403 + 3 / 5 * 207 * (1 / 60), y := 434 + -(4 / 5) * 207 * (1 / 60) } :=
  ⟨((UpdateBall_integration envQ worldFree false (1 / 60)).2 rfl (by decide!) (by decide!)
      (by decide!) (by decide!) (by decide!) (by decide!)).1.trans (by decide!),
    ((UpdateBall_integration envQ worldFree false (1 / 60)).2 rfl (by decide!) (by decide!)
      (by decide!) (by decide!) (by decide!) (by decide!)).2.2.1.trans (by decide!),
    ((UpdateBall_integration envQ worldFree false (1 / 60)).2 rfl (by decide!) (by decide!)
      (by decide!) (by decide!) (by decide!) (by decide!)).2.2.2.1.trans (by decide!),
    ((UpdateBall_integration envQ worldFree false (1 / 60)).2 rfl (by decide!) (by decide!)
      (by decide!) (by decide!) (by decide!) (by decide!)).2.2.2.2
      (by norm_num [worldFree, ballFree]),
    by decide!, by decide!,
    ((UpdateBall_integration envQ worldOnPaddle false (1 / 60)).1
      (resolvedBall envQ worldOnPaddle) (Or.inl ⟨rfl, rfl⟩)).1.trans (by decide!),
    ((UpdateBall_integration envQ worldOnPaddle false (1 / 60)).1
      (resolvedBall envQ worldOnPaddle) (Or.inl ⟨rfl, rfl⟩)).2.1.trans (by decide!)⟩

/-- C20 at a concrete input: after the five ticks of `pivotInputs` one brick is destroyed, no
life is lost and the score is 1. -/
theorem points_eq_bricks_minus_lives_witness :
    (runBall envQ initWorld pivotInputs).wall.remaining = 103 ∧
    (runBall envQ initWorld pivotInputs).player.lives = 5 ∧
    (runBall envQ initWorld pivotInputs).state.points = (104 - 103) - 10 * (5 - 5) :=
  ⟨by decide!, by decide!,
    (points_eq_bricks_minus_lives envQ (InitBall InitPlayer) pivotInputs).trans (by decide!)⟩

/-- C21 at concrete bricks: the first brick is at `(57, 60)`, the last one at `(693, 221)`
with right edge 743 and bottom edge 241, and the first two bricks of the top row have no
point in common. -/
theorem InitBrickWall_layout_witness :
    ((InitBrickWall : BrickWall ℚ).bricks 0 0).rect =
      { x := 57, y := 60, width := 50, height := 20 } ∧
    ((InitBrickWall : BrickWall ℚ).bricks 7 12).rect =
      { x := 693, y := 221, width := 50, height := 20 } ∧
    separatedBy 3 ((InitBrickWall : BrickWall ℚ).bricks 0 0).rect
      ((InitBrickWall : BrickWall ℚ).bricks 0 1).rect ∧
    ((InitBrickWall : BrickWall ℚ).bricks 0 1).rect.x -
      (((InitBrickWall : BrickWall ℚ).bricks 0 0).rect.x +
        ((InitBrickWall : BrickWall ℚ).bricks 0 0).rect.width) = 3 ∧
    ((InitBrickWall : BrickWall ℚ).bricks 1 0).rect.y -
      (((InitBrickWall : BrickWall ℚ).bricks 0 0).rect.y +
        ((InitBrickWall : BrickWall ℚ).bricks 0 0).rect.height) = 3 :=
  ⟨(InitBrickWall_layout 0 0 0 1).1.trans (by decide!),
    (InitBrickWall_layout 7 7 12 12).1.trans (by decide!),
    ((InitBrickWall_layout 0 0 0 1).2.2.1 (by decide)).1,
    (InitBrickWall_layout 0 0 0 1).2.2.2.1 rfl,
    (InitBrickWall_layout 0 1 0 0).2.2.2.2.1 rfl⟩

end Breakout
